import Mathlib

/-!
# Order placement of the food-delivery backend

A shallow embedding of `backend/routes/orders.js` (the handler of `POST /api/orders`),
of `backend/models/Coupon.js`, of the coupon check of `backend/routes/coupons.js`, of the
order update of `backend/routes/restaurant.js`, of the eSewa and Khalti handlers of
`backend/routes/payments.js` (initiation, success and failure callbacks, verification), of the
writing handlers of `backend/routes/addresses.js` and of `getDefaultCityCoordinates` of
`backend/services/geocoding.js`.

Conventions of the embedding:

* JavaScript numbers that hold amounts of money are rationals (exact arithmetic: no rounding,
  no `NaN`, no infinity), and so are the usage counters of a coupon, which the schema declares
  as numbers without asking for whole ones; stock and quantities are integers of either sign;
  dates are integer timestamps. An inequality between two amounts is stated only where it
  follows from a comparison that the code makes, not from the absence of rounding.
* Identifiers (`_id`, `userId`, `restaurantId`, ...) are strings; `none` stands for
  `null`/`undefined`.
* A collection read by `findById` only is a partial map from identifiers to documents; a
  collection that is searched by another field is a list of documents.
* The handler is a function from the database before the request to the database after it and
  the response; every `await x.save()` is a write to the database at that point of the
  handler, so a request that fails later keeps the writes made before.
* The schemas of `models/Product.js`, `models/Order.js` and `models/User.js` are not part of
  the sources. The validation that `save()` runs against them is a parameter of the
  environment (`Env.validProduct`, `Env.validOrder`, `Env.validCoupon`, and `OrderSchema` for
  the handlers that update an existing order): a failed validation throws, and the `catch` of
  the handler answers 500 (the payment callback redirects to the failure page). The address
  handlers take the validation of the user document as `AddressEnv.validUser`.
* Calls that leave the program are parameters: the decoding of the callback payload
  (`CallbackEnv.decode`), the verification request to Khalti (`KhaltiEnv.verify`), the keyed
  hash and the clock of the eSewa initiation (`InitiateEnv`).
* Requests are handled one at a time: a handler runs from its first read to its last write
  before the next request starts.
-/

namespace FoodDelivery

/-! ## JavaScript helpers -/

/-- Truthiness of a value that is a string, `null` or `undefined`: only a non-empty string is
truthy. -/
def truthyStr : Option String → Bool
  | some s => s != ""
  | none => false

/-- The expression `x || d` for a string `x` that may be absent. -/
def strOr (x : Option String) (d : String) : String :=
  match x with
  | some s => if s = "" then d else s
  | none => d

/-- The expression `x || d` for a number `x`; `none` stands for `NaN`/`undefined`, and `0` is
falsy. -/
def numOr (x : Option ℚ) (d : ℚ) : ℚ :=
  match x with
  | some v => if v = 0 then d else v
  | none => d

/-- The method `String.prototype.toUpperCase`, on ASCII letters. -/
def toUpperCase (s : String) : String := s.toUpper

/-! ## Data model -/

/-- A document of the `Product` collection (the fields the order handler reads or writes);
its `_id` is the key under which the collection holds it. -/
structure Product where
  name : String
  restaurantId : Option String
  price : ℚ
  stock : Int
  inStock : Bool
  isAvailable : Option Bool
  totalOrders : Int
deriving DecidableEq

/-- A document of the `Coupon` collection, `models/Coupon.js`. -/
structure Coupon where
  _id : String
  code : String
  discountPercent : ℚ
  maxDiscount : Option ℚ
  minOrderAmount : ℚ
  validFrom : Int
  validTo : Int
  isActive : Bool
  usageLimit : Option ℚ
  usedCount : ℚ
deriving DecidableEq

/-- The six fields of an address that an order copies. -/
structure AddressFields where
  label : Option String
  street : Option String
  city : Option String
  area : Option String
  landmark : Option String
  phone : Option String
deriving DecidableEq

/-- Coordinates of an address. -/
structure Coordinates where
  lat : ℚ
  lng : ℚ
deriving DecidableEq

/-- An address embedded in a user document. -/
structure Address where
  _id : String
  label : Option String
  street : Option String
  city : Option String
  area : Option String
  landmark : Option String
  phone : Option String
  isDefault : Bool
  coordinates : Option Coordinates
deriving DecidableEq

/-- A document of the `User` collection: the saved addresses and the order history. -/
structure User where
  addresses : List Address
  orders : List String
deriving DecidableEq

/-- A line item of a persisted order: the price is the number copied from the product. -/
structure OrderItem where
  productId : String
  qty : Int
  price : ℚ
deriving DecidableEq

/-- A document of the `Order` collection. -/
structure Order where
  _id : String
  userId : String
  restaurantId : Option String
  items : List OrderItem
  subtotal : ℚ
  deliveryCharge : ℚ
  couponCode : Option String
  discountAmount : ℚ
  total : ℚ
  deliveryAddress : Option AddressFields
  status : String
  restaurantStatus : String
  paymentMethod : String
  paymentStatus : String
  transactionId : Option String
  rejectionReason : Option String
  preparationTime : Option Int
deriving DecidableEq

/-- The database: products and users are read by `findById`, coupons by `findOne({ code })`,
orders are appended. -/
structure DB where
  products : String → Option Product
  coupons : List Coupon
  users : String → Option User
  orders : List Order

/-! ## Requests, environment and responses -/

/-- A line item of the request body: `{ productId, qty }`, `qty` possibly absent. -/
structure ItemReq where
  productId : String
  qty : Option Int
deriving DecidableEq

/-- The `couponCode` of the request body when present: a string, or a truthy value of another
type (an array of codes, for instance). -/
inductive CouponCodeField where
  | str (s : String)
  | other
deriving DecidableEq

/-- The body of `POST /api/orders` together with the id of the authenticated user
(`req.user.userId`). An absent `items` is the empty list: the handler answers both the same
way. -/
structure OrderRequest where
  userId : String
  items : List ItemReq
  paymentMethod : Option String
  deliveryAddressId : Option String
  deliveryAddress : Option AddressFields
  couponCode : Option CouponCodeField
  status : Option String

/-- What the handler takes from outside the request and the database: the clock, the
identifier given to a new order, the two environment variables after `parseFloat` (`none` is
`NaN`), and the schema validation run by `save()`. -/
structure Env where
  now : Int
  newOrderId : String
  envFreeDeliveryThreshold : Option ℚ
  envDeliveryCharge : Option ℚ
  validProduct : Product → Bool
  validCoupon : Coupon → Bool
  validOrder : Order → Bool

/-- The messages of the error responses of `POST /api/orders`. -/
inductive Message where
  /-- The message `No items in order`. -/
  | noItems
  /-- The message `User not found`. -/
  | userNotFound
  /-- The message `Delivery address not found`. -/
  | addressNotFound
  /-- The message `Product (id) not found`. -/
  | productNotFound (productId : String)
  /-- The message `Orders cannot contain items from multiple restaurants`. -/
  | multiRestaurant
  /-- The message `(name) is out of stock or insufficient quantity available. Available: (stock)`. -/
  | outOfStock (name : String) (available : Int)
  /-- The message `(name) is currently unavailable`. -/
  | unavailable (name : String)
  /-- The message `Only one coupon code can be applied per order`. -/
  | oneCouponOnly
  /-- The message `Coupon is expired or inactive`. -/
  | couponExpired
  /-- The message `Minimum order amount of NPR (amount) required for this coupon`. -/
  | belowMinimum (minOrderAmount : ℚ)
  /-- The message `Invalid coupon code`. -/
  | invalidCoupon
  /-- The message `Server Error`, the answer of the `catch` block. -/
  | serverError
deriving DecidableEq

/-- An error response: status code and message. -/
structure Failure where
  status : Nat
  message : Message
deriving DecidableEq

/-- The response of `POST /api/orders`: 201 with the order, or an error. -/
inductive Response where
  | created (order : Order)
  | error (status : Nat) (message : Message)
deriving DecidableEq

deriving instance DecidableEq for Except

/-! ## `models/Coupon.js` -/

/-- The method `couponSchema.methods.isValid`, with `new Date()` as the argument `now`. -/
def Coupon.isValid (c : Coupon) (now : Int) : Bool :=
  c.isActive &&
    decide (now ≥ c.validFrom) &&
    decide (now ≤ c.validTo) &&
    (match c.usageLimit with
      | none => true
      | some limit => decide (c.usedCount < limit))

/-! ## `routes/orders.js`: `POST /api/orders` -/

/-- The constant `FREE_DELIVERY_THRESHOLD` of the handler:
`parseFloat(process.env.FREE_DELIVERY_THRESHOLD) || 500`. -/
def FREE_DELIVERY_THRESHOLD (e : Env) : ℚ := numOr e.envFreeDeliveryThreshold 500

/-- The constant `DELIVERY_CHARGE` of the handler:
`parseFloat(process.env.DELIVERY_CHARGE) || 50`. -/
def DELIVERY_CHARGE (e : Env) : ℚ := numOr e.envDeliveryCharge 50

/-- The fields `label, street, city, area, landmark, phone` of a saved address. -/
def Address.fields (a : Address) : AddressFields :=
  { label := a.label, street := a.street, city := a.city, area := a.area,
    landmark := a.landmark, phone := a.phone }

/-- Lines 27-44 and 152-159: the delivery address of the order, or the 404 of an unknown
`deliveryAddressId`. The result is the copy of the six fields that the order stores (`none`
is the `null` stored when no address was resolved). -/
def resolveDeliveryAddress (user : User) (req : OrderRequest) :
    Except Failure (Option AddressFields) :=
  if truthyStr req.deliveryAddressId then
    match user.addresses.find? (fun a => some a._id == req.deliveryAddressId) with
    | none => .error ⟨404, .addressNotFound⟩
    | some a => .ok (some a.fields)
  else
    match req.deliveryAddress with
    | some inlineAddress => .ok (some inlineAddress)
    | none =>
      match user.addresses.find? (fun addr => addr.isDefault) with
      | some a => .ok (some a.fields)
      | none =>
        match user.addresses.head? with
        | some a => .ok (some a.fields)
        | none => .ok none

/-- The variables of the item loop (lines 46-48) and the product collection as the loop has
written it so far. -/
structure LoopState where
  products : String → Option Product
  total : ℚ
  orderItems : List OrderItem
  restaurantId : Option String

/-- The state in which the item loop starts (lines 46-48). -/
def LoopState.init (db : DB) : LoopState :=
  { products := db.products, total := 0, orderItems := [], restaurantId := none }

/-- The quantity of a line item, `item.qty || 1`. -/
def ItemReq.effectiveQty (item : ItemReq) : Int :=
  match item.qty with
  | some q => if q = 0 then 1 else q
  | none => 1

/-- The product as line 95-101 change it before `product.save()`. -/
def Product.reserve (product : Product) (qty : Int) : Product :=
  { product with
    totalOrders := product.totalOrders + qty
    stock := product.stock - qty
    inStock := if product.stock - qty ≤ 0 then false else product.inStock }

/-- One iteration of the loop `for (const item of items)` (lines 51-104): the state after the
iteration, or the response with which the handler returns. A failing iteration writes
nothing. Calling `toString` on the absent `restaurantId` of a product throws, which the
`catch` answers with 500. -/
def orderItemStep (e : Env) (st : LoopState) (item : ItemReq) : Except Failure LoopState :=
  match st.products item.productId with
  | none => .error ⟨404, .productNotFound item.productId⟩
  | some product =>
    if truthyStr st.restaurantId ∧ product.restaurantId = none then
      .error ⟨500, .serverError⟩
    else if truthyStr st.restaurantId ∧ product.restaurantId ≠ st.restaurantId then
      .error ⟨400, .multiRestaurant⟩
    else
      let qty := item.effectiveQty
      if product.inStock = false ∨ product.stock < qty then
        .error ⟨400, .outOfStock product.name product.stock⟩
      else if product.isAvailable = some false then
        .error ⟨400, .unavailable product.name⟩
      else if e.validProduct (product.reserve qty) = false then
        .error ⟨500, .serverError⟩
      else
        .ok { products := Function.update st.products item.productId (some (product.reserve qty))
              total := st.total + product.price * qty
              orderItems := st.orderItems ++ [{ productId := item.productId, qty := qty,
                                                price := product.price }]
              restaurantId := product.restaurantId }

/-- The loop over the items: it stops at the first failing iteration, keeping the products
written by the iterations before it. -/
def orderItemsLoop (e : Env) : List ItemReq → LoopState → LoopState × Option Failure
  | [], st => (st, none)
  | item :: rest, st =>
    match orderItemStep e st item with
    | .error f => (st, some f)
    | .ok st' => orderItemsLoop e rest st'

/-- The discount of lines 128-131 (the same two statements as lines 51-54 of
`routes/coupons.js`): the percentage of the amount, replaced by `maxDiscount` when
`maxDiscount` is truthy and smaller. -/
def discountFor (coupon : Coupon) (amount : ℚ) : ℚ :=
  let discountAmount := (amount * coupon.discountPercent) / 100
  match coupon.maxDiscount with
  | some maxDiscount =>
    if maxDiscount ≠ 0 ∧ discountAmount > maxDiscount then maxDiscount else discountAmount
  | none => discountAmount

/-- The write of `coupon.save()`: the document with the `_id` of the coupon is replaced. -/
def saveCoupon (coupons : List Coupon) (coupon : Coupon) : List Coupon :=
  coupons.map (fun c => if c._id = coupon._id then coupon else c)

/-- Lines 113-139: the coupon step. The result is the coupon collection after the step and
`discountAmount`, or the response with which the handler returns. -/
def applyCoupon (e : Env) (coupons : List Coupon) (subtotal : ℚ)
    (couponCode : Option CouponCodeField) : Except Failure (List Coupon × ℚ) :=
  match couponCode with
  | none => .ok (coupons, 0)
  | some .other => .error ⟨400, .oneCouponOnly⟩
  | some (.str code) =>
    if code = "" then .ok (coupons, 0)
    else
      match coupons.find? (fun c => c.code == toUpperCase code) with
      | some coupon =>
        if coupon.isValid e.now = false then .error ⟨400, .couponExpired⟩
        else if subtotal < coupon.minOrderAmount then
          .error ⟨400, .belowMinimum coupon.minOrderAmount⟩
        else
          let saved := { coupon with usedCount := coupon.usedCount + 1 }
          if e.validCoupon saved = false then .error ⟨500, .serverError⟩
          else .ok (saveCoupon coupons saved, discountFor coupon subtotal)
      | none => .error ⟨400, .invalidCoupon⟩

/-- The value stored as `couponCode`: `couponCode ? couponCode.toUpperCase() : null`. It is
evaluated only after the coupon step, which leaves a string or a falsy value. -/
def storedCouponCode : Option CouponCodeField → Option String
  | some (.str code) => if code = "" then none else some (toUpperCase code)
  | _ => none

/-- Lines 143-164: the order document built from the results of the earlier steps. -/
def buildOrder (e : Env) (req : OrderRequest) (st : LoopState) (discountAmount : ℚ)
    (deliveryAddress : Option AddressFields) : Order :=
  let subtotal := st.total
  let deliveryCharge := if subtotal ≥ FREE_DELIVERY_THRESHOLD e then 0 else DELIVERY_CHARGE e
  { _id := e.newOrderId
    userId := req.userId
    restaurantId := st.restaurantId
    items := st.orderItems
    subtotal := subtotal
    deliveryCharge := deliveryCharge
    couponCode := storedCouponCode req.couponCode
    discountAmount := discountAmount
    total := subtotal + deliveryCharge - discountAmount
    deliveryAddress := deliveryAddress
    status := strOr req.status "pending"
    restaurantStatus := "pending"
    paymentMethod := strOr req.paymentMethod "cash"
    paymentStatus := if req.paymentMethod = some "cash" then "completed" else "pending"
    transactionId := none
    rejectionReason := none
    preparationTime := none }

/-- The update `{ $push: { orders: orderId } }` of the user document. -/
def pushOrder (users : String → Option User) (userId orderId : String) : String → Option User :=
  match users userId with
  | some user => Function.update users userId (some { user with orders := user.orders ++ [orderId] })
  | none => users

/-- The handler of `POST /api/orders`: the database after the request and the response. -/
def createOrder (e : Env) (db : DB) (req : OrderRequest) : DB × Response :=
  if req.items.isEmpty then (db, .error 400 .noItems)
  else
    match db.users req.userId with
    | none => (db, .error 404 .userNotFound)
    | some user =>
      match resolveDeliveryAddress user req with
      | .error f => (db, .error f.status f.message)
      | .ok deliveryAddress =>
        match orderItemsLoop e req.items (LoopState.init db) with
        | (st, some f) => ({ db with products := st.products }, .error f.status f.message)
        | (st, none) =>
          match applyCoupon e db.coupons st.total req.couponCode with
          | .error f => ({ db with products := st.products }, .error f.status f.message)
          | .ok (coupons, discountAmount) =>
            let order := buildOrder e req st discountAmount deliveryAddress
            if e.validOrder order = false then
              ({ db with products := st.products, coupons := coupons },
                .error 500 .serverError)
            else
              ({ products := st.products
                 coupons := coupons
                 users := pushOrder db.users req.userId order._id
                 orders := db.orders ++ [order] },
                .created order)

/-! ## `routes/coupons.js`: `POST /api/coupons/validate` -/

/-- The successful answer of the coupon check. -/
structure CouponQuote where
  code : String
  discountPercent : ℚ
  discountAmount : ℚ
deriving DecidableEq

/-- The handler of `POST /api/coupons/validate` for a string `code` and a numeric
`orderAmount`; it writes nothing. -/
def validateCoupon (now : Int) (coupons : List Coupon) (code : String) (orderAmount : ℚ) :
    Except Failure CouponQuote :=
  match coupons.find? (fun c => c.code == toUpperCase code) with
  | none => .error ⟨404, .invalidCoupon⟩
  | some coupon =>
    if coupon.isValid now = false then .error ⟨400, .couponExpired⟩
    else if orderAmount < coupon.minOrderAmount then
      .error ⟨400, .belowMinimum coupon.minOrderAmount⟩
    else
      .ok { code := coupon.code, discountPercent := coupon.discountPercent,
            discountAmount := discountFor coupon orderAmount }

/-! ## Notions used to state the properties -/

/-- The orders that the request added to the `Order` collection. -/
def persistedOrders (e : Env) (db : DB) (req : OrderRequest) : List Order :=
  (createOrder e db req).1.orders.drop db.orders.length

/-- The price of a product of the collection, `0` for an unknown id. -/
def priceOf (products : String → Option Product) (productId : String) : ℚ :=
  match products productId with
  | some product => product.price
  | none => 0

/-- The sum of the quantities of the line items of a request that name the product. -/
def orderedQty (items : List ItemReq) (productId : String) : Int :=
  ((items.filter (fun item => item.productId = productId)).map ItemReq.effectiveQty).sum

/-- The coupon that `Coupon.findOne` returns for the `couponCode` of the request; `none` when
the request carries no (truthy, string) code or no coupon has the upper-cased code. -/
def appliedCoupon (db : DB) (req : OrderRequest) : Option Coupon :=
  match req.couponCode with
  | some (.str code) =>
    if code = "" then none else db.coupons.find? (fun c => c.code == toUpperCase code)
  | _ => none

/-- The cap that the guard `coupon.maxDiscount && ...` lets through: `null` and `0` are both
falsy, so neither caps the discount. -/
def truthyCap : Option ℚ → Option ℚ
  | some cap => if cap = 0 then none else some cap
  | none => none

/-- The discount in the words of the specification:
`min(orderAmount * discountPercent / 100, maxDiscount ?? infinity)`. -/
def specDiscount (discountPercent : ℚ) (maxDiscount : Option ℚ) (orderAmount : ℚ) : ℚ :=
  match maxDiscount with
  | some cap => min (orderAmount * discountPercent / 100) cap
  | none => orderAmount * discountPercent / 100

/-- The invariant of a product: `stock >= 0` and `inStock` equals `stock > 0`. -/
def Product.Inv (p : Product) : Prop :=
  0 ≤ p.stock ∧ p.inStock = decide (0 < p.stock)

/-- The fields of a product that the item loop never writes. -/
def Product.sameStatic (p p' : Product) : Prop :=
  p'.name = p.name ∧ p'.restaurantId = p.restaurantId ∧ p'.price = p.price ∧
    p'.isAvailable = p.isAvailable

/-! ## Scenario data

The databases and requests at which the properties are evaluated: the cart of the
specification (two units of a product at 180, the coupon `SAVE10`) and variations of it. -/

/-- The environment of the scenarios: no environment variable set, every document valid. -/
def scenarioEnv : Env :=
  { now := 100, newOrderId := "o1", envFreeDeliveryThreshold := none, envDeliveryCharge := none,
    validProduct := fun _ => true, validCoupon := fun _ => true, validOrder := fun _ => true }

/-- The scenario environment with `FREE_DELIVERY_THRESHOLD` configured as `0`. -/
def zeroThresholdEnv : Env := { scenarioEnv with envFreeDeliveryThreshold := some 0 }

/-- The scenario environment with `DELIVERY_CHARGE` configured as `0`. -/
def zeroFeeEnv : Env := { scenarioEnv with envDeliveryCharge := some 0 }

/-- The product `P1` of the scenarios: price 180, five in stock. -/
def scenarioProduct : Product :=
  { name := "Buff Steam Momo", restaurantId := some "r1", price := 180, stock := 5,
    inStock := true, isAvailable := some true, totalOrders := 0 }

/-- The coupon `SAVE10` of the scenarios: 10 percent, at most 30. -/
def scenarioCoupon : Coupon :=
  { _id := "c1", code := "SAVE10", discountPercent := 10, maxDiscount := some 30,
    minOrderAmount := 0, validFrom := 0, validTo := 1000, isActive := true,
    usageLimit := none, usedCount := 0 }

/-- The database of the scenarios: the product `P1`, the coupon `SAVE10`, the user `u1`. -/
def scenarioDB : DB :=
  { products := fun id => if id = "P1" then some scenarioProduct else none
    coupons := [scenarioCoupon]
    users := fun id => if id = "u1" then some { addresses := [], orders := [] } else none
    orders := [] }

/-- The request of the scenarios: two units of `P1`, paid in cash, no coupon. -/
def scenarioRequest : OrderRequest :=
  { userId := "u1", items := [{ productId := "P1", qty := some 2 }],
    paymentMethod := some "cash", deliveryAddressId := none, deliveryAddress := none,
    couponCode := none, status := none }

/-- The order that the scenario without coupon persists. -/
def scenarioOrder : Order :=
  { _id := "o1", userId := "u1", restaurantId := some "r1",
    items := [{ productId := "P1", qty := 2, price := 180 }],
    subtotal := 360, deliveryCharge := 50, couponCode := none, discountAmount := 0,
    total := 410, deliveryAddress := none, status := "pending", restaurantStatus := "pending",
    paymentMethod := "cash", paymentStatus := "completed", transactionId := none,
    rejectionReason := none, preparationTime := none }

/-- A coupon whose `maxDiscount` is the number `0`. -/
def zeroCapCoupon : Coupon :=
  { scenarioCoupon with _id := "c2", code := "TEN", maxDiscount := some 0 }

/-- The scenario database with the coupon `TEN` added. -/
def zeroCapDB : DB := { scenarioDB with coupons := [scenarioCoupon, zeroCapCoupon] }

/-- The scenario request with a coupon code. -/
def couponRequest (code : String) : OrderRequest :=
  { scenarioRequest with couponCode := some (.str code) }

/-- The order that the scenario with the coupon `SAVE10` persists. -/
def scenarioCouponOrder : Order :=
  { scenarioOrder with couponCode := some "SAVE10", discountAmount := 30, total := 380 }

/-- A second product, `P2`, of another restaurant. -/
def otherRestaurantProduct : Product :=
  { scenarioProduct with name := "Margherita", restaurantId := some "r2", price := 450 }

/-- The scenario database with the product `P2` of restaurant `r2` added. -/
def twoRestaurantDB : DB :=
  { scenarioDB with
    products := fun id =>
      if id = "P1" then some scenarioProduct
      else if id = "P2" then some otherRestaurantProduct
      else none }

/-- A request of the scenario user for the given line items. -/
def itemsRequest (items : List ItemReq) : OrderRequest :=
  { scenarioRequest with items := items }

/-- One unit of `P1` (restaurant `r1`) followed by one unit of `P2` (restaurant `r2`). -/
def mixedRequest : OrderRequest :=
  itemsRequest [{ productId := "P1", qty := some 1 }, { productId := "P2", qty := some 1 }]

/-- Nine units of `P2` (more than its stock) followed by one unit of `P1`. -/
def mixedShortRequest : OrderRequest :=
  itemsRequest [{ productId := "P2", qty := some 9 }, { productId := "P1", qty := some 1 }]

/-- The scenario database with only two units of `P1` in stock. -/
def lowStockDB : DB :=
  { scenarioDB with
    products := fun id => if id = "P1" then some { scenarioProduct with stock := 2 } else none }

/-- One unit of `P1` followed by three units of `P1`. -/
def repeatedRequest : OrderRequest :=
  itemsRequest [{ productId := "P1", qty := some 1 }, { productId := "P1", qty := some 3 }]

/-- One unit of `P1` (restaurant `r1`) followed by nine units of `P2` (restaurant `r2`, stock
5). -/
def mixedShortLaterRequest : OrderRequest :=
  itemsRequest [{ productId := "P1", qty := some 1 }, { productId := "P2", qty := some 9 }]

/-- Three units of `P1`. -/
def threeUnitsRequest : OrderRequest := itemsRequest [{ productId := "P1", qty := some 3 }]

/-- Five units of `P1`, all of its stock. -/
def allUnitsRequest : OrderRequest := itemsRequest [{ productId := "P1", qty := some 5 }]

/-! ## Sequences of requests -/

/-- A sequence of order-creation requests, handled one after the other, each with its own
environment: the database after the last of them. -/
def createOrders (db : DB) : List (Env × OrderRequest) → DB
  | [] => db
  | (e, req) :: rest => createOrders (createOrder e db req).1 rest

/-! ## Schemas and scenario data of the coupon, status and address properties -/

/-- Modelled from the spec: the schema of `models/Order.js`, which is not among the sources.
The data model of the specification gives `paymentMethod` the values `cash`, `esewa`,
`khalti` and `paymentStatus` the values `pending`, `completed`, `failed`; `save()` rejects an
order with another value. -/
def specOrderValid (o : Order) : Bool :=
  decide (o.paymentMethod ∈ ["cash", "esewa", "khalti"]) &&
    decide (o.paymentStatus ∈ ["pending", "completed", "failed"])

/-- The coupon `ONCE`: as `SAVE10`, but usable once. -/
def onceCoupon : Coupon :=
  { scenarioCoupon with _id := "c3", code := "ONCE", usageLimit := some 1 }

/-- The scenario database with the coupon `ONCE` added. -/
def onceDB : DB := { scenarioDB with coupons := [scenarioCoupon, onceCoupon] }

/-- The coupon `HALF`: as `SAVE10`, but with the `usageLimit` 1.5. -/
def halfCoupon : Coupon :=
  { scenarioCoupon with _id := "c6", code := "HALF", usageLimit := some (3 / 2) }

/-- The scenario database with the coupon `HALF` added. -/
def halfDB : DB := { scenarioDB with coupons := [scenarioCoupon, halfCoupon] }

/-- The scenario environment with the order schema of the specification. -/
def specSchemaEnv : Env := { scenarioEnv with validOrder := specOrderValid }

/-- The scenario request with the coupon `SAVE10` and the payment method `card`. -/
def cardRequest : OrderRequest :=
  { couponRequest "save10" with paymentMethod := some "card" }

/-- The validators that `couponSchema` (`models/Coupon.js`, lines 4-20) declares on the fields
of the embedding and that `save()` runs: `code` is required, `discountPercent` has `min: 0`
and `max: 100`. -/
def Coupon.schemaValid (c : Coupon) : Bool :=
  decide (c.code ≠ "") && decide (0 ≤ c.discountPercent) && decide (c.discountPercent ≤ 100)

/-- The scenario environment with the validators of `couponSchema`. -/
def couponSchemaEnv : Env := { scenarioEnv with validCoupon := Coupon.schemaValid }

/-- The coupon `MEGA`: as `SAVE10`, but with 150 percent, as an update through
`PUT /api/coupons/:id` (which runs no validator) can leave it. -/
def overPercentCoupon : Coupon :=
  { scenarioCoupon with _id := "c4", code := "MEGA", discountPercent := 150 }

/-- The coupon `OLD`: inactive, with a minimum order amount of 1000. -/
def inactiveCoupon : Coupon :=
  { scenarioCoupon with _id := "c5", code := "OLD", isActive := false, minOrderAmount := 1000 }

/-- The scenario database with the coupons `MEGA` and `OLD` added. -/
def oddCouponsDB : DB :=
  { scenarioDB with coupons := [scenarioCoupon, overPercentCoupon, inactiveCoupon] }

/-- The scenario request with an array of codes as `couponCode`. -/
def codeListRequest : OrderRequest := { scenarioRequest with couponCode := some .other }

/-- The scenario request without a `paymentMethod`. -/
def noMethodRequest : OrderRequest := { scenarioRequest with paymentMethod := none }

/-- A saved address of the scenarios. -/
def homeAddress : Address :=
  { _id := "a1", label := some "Home", street := some "Durbar Marg", city := some "Kathmandu",
    area := some "Ward 1", landmark := none, phone := some "9800000000", isDefault := false,
    coordinates := none }

/-- A second saved address of the scenarios, the default one. -/
def workAddress : Address :=
  { homeAddress with _id := "a2", label := some "Work", street := some "Pulchowk",
                     city := some "Lalitpur", isDefault := true }

/-- An inline address payload. -/
def inlineAddress : AddressFields :=
  { label := some "Hotel", street := some "Lakeside", city := some "Pokhara",
    area := some "Ward 6", landmark := some "Fewa", phone := some "9811111111" }

/-- The scenario database in which the user `u1` has the saved addresses `a1` and `a2`. -/
def addressDB : DB :=
  { scenarioDB with
    users := fun id =>
      if id = "u1" then some { addresses := [homeAddress, workAddress], orders := [] }
      else none }

/-- The scenario request with the given `deliveryAddressId` and inline `deliveryAddress`. -/
def addressRequest (deliveryAddressId : Option String) (deliveryAddress : Option AddressFields) :
    OrderRequest :=
  { scenarioRequest with
    deliveryAddressId := deliveryAddressId, deliveryAddress := deliveryAddress }

/-! ## `routes/restaurant.js`: `PUT /api/restaurant/orders/:id` -/

/-- What the handlers that read and write existing orders take from `models/Order.js`, which
is not among the sources: whether a string can be cast to the type of `_id` (`findById` and
`findOne` throw on a string that cannot), and the validation run by `save()`. -/
structure OrderSchema where
  castable : String → Bool
  validOrder : Order → Bool

/-- A document of the `Restaurant` collection (`models/Restaurant.js`): the fields that the
order update reads. -/
structure Restaurant where
  _id : String
  userId : String
deriving DecidableEq

/-- The request of the order update: the id of the authenticated operator
(`req.user.userId`), `req.params.id`, and the body. The handler runs after the middleware
`auth` and `restaurantAuth` have let the request through. -/
structure StatusUpdateRequest where
  userId : String
  orderId : String
  restaurantStatus : String
  rejectionReason : Option String
  preparationTime : Option Int

/-- The messages of the error responses of the order update. -/
inductive StatusUpdateMessage where
  /-- The message `Restaurant not found`. -/
  | restaurantNotFound
  /-- The message `Order not found`. -/
  | orderNotFound
  /-- The message `Server Error`, the answer of the `catch` block. -/
  | serverError
deriving DecidableEq

/-- The response of the order update: the updated order, or an error. -/
inductive StatusUpdateResponse where
  | ok (order : Order)
  | error (status : Nat) (message : StatusUpdateMessage)
deriving DecidableEq

/-- The write of `order.save()`: the document with the `_id` of the order is replaced. -/
def saveOrder (orders : List Order) (order : Order) : List Order :=
  orders.map (fun o => if o._id = order._id then order else o)

/-- Lines 137-156: the assignments to the order that was found. `rejectionReason` and
`preparationTime` are assigned when truthy (a non-empty string, a non-zero number); `status`
follows the four values `accepted`, `preparing`, `ready`, `rejected` and is left alone for any
other value. -/
def Order.applyStatusUpdate (order : Order) (req : StatusUpdateRequest) : Order :=
  { order with
    restaurantStatus := req.restaurantStatus
    rejectionReason :=
      if truthyStr req.rejectionReason then req.rejectionReason else order.rejectionReason
    preparationTime :=
      match req.preparationTime with
      | some t => if t = 0 then order.preparationTime else some t
      | none => order.preparationTime
    status :=
      if req.restaurantStatus = "accepted" then "pending"
      else if req.restaurantStatus = "preparing" then "preparing"
      else if req.restaurantStatus = "ready" then "delivering"
      else if req.restaurantStatus = "rejected" then "cancelled"
      else order.status }

/-- The handler of `PUT /api/restaurant/orders/:id`: the database after the request and the
response. The restaurant collection is only read. -/
def updateOrderStatus (s : OrderSchema) (restaurants : List Restaurant) (db : DB)
    (req : StatusUpdateRequest) : DB × StatusUpdateResponse :=
  match restaurants.find? (fun r => r.userId == req.userId) with
  | none => (db, .error 404 .restaurantNotFound)
  | some restaurant =>
    if s.castable req.orderId = false then (db, .error 500 .serverError)
    else
      match db.orders.find?
          (fun o => o._id == req.orderId && o.restaurantId == some restaurant._id) with
      | none => (db, .error 404 .orderNotFound)
      | some order =>
        if s.validOrder (order.applyStatusUpdate req) = false then
          (db, .error 500 .serverError)
        else
          ({ db with orders := saveOrder db.orders (order.applyStatusUpdate req) },
            .ok (order.applyStatusUpdate req))

/-- An order schema that casts every string and accepts every order. -/
def laxSchema : OrderSchema := { castable := fun _ => true, validOrder := fun _ => true }

/-- The restaurant `r1` of the scenarios, operated by the user `op1`. -/
def scenarioRestaurant : Restaurant := { _id := "r1", userId := "op1" }

/-- The scenario database after the scenario request: the pending order `o1`, and the product
`P1` with the stock 3 that the order left. -/
def orderedDB : DB := (createOrder scenarioEnv scenarioDB scenarioRequest).1

/-- The operator of `r1` sets the order `o1` to the given `restaurantStatus`. -/
def statusRequest (restaurantStatus : String) : StatusUpdateRequest :=
  { userId := "op1", orderId := "o1", restaurantStatus := restaurantStatus,
    rejectionReason := none, preparationTime := none }

/-! ## `routes/payments.js`: `GET /api/payments/esewa/success` -/

/-- The object that the `data` parameter decodes to: the three fields that the callbacks
destructure, each possibly absent. -/
structure EsewaPayload where
  transaction_uuid : Option String
  total_amount : Option String
  transaction_code : Option String
deriving DecidableEq

/-- What the payment callbacks take from outside the request and the database:
`process.env.FRONTEND_URL`; the library call
`JSON.parse(Buffer.from(data, 'base64').toString('utf-8'))`, where `none` stands for a thrown
error or a value that cannot be destructured; and the order schema. -/
structure CallbackEnv where
  envFrontendUrl : Option String
  decode : String → Option EsewaPayload
  schema : OrderSchema

/-- The constant `frontendUrl`: `process.env.FRONTEND_URL || 'http://localhost:5173'`. -/
def frontendUrl (e : CallbackEnv) : String := strOr e.envFrontendUrl "http://localhost:5173"

/-- The expression `transaction_uuid.split('-')[0]`: the characters in front of the first
`-`. -/
def firstSegment (s : String) : String :=
  String.mk (s.toList.takeWhile (fun c => c ≠ '-'))

/-- A value inside a template string: `undefined` is rendered by its name. -/
def render : Option String → String
  | some s => s
  | none => "undefined"

/-- The location of the redirect to the failure page without an order id. -/
def failureUrl (e : CallbackEnv) : String := frontendUrl e ++ "/payment/failure"

/-- The location of the redirect to the success page. -/
def successUrl (e : CallbackEnv) (orderId : String) (transaction_code : Option String) :
    String :=
  frontendUrl e ++ "/payment/success?orderId=" ++ orderId ++ "&refId=" ++ render transaction_code

/-- Lines 94-96: the assignments of the success callback to the order that was found. -/
def Order.markPaid (order : Order) (transaction_code : Option String) : Order :=
  { order with
    paymentStatus := "completed", status := "preparing", transactionId := transaction_code }

/-- The handler of `GET /api/payments/esewa/success` for the query parameter `data` (`none`
when absent): the database after the request and the location of the redirect. Every throw
inside the `try` (decoding, `split` on an absent `transaction_uuid`, the failed cast of
`findById`, a rejected `save()`) ends in the `catch`, which redirects to the failure page. -/
def esewaSuccess (e : CallbackEnv) (db : DB) (data : Option String) : DB × String :=
  match data with
  | none => (db, failureUrl e)
  | some data =>
    match e.decode data with
    | none => (db, failureUrl e)
    | some payload =>
      match payload.transaction_uuid with
      | none => (db, failureUrl e)
      | some transaction_uuid =>
        let orderId := firstSegment transaction_uuid
        if e.schema.castable orderId = false then (db, failureUrl e)
        else
          match db.orders.find? (fun o => o._id == orderId) with
          | some order =>
            if e.schema.validOrder (order.markPaid payload.transaction_code) = false then
              (db, failureUrl e)
            else
              ({ db with orders := saveOrder db.orders (order.markPaid payload.transaction_code) },
                successUrl e orderId payload.transaction_code)
          | none => (db, successUrl e orderId payload.transaction_code)

/-- The cast of Mongoose to an `ObjectId`: a string of 24 hexadecimal digits. -/
def isObjectIdHex (s : String) : Bool :=
  s.length == 24 && s.toList.all (fun c => c.isDigit || ('a' ≤ c && c ≤ 'f') || ('A' ≤ c && c ≤ 'F'))

/-- The payload of the scenario callback: the transaction of an order with the id
`64b7f3a2c1d2e3f4a5b6c7d8`, with the reference `0007XYZ`. -/
def scenarioPayload : EsewaPayload :=
  { transaction_uuid := some "64b7f3a2c1d2e3f4a5b6c7d8-1700000000000",
    total_amount := some "410", transaction_code := some "0007XYZ" }

/-- The `data` parameter of the scenario callback: the base64 text of the JSON text of the
scenario payload. -/
def scenarioData : String :=
  "eyJ0cmFuc2FjdGlvbl91dWlkIjoiNjRiN2YzYTJjMWQyZTNmNGE1YjZjN2Q4LTE3MDAwMDAwMDAwMDAiLCJ0b3RhbF9hbW91bnQiOiI0MTAiLCJ0cmFuc2FjdGlvbl9jb2RlIjoiMDAwN1hZWiJ9"

/-- The environment of the callback scenarios: no `FRONTEND_URL`, the scenario `data` decodes
to the scenario payload and nothing else decodes, ids are cast as Mongoose does, every order
is valid. -/
def callbackEnv : CallbackEnv :=
  { envFrontendUrl := none
    decode := fun data => if data = scenarioData then some scenarioPayload else none
    schema := { castable := isObjectIdHex, validOrder := fun _ => true } }

/-- The scenario order with the id `64b7f3a2c1d2e3f4a5b6c7d8`, to be paid through eSewa. -/
def esewaOrder : Order :=
  { scenarioOrder with
    _id := "64b7f3a2c1d2e3f4a5b6c7d8", paymentMethod := "esewa", paymentStatus := "pending",
    status := "draft" }

/-- The scenario database holding the order `64b7f3a2c1d2e3f4a5b6c7d8`. -/
def esewaDB : DB := { scenarioDB with orders := [scenarioOrder, esewaOrder] }

/-! ## `routes/payments.js`: `GET /api/payments/esewa/failure` -/

/-- The location of the redirect to the failure page with an order id. -/
def failureUrlFor (e : CallbackEnv) (orderId : String) : String :=
  frontendUrl e ++ "/payment/failure?orderId=" ++ orderId

/-- Line 123: the assignment of the failure callback to the order that was found. -/
def Order.markFailed (order : Order) : Order :=
  { order with paymentStatus := "failed" }

/-- The handler of `GET /api/payments/esewa/failure` for the query parameter `data` (`none`
when absent): the database after the request and the location of the redirect. A falsy
`data` (absent or empty) goes to the `else` branch; every throw inside the `try` ends in the
`catch`; both redirect to the failure page without an order id. -/
def esewaFailure (e : CallbackEnv) (db : DB) (data : Option String) : DB × String :=
  match data with
  | none => (db, failureUrl e)
  | some data =>
    if data = "" then (db, failureUrl e)
    else
      match e.decode data with
      | none => (db, failureUrl e)
      | some payload =>
        match payload.transaction_uuid with
        | none => (db, failureUrl e)
        | some transaction_uuid =>
          let orderId := firstSegment transaction_uuid
          if e.schema.castable orderId = false then (db, failureUrl e)
          else
            match db.orders.find? (fun o => o._id == orderId) with
            | some order =>
              if e.schema.validOrder order.markFailed = false then (db, failureUrl e)
              else
                ({ db with orders := saveOrder db.orders order.markFailed },
                  failureUrlFor e orderId)
            | none => (db, failureUrlFor e orderId)

/-! ## `routes/payments.js`: `POST /api/payments/khalti/verify` -/

/-- What `await axios.post(verifyUrl, ...)` does: it throws (a transport error, or a status
outside 2xx), or it returns a response, of which the handler reads `response.data.idx`
(`none` when `response.data` or `idx` is absent). -/
inductive ProviderOutcome where
  | threw
  | returned (idx : Option String)
deriving DecidableEq

/-- What the Khalti verification takes from outside the request and the database: the call to
the provider, for the `token` and `amount` of the body, and the order schema. -/
structure KhaltiEnv where
  verify : Option String → Option ℚ → ProviderOutcome
  schema : OrderSchema

/-- The body of `POST /api/payments/khalti/verify`. -/
structure KhaltiRequest where
  token : Option String
  amount : Option ℚ
  orderId : String

/-- The responses of `POST /api/payments/khalti/verify`. -/
inductive KhaltiResponse where
  /-- The answer 200 with `success: true`, `Payment verified successfully` and the
  `transactionId`. -/
  | verified (transactionId : String)
  /-- The answer 400 with `success: false` and `Payment verification failed`. -/
  | verificationFailed
  /-- The answer 500 with `success: false` and `Server Error`. -/
  | serverError
deriving DecidableEq

/-- The handler of `POST /api/payments/khalti/verify`: the database after the request and the
response. -/
def khaltiVerify (e : KhaltiEnv) (db : DB) (req : KhaltiRequest) : DB × KhaltiResponse :=
  match e.verify req.token req.amount with
  | .threw => (db, .serverError)
  | .returned none => (db, .verificationFailed)
  | .returned (some idx) =>
    if idx = "" then (db, .verificationFailed)
    else if e.schema.castable req.orderId = false then (db, .serverError)
    else
      match db.orders.find? (fun o => o._id == req.orderId) with
      | some order =>
        if e.schema.validOrder (order.markPaid (some idx)) = false then (db, .serverError)
        else
          ({ db with orders := saveOrder db.orders (order.markPaid (some idx)) },
            .verified idx)
      | none => (db, .verified idx)

/-! ## `routes/payments.js`: `POST /api/payments/esewa/initiate` -/

/-- What the initiation of an eSewa payment takes from outside the request and the database:
the five environment variables of lines 9-13, `Date.now()`, the library call
`crypto.createHmac('sha256', secret).update(message).digest('base64')` of
`generateEsewaSignature`, `Number.prototype.toString`, and the cast of `findById`. -/
structure InitiateEnv where
  envMerchantId : Option String
  envMerchantSecret : Option String
  envSuccessUrl : Option String
  envFailureUrl : Option String
  envPaymentUrl : Option String
  now : Nat
  hmacSha256Base64 : (secret message : String) → String
  numberToString : ℚ → String
  castable : String → Bool

/-- The constant `ESEWA_MERCHANT_ID`. -/
def ESEWA_MERCHANT_ID (e : InitiateEnv) : String := strOr e.envMerchantId "EPAYTEST"

/-- The constant `ESEWA_MERCHANT_SECRET`. -/
def ESEWA_MERCHANT_SECRET (e : InitiateEnv) : String :=
  strOr e.envMerchantSecret "8gBm/:&EnhH.1/q"

/-- The constant `ESEWA_SUCCESS_URL`. -/
def ESEWA_SUCCESS_URL (e : InitiateEnv) : String :=
  strOr e.envSuccessUrl "http://localhost:5000/api/payments/esewa/success"

/-- The constant `ESEWA_FAILURE_URL`. -/
def ESEWA_FAILURE_URL (e : InitiateEnv) : String :=
  strOr e.envFailureUrl "http://localhost:5000/api/payments/esewa/failure"

/-- The constant `ESEWA_PAYMENT_URL`. -/
def ESEWA_PAYMENT_URL (e : InitiateEnv) : String :=
  strOr e.envPaymentUrl "https://rc-epay.esewa.com.np/api/epay/main/v2/form"

/-- The function `generateEsewaSignature(message, secret)`. -/
def generateEsewaSignature (e : InitiateEnv) (message secret : String) : String :=
  e.hmacSha256Base64 secret message

/-- The object `paymentData` of lines 55-67. -/
structure PaymentData where
  amount : String
  tax_amount : String
  total_amount : String
  transaction_uuid : String
  product_code : String
  product_service_charge : String
  product_delivery_charge : String
  success_url : String
  failure_url : String
  signed_field_names : String
  signature : String
deriving DecidableEq

/-- The messages of the error responses of the initiation. -/
inductive InitiateMessage where
  /-- The message `Order not found`. -/
  | orderNotFound
  /-- The message `Unauthorized`. -/
  | unauthorized
  /-- The message `Server Error`, the answer of the `catch` block. -/
  | serverError
deriving DecidableEq

/-- The response of `POST /api/payments/esewa/initiate`. -/
inductive InitiateResponse where
  | ok (paymentUrl : String) (paymentData : PaymentData)
  | error (status : Nat) (message : InitiateMessage)
deriving DecidableEq

/-- Line 49: the transaction identifier, the order id, `-` and the timestamp. -/
def transactionUuid (orderId : String) (now : Nat) : String :=
  orderId ++ "-" ++ toString now

/-- Line 52: the message that is signed. -/
def signedMessage (totalAmount transactionUuid productCode : String) : String :=
  "total_amount=" ++ totalAmount ++ ",transaction_uuid=" ++ transactionUuid ++
    ",product_code=" ++ productCode

/-- The handler of `POST /api/payments/esewa/initiate` for the authenticated user
`req.user.userId` and the `orderId` of the body: the database after the request and the
response. -/
def esewaInitiate (e : InitiateEnv) (db : DB) (userId orderId : String) :
    DB × InitiateResponse :=
  if e.castable orderId = false then (db, .error 500 .serverError)
  else
    match db.orders.find? (fun o => o._id == orderId) with
    | none => (db, .error 404 .orderNotFound)
    | some order =>
      if order.userId ≠ userId then (db, .error 403 .unauthorized)
      else
        let amount := e.numberToString order.total
        let totalAmount := amount
        let transactionUuid := transactionUuid orderId e.now
        let message := signedMessage totalAmount transactionUuid (ESEWA_MERCHANT_ID e)
        let signature := generateEsewaSignature e message (ESEWA_MERCHANT_SECRET e)
        (db, .ok (ESEWA_PAYMENT_URL e)
          { amount := amount
            tax_amount := "0"
            total_amount := totalAmount
            transaction_uuid := transactionUuid
            product_code := ESEWA_MERCHANT_ID e
            product_service_charge := "0"
            product_delivery_charge := "0"
            success_url := ESEWA_SUCCESS_URL e
            failure_url := ESEWA_FAILURE_URL e
            signed_field_names := "total_amount,transaction_uuid,product_code"
            signature := signature })

/-- The field of `paymentData` with the given name. -/
def PaymentData.field (p : PaymentData) (name : String) : String :=
  if name = "amount" then p.amount
  else if name = "tax_amount" then p.tax_amount
  else if name = "total_amount" then p.total_amount
  else if name = "transaction_uuid" then p.transaction_uuid
  else if name = "product_code" then p.product_code
  else if name = "product_service_charge" then p.product_service_charge
  else if name = "product_delivery_charge" then p.product_delivery_charge
  else if name = "success_url" then p.success_url
  else if name = "failure_url" then p.failure_url
  else if name = "signed_field_names" then p.signed_field_names
  else if name = "signature" then p.signature
  else ""

/-- The canonical string of the specification: the fields named in `signed_field_names`, in
that order, each as `name=value`, joined by commas. -/
def canonicalString (p : PaymentData) : String :=
  ",".intercalate ((p.signed_field_names.splitOn ",").map (fun name => name ++ "=" ++ p.field name))

/-! ## Scenario data of the payment properties -/

/-- The provider of the scenarios: it verifies the token `tok_ok` with the `idx` `KH123`,
answers the token `tok_bad` without an `idx`, and fails on every other call. -/
def khaltiEnv : KhaltiEnv :=
  { verify := fun token _ =>
      if token = some "tok_ok" then .returned (some "KH123")
      else if token = some "tok_bad" then .returned none
      else .threw
    schema := { castable := isObjectIdHex, validOrder := fun _ => true } }

/-- The verification request of the scenarios for the order `64b7f3a2c1d2e3f4a5b6c7d8`, with
the given token. -/
def khaltiRequest (token : String) : KhaltiRequest :=
  { token := some token, amount := some 41000, orderId := "64b7f3a2c1d2e3f4a5b6c7d8" }

/-- The environment of the initiation scenario: no environment variable is set, the clock
reads `1700000000000`, ids are cast as Mongoose does, whole amounts are written in decimal
digits, and a stand-in keyed hash that writes the secret and the message side by side. -/
def initiateEnv : InitiateEnv :=
  { envMerchantId := none
    envMerchantSecret := none
    envSuccessUrl := none
    envFailureUrl := none
    envPaymentUrl := none
    now := 1700000000000
    hmacSha256Base64 := fun secret message => "hmac[" ++ secret ++ "][" ++ message ++ "]"
    numberToString := fun q => toString q.floor
    castable := isObjectIdHex }

/-- The form fields that the initiation scenario returns for the order
`64b7f3a2c1d2e3f4a5b6c7d8`, whose total is 410. -/
def scenarioPaymentData : PaymentData :=
  { amount := "410"
    tax_amount := "0"
    total_amount := "410"
    transaction_uuid := "64b7f3a2c1d2e3f4a5b6c7d8-1700000000000"
    product_code := "EPAYTEST"
    product_service_charge := "0"
    product_delivery_charge := "0"
    success_url := "http://localhost:5000/api/payments/esewa/success"
    failure_url := "http://localhost:5000/api/payments/esewa/failure"
    signed_field_names := "total_amount,transaction_uuid,product_code"
    signature := "hmac[8gBm/:&EnhH.1/q][total_amount=410,transaction_uuid=64b7f3a2c1d2e3f4a5b6c7d8-1700000000000,product_code=EPAYTEST]" }

/-- The payload that eSewa sends back for a transaction identifier. -/
def payloadFor (transaction_uuid : String) : EsewaPayload :=
  { transaction_uuid := some transaction_uuid, total_amount := none, transaction_code := none }

/-! ## `routes/addresses.js` -/

/-- The `coordinates` of a request body; `none` is an absent (or otherwise falsy) number. -/
structure CoordinatesBody where
  lat : Option ℚ
  lng : Option ℚ
deriving DecidableEq

/-- The body of `POST /api/addresses` and of `PUT /api/addresses/:id`; `none` is
`undefined`. -/
structure AddressBody where
  label : Option String
  street : Option String
  city : Option String
  area : Option String
  landmark : Option String
  phone : Option String
  isDefault : Option Bool
  coordinates : Option CoordinatesBody
deriving DecidableEq

/-- What the address handlers take from outside the request and the database: the `_id` that
Mongoose gives to a pushed address, and the validation of the user document by `save()`. -/
structure AddressEnv where
  newAddressId : String
  validUser : User → Bool

/-- The messages of the error responses of the address handlers. -/
inductive AddressMessage where
  /-- The message `User not found`. -/
  | userNotFound
  /-- The message `Address not found`. -/
  | addressNotFound
  /-- The message `Server Error`, the answer of the `catch` blocks. -/
  | serverError
deriving DecidableEq

/-- The responses of the address handlers. -/
inductive AddressResponse where
  /-- The answer with an address: 201 for the added one, 200 for an updated one. -/
  | address (status : Nat) (address : Address)
  /-- The answer 200 with `Address deleted successfully`. -/
  | deleted
  | error (status : Nat) (message : AddressMessage)
deriving DecidableEq

/-- The loop `user.addresses.forEach(addr => { addr.isDefault = false; })`. -/
def unsetDefaults (addresses : List Address) : List Address :=
  addresses.map (fun addr => { addr with isDefault := false })

/-- The call `user.addresses.id(id)`: the first address with that `_id`. -/
def addressById (addresses : List Address) (id : String) : Option Address :=
  addresses.find? (fun a => a._id == id)

/-- An assignment to the address that `user.addresses.id(id)` returned: that address, the first
one with the `_id`, is changed in its place in the list. -/
def assignAddress (id : String) (f : Address → Address) : List Address → List Address
  | [] => []
  | a :: rest => if a._id = id then f a :: rest else a :: assignAddress id f rest

/-- The test `coordinates && coordinates.lat && coordinates.lng` and the object built from it
when it holds (the number `0` is falsy). -/
def providedCoordinates (coordinates : Option CoordinatesBody) : Option Coordinates :=
  match coordinates with
  | some c =>
    match c.lat, c.lng with
    | some lat, some lng => if lat ≠ 0 ∧ lng ≠ 0 then some { lat := lat, lng := lng } else none
    | _, _ => none
  | none => none

/-- The expression `x || d` for two strings that may be absent. -/
def strOrElse (x d : Option String) : Option String :=
  if truthyStr x then x else d

/-- The database after `user.save()`. -/
def saveUser (db : DB) (userId : String) (user : User) : DB :=
  { db with users := Function.update db.users userId (some user) }

/-- The handler of `POST /api/addresses` for the authenticated user. -/
def addAddress (e : AddressEnv) (db : DB) (userId : String) (body : AddressBody) :
    DB × AddressResponse :=
  match db.users userId with
  | none => (db, .error 404 .userNotFound)
  | some user =>
    let addresses :=
      if body.isDefault = some true then unsetDefaults user.addresses else user.addresses
    let makeDefault := body.isDefault == some true || addresses.length == 0
    let newAddress : Address :=
      { _id := e.newAddressId
        label := body.label
        street := body.street
        city := body.city
        area := body.area
        landmark := body.landmark
        phone := body.phone
        isDefault := makeDefault
        coordinates := providedCoordinates body.coordinates }
    let saved := { user with addresses := addresses ++ [newAddress] }
    if e.validUser saved = false then (db, .error 500 .serverError)
    else (saveUser db userId saved, .address 201 newAddress)

/-- Lines 113-127: the assignments of the update to the address that was found. -/
def Address.assign (address : Address) (body : AddressBody) : Address :=
  { address with
    label := strOrElse body.label address.label
    street := strOrElse body.street address.street
    city := strOrElse body.city address.city
    area := strOrElse body.area address.area
    landmark := match body.landmark with
      | some landmark => some landmark
      | none => address.landmark
    phone := strOrElse body.phone address.phone
    isDefault := match body.isDefault with
      | some isDefault => isDefault
      | none => address.isDefault
    coordinates := match providedCoordinates body.coordinates with
      | some coordinates => some coordinates
      | none => address.coordinates }

/-- The handler of `PUT /api/addresses/:id` for the authenticated user. -/
def updateAddress (e : AddressEnv) (db : DB) (userId id : String) (body : AddressBody) :
    DB × AddressResponse :=
  match db.users userId with
  | none => (db, .error 404 .userNotFound)
  | some user =>
    match addressById user.addresses id with
    | none => (db, .error 404 .addressNotFound)
    | some address =>
      let addresses :=
        if body.isDefault = some true then unsetDefaults user.addresses else user.addresses
      let address :=
        if body.isDefault = some true then { address with isDefault := false } else address
      let addresses := assignAddress id (fun address => address.assign body) addresses
      let saved := { user with addresses := addresses }
      if e.validUser saved = false then (db, .error 500 .serverError)
      else (saveUser db userId saved, .address 200 (address.assign body))

/-- The call `user.addresses.pull(id)`. -/
def pullAddress (addresses : List Address) (id : String) : List Address :=
  addresses.filter (fun a => a._id != id)

/-- The assignment `user.addresses[0].isDefault = true`. -/
def promoteFirst : List Address → List Address
  | [] => []
  | a :: rest => { a with isDefault := true } :: rest

/-- The handler of `DELETE /api/addresses/:id` for the authenticated user. -/
def deleteAddress (e : AddressEnv) (db : DB) (userId id : String) : DB × AddressResponse :=
  match db.users userId with
  | none => (db, .error 404 .userNotFound)
  | some user =>
    match addressById user.addresses id with
    | none => (db, .error 404 .addressNotFound)
    | some address =>
      let wasDefault := address.isDefault
      let remaining := pullAddress user.addresses id
      let addresses :=
        if wasDefault = true ∧ remaining.length > 0 then promoteFirst remaining else remaining
      let saved := { user with addresses := addresses }
      if e.validUser saved = false then (db, .error 500 .serverError)
      else (saveUser db userId saved, .deleted)

/-- The handler of `PUT /api/addresses/:id/default` for the authenticated user. -/
def setDefaultAddress (e : AddressEnv) (db : DB) (userId id : String) : DB × AddressResponse :=
  match db.users userId with
  | none => (db, .error 404 .userNotFound)
  | some user =>
    match addressById user.addresses id with
    | none => (db, .error 404 .addressNotFound)
    | some address =>
      let addresses :=
        assignAddress id (fun address => { address with isDefault := true })
          (unsetDefaults user.addresses)
      let saved := { user with addresses := addresses }
      if e.validUser saved = false then (db, .error 500 .serverError)
      else (saveUser db userId saved, .address 200 { address with isDefault := true })

/-- A request to one of the four address handlers that write. -/
inductive AddressRequest where
  | add (body : AddressBody)
  | update (id : String) (body : AddressBody)
  | delete (id : String)
  | setDefault (id : String)
deriving DecidableEq

/-- The router of `routes/addresses.js` on the writing requests. -/
def handleAddressRequest (e : AddressEnv) (db : DB) (userId : String) :
    AddressRequest → DB × AddressResponse
  | .add body => addAddress e db userId body
  | .update id body => updateAddress e db userId id body
  | .delete id => deleteAddress e db userId id
  | .setDefault id => setDefaultAddress e db userId id

/-- The number of addresses of a list with `isDefault = true`. -/
def defaultCount (addresses : List Address) : Nat :=
  addresses.countP (fun a => a.isDefault)

/-! ## Scenario data of the address properties -/

/-- The environment of the address scenarios: the next address gets the `_id` `a9`, and every
user document is valid. -/
def addressEnv : AddressEnv := { newAddressId := "a9", validUser := fun _ => true }

/-- A third saved address of the scenarios, not a default one. -/
def officeAddress : Address :=
  { homeAddress with _id := "a3", label := some "Office", street := some "New Road" }

/-- The scenario database in which the user `u1` has the saved addresses `a1`, `a2` (the
default one) and `a3`. -/
def threeAddressDB : DB :=
  { scenarioDB with
    users := fun id =>
      if id = "u1" then
        some { addresses := [homeAddress, workAddress, officeAddress], orders := [] }
      else none }

/-- A request body that names only `isDefault`. -/
def defaultBody (isDefault : Option Bool) : AddressBody :=
  { label := none, street := none, city := none, area := none, landmark := none,
    phone := none, isDefault := isDefault, coordinates := none }

/-! ## `services/geocoding.js`: `getDefaultCityCoordinates` -/

/-- The method `String.prototype.toLowerCase`, on ASCII letters. -/
def toLowerCase (s : String) : String := s.toLower

/-- The method `String.prototype.trim`, on ASCII white space. -/
def trim (s : String) : String := s.trim

/-- A value that the property access `cityCoords[key]` can yield. -/
inductive CityValue where
  /-- An object `{ lat, lng }` of the table. -/
  | coordinates (lat lng : ℚ)
  /-- The value of a property that the object literal inherits from `Object.prototype`: the
  function `Object` for `constructor`, the object `Object.prototype` for `__proto__`, a built-in
  method for the other names. None of them has a `lat` or a `lng`. -/
  | inherited (property : String)
  /-- The value `undefined` of a name that is no property. -/
  | undefined
deriving DecidableEq

/-- The own properties of the object literal `cityCoords` of lines 126-137. -/
def cityCoords : List (String × Coordinates) :=
  [("kathmandu", { lat := 27.7172, lng := 85.3240 }),
   ("pokhara", { lat := 28.2096, lng := 83.9856 }),
   ("lalitpur", { lat := 27.6667, lng := 85.3167 }),
   ("bhaktapur", { lat := 27.6710, lng := 85.4298 }),
   ("biratnagar", { lat := 26.4525, lng := 87.2718 }),
   ("birgunj", { lat := 27.0104, lng := 84.8767 }),
   ("dharan", { lat := 26.8125, lng := 87.2833 }),
   ("hetauda", { lat := 27.4287, lng := 85.0325 }),
   ("janakpur", { lat := 26.7288, lng := 85.9244 }),
   ("butwal", { lat := 27.7000, lng := 83.4500 })]

/-- The names of the properties of `Object.prototype`, the prototype of every object
literal. -/
def objectPrototypeProperties : List String :=
  ["constructor", "__proto__", "hasOwnProperty", "isPrototypeOf", "propertyIsEnumerable",
   "toLocaleString", "toString", "valueOf", "__defineGetter__", "__defineSetter__",
   "__lookupGetter__", "__lookupSetter__"]

/-- The property access `cityCoords[key]`: an own property of the literal, else a property found
on the prototype chain, else `undefined`. -/
def cityCoordsGet (key : String) : CityValue :=
  match cityCoords.lookup key with
  | some c => .coordinates c.lat c.lng
  | none => if key ∈ objectPrototypeProperties then .inherited key else .undefined

/-- Truthiness of a value of the property access: objects and functions are truthy,
`undefined` is falsy. -/
def CityValue.truthy : CityValue → Bool
  | .coordinates _ _ => true
  | .inherited _ => true
  | .undefined => false

/-- The function `getDefaultCityCoordinates(city)` of lines 125-141. -/
def getDefaultCityCoordinates (city : String) : CityValue :=
  let normalizedCity := trim (toLowerCase city)
  if (cityCoordsGet normalizedCity).truthy then cityCoordsGet normalizedCity
  else cityCoordsGet "kathmandu"

/-! ## Scenario data of the quantity property -/

/-- A request for minus one unit of `P1`. -/
def negativeQtyRequest : OrderRequest := itemsRequest [{ productId := "P1", qty := some (-1) }]

/-! ## The item loop -/

theorem orderItemStep_ok {e : Env} {st st' : LoopState} {item : ItemReq}
    (h : orderItemStep e st item = .ok st') :
    ∃ product, st.products item.productId = some product ∧
      (truthyStr st.restaurantId = true → product.restaurantId = st.restaurantId) ∧
      product.inStock = true ∧ item.effectiveQty ≤ product.stock ∧
      product.isAvailable ≠ some false ∧
      e.validProduct (product.reserve item.effectiveQty) = true ∧
      st' = { products := Function.update st.products item.productId
                (some (product.reserve item.effectiveQty))
              total := st.total + product.price * item.effectiveQty
              orderItems := st.orderItems ++
                [{ productId := item.productId, qty := item.effectiveQty,
                   price := product.price }]
              restaurantId := product.restaurantId } := by
  unfold orderItemStep at h
  cases hp : st.products item.productId with
  | none => simp [hp] at h
  | some product =>
    simp only [hp] at h
    split_ifs at h with h1 h2 h3 h4 h5
    refine ⟨product, rfl, ?_, ?_, ?_, h4, ?_, ?_⟩
    · intro ht
      by_contra hne
      exact h2 ⟨ht, hne⟩
    · cases hs : product.inStock with
      | true => rfl
      | false => exact absurd (Or.inl hs) h3
    · exact not_lt.mp (fun hlt => h3 (Or.inr hlt))
    · simpa using h5
    · simpa using h.symm

theorem orderItemStep_error {e : Env} {st : LoopState} {item : ItemReq} {f : Failure}
    (h : orderItemStep e st item = .error f) :
    (∃ id, f = ⟨404, .productNotFound id⟩) ∨ f = ⟨500, .serverError⟩ ∨
      f = ⟨400, .multiRestaurant⟩ ∨ (∃ name stock, f = ⟨400, .outOfStock name stock⟩) ∨
      ∃ name, f = ⟨400, .unavailable name⟩ := by
  unfold orderItemStep at h
  cases hp : st.products item.productId with
  | none =>
    simp only [hp, Except.error.injEq] at h
    exact Or.inl ⟨_, h.symm⟩
  | some product =>
    simp only [hp] at h
    split_ifs at h <;> simp only [Except.error.injEq] at h
    · exact Or.inr (Or.inl h.symm)
    · exact Or.inr (Or.inr (Or.inl h.symm))
    · exact Or.inr (Or.inr (Or.inr (Or.inl ⟨_, _, h.symm⟩)))
    · exact Or.inr (Or.inr (Or.inr (Or.inr ⟨_, h.symm⟩)))
    · exact Or.inr (Or.inl h.symm)

theorem orderItemsLoop_single {e : Env} {st st1 : LoopState} {item : ItemReq}
    (hs : orderItemStep e st item = .ok st1) :
    orderItemsLoop e [item] st = (st1, none) := by
  simp [orderItemsLoop, hs]

theorem orderItemsLoop_append {e : Env} (pre rest : List ItemReq) {st st1 : LoopState}
    (h : orderItemsLoop e pre st = (st1, none)) :
    orderItemsLoop e (pre ++ rest) st = orderItemsLoop e rest st1 := by
  induction pre generalizing st with
  | nil => simp [orderItemsLoop] at h; subst h; rfl
  | cons item pre ih =>
    simp only [List.cons_append, orderItemsLoop] at h ⊢
    cases hs : orderItemStep e st item with
    | error f => simp [hs] at h
    | ok st2 =>
      simp only [hs] at h ⊢
      exact ih h

theorem orderItemsLoop_error {e : Env} {items : List ItemReq} {st st' : LoopState}
    {f : Failure} (h : orderItemsLoop e items st = (st', some f)) :
    (∃ id, f = ⟨404, .productNotFound id⟩) ∨ f = ⟨500, .serverError⟩ ∨
      f = ⟨400, .multiRestaurant⟩ ∨ (∃ name stock, f = ⟨400, .outOfStock name stock⟩) ∨
      ∃ name, f = ⟨400, .unavailable name⟩ := by
  induction items generalizing st with
  | nil => simp [orderItemsLoop] at h
  | cons item rest ih =>
    simp only [orderItemsLoop] at h
    cases hs : orderItemStep e st item with
    | error f1 =>
      simp only [hs, Prod.mk.injEq, Option.some.injEq] at h
      rw [← h.2]
      exact orderItemStep_error hs
    | ok st1 =>
      simp only [hs] at h
      exact ih h

theorem orderItemsLoop_rel {e : Env} (R : String → Option Product → Option Product → Prop)
    (hrefl : ∀ id x, R id x x)
    (htrans : ∀ id x y z, R id x y → R id y z → R id x z)
    (items : List ItemReq)
    (hstep : ∀ item ∈ items, ∀ p : Product, p.inStock = true → item.effectiveQty ≤ p.stock →
      R item.productId (some p) (some (p.reserve item.effectiveQty)))
    {st st' : LoopState} {r : Option Failure}
    (h : orderItemsLoop e items st = (st', r)) (id : String) :
    R id (st.products id) (st'.products id) := by
  induction items generalizing st with
  | nil =>
    simp only [orderItemsLoop, Prod.mk.injEq] at h
    rw [← h.1]
    exact hrefl _ _
  | cons item rest ih =>
    simp only [orderItemsLoop] at h
    cases hs : orderItemStep e st item with
    | error f =>
      simp only [hs, Prod.mk.injEq] at h
      rw [← h.1]
      exact hrefl _ _
    | ok st1 =>
      simp only [hs] at h
      have hrest := ih (fun it hit => hstep it (List.mem_cons_of_mem _ hit)) h
      obtain ⟨product, hp, -, hin, hq, -, -, hst1⟩ := orderItemStep_ok hs
      refine htrans _ _ _ _ ?_ hrest
      subst hst1
      by_cases hid : id = item.productId
      · subst hid
        simp only [Function.update_same, hp]
        exact hstep item (List.mem_cons_self _ _) product hin hq
      · simp only [Function.update_noteq hid]
        exact hrefl _ _

theorem Product.reserve_inv {p : Product} {q : Int} (hin : p.inStock = true) (hq : q ≤ p.stock) :
    (p.reserve q).Inv := by
  unfold Product.Inv Product.reserve
  refine ⟨by simp only; omega, ?_⟩
  by_cases h0 : p.stock - q ≤ 0
  · simp [h0]
    omega
  · simp [h0, hin]
    omega

theorem orderItemsLoop_inv {e : Env} {items : List ItemReq} {st st' : LoopState}
    {r : Option Failure} (h : orderItemsLoop e items st = (st', r)) (id : String)
    {p : Product} (hp : st.products id = some p) (hinv : p.Inv) :
    ∃ p', st'.products id = some p' ∧ p'.Inv := by
  have key := orderItemsLoop_rel
    (fun _ x y => ∀ p : Product, x = some p → p.Inv → ∃ p', y = some p' ∧ p'.Inv)
    (fun _ _ p hx hi => ⟨p, hx, hi⟩)
    (fun _ _ _ _ hxy hyz p hx hi => by
      obtain ⟨p1, h1, hi1⟩ := hxy p hx hi
      exact hyz p1 h1 hi1)
    items
    (fun _ _ p hin hq _ _ _ => ⟨_, rfl, Product.reserve_inv hin hq⟩)
    h id
  exact key p hp hinv

theorem orderItemsLoop_frame {e : Env} {items : List ItemReq} {st st' : LoopState}
    {r : Option Failure} (h : orderItemsLoop e items st = (st', r)) (id : String)
    (hid : ∀ item ∈ items, item.productId ≠ id) :
    st'.products id = st.products id := by
  have key := orderItemsLoop_rel
    (fun i x y => (∀ item ∈ items, item.productId ≠ i) → y = x)
    (fun _ _ _ => rfl)
    (fun _ _ _ _ hxy hyz hi => (hyz hi).trans (hxy hi))
    items
    (fun item hit _ _ _ hi => absurd rfl (hi item hit))
    h id
  exact key hid

theorem orderItemsLoop_static {e : Env} {items : List ItemReq} {st st' : LoopState}
    {r : Option Failure} (h : orderItemsLoop e items st = (st', r)) (id : String) :
    (st.products id = none → st'.products id = none) ∧
    ∀ p, st.products id = some p → ∃ p', st'.products id = some p' ∧ p.sameStatic p' := by
  have key := orderItemsLoop_rel
    (fun _ x y => (x = none → y = none) ∧
      ∀ p : Product, x = some p → ∃ p', y = some p' ∧ p.sameStatic p')
    (fun _ _ => ⟨fun hx => hx, fun p hx => ⟨p, hx, rfl, rfl, rfl, rfl⟩⟩)
    (fun _ _ _ _ hxy hyz => ⟨fun hx => hyz.1 (hxy.1 hx), fun p hx => by
      obtain ⟨p1, h1, s1⟩ := hxy.2 p hx
      obtain ⟨p2, h2, s2⟩ := hyz.2 p1 h1
      exact ⟨p2, h2, s2.1.trans s1.1, s2.2.1.trans s1.2.1, s2.2.2.1.trans s1.2.2.1,
        s2.2.2.2.trans s1.2.2.2⟩⟩)
    items
    (fun _ _ p _ _ => ⟨fun hx => by simp at hx, fun p0 hx => by
      simp only [Option.some.injEq] at hx
      subst hx
      exact ⟨_, rfl, rfl, rfl, rfl, rfl⟩⟩)
    h id
  exact key

theorem priceOf_eq_of_loop {e : Env} {items : List ItemReq} {st st' : LoopState}
    {r : Option Failure} (h : orderItemsLoop e items st = (st', r)) (id : String) :
    priceOf st'.products id = priceOf st.products id := by
  obtain ⟨hnone, hsome⟩ := orderItemsLoop_static h id
  unfold priceOf
  cases hp : st.products id with
  | none => simp [hnone hp]
  | some p =>
    obtain ⟨p', hp', hs⟩ := hsome p hp
    simp [hp', hs.2.2.1]

theorem orderedQty_cons (item : ItemReq) (rest : List ItemReq) (id : String) :
    orderedQty (item :: rest) id =
      (if item.productId = id then item.effectiveQty else 0) + orderedQty rest id := by
  unfold orderedQty
  by_cases h : item.productId = id <;> simp [List.filter_cons, h]

theorem orderItemsLoop_items {e : Env} {items : List ItemReq} {st st' : LoopState}
    (h : orderItemsLoop e items st = (st', none)) :
    st'.orderItems = st.orderItems ++ items.map (fun item =>
        { productId := item.productId, qty := item.effectiveQty,
          price := priceOf st.products item.productId }) ∧
      st'.total = st.total +
        (items.map (fun item => priceOf st.products item.productId * item.effectiveQty)).sum ∧
      ∀ item ∈ items, ∃ p, st.products item.productId = some p := by
  induction items generalizing st with
  | nil =>
    simp only [orderItemsLoop, Prod.mk.injEq] at h
    rw [← h.1]
    simp
  | cons item rest ih =>
    simp only [orderItemsLoop] at h
    cases hs : orderItemStep e st item with
    | error f => simp [hs] at h
    | ok st1 =>
      simp only [hs] at h
      obtain ⟨hitems, htotal, hex⟩ := ih h
      have hprice : ∀ id, priceOf st1.products id = priceOf st.products id :=
        priceOf_eq_of_loop (orderItemsLoop_single hs)
      have hstatic := orderItemStep_ok hs
      obtain ⟨product, hp, -, -, -, -, -, hst1⟩ := hstatic
      have hp0 : priceOf st.products item.productId = product.price := by
        simp [priceOf, hp]
      refine ⟨?_, ?_, ?_⟩
      · rw [hitems]
        simp only [hprice, List.map_cons, hp0]
        subst hst1
        simp
      · rw [htotal]
        simp only [hprice, List.map_cons, List.sum_cons, hp0]
        subst hst1
        simp only
        ring
      · intro it hit
        rcases List.mem_cons.mp hit with rfl | hmem
        · exact ⟨product, hp⟩
        · obtain ⟨p1, hp1⟩ := hex it hmem
          cases hq : st.products it.productId with
          | none =>
            have := (orderItemsLoop_static (orderItemsLoop_single hs) it.productId).1 hq
            simp [hp1] at this
          | some p => exact ⟨p, rfl⟩

theorem orderItemsLoop_stock {e : Env} {items : List ItemReq} {st st' : LoopState}
    (h : orderItemsLoop e items st = (st', none)) (id : String) {p : Product}
    (hp : st.products id = some p) :
    ∃ p', st'.products id = some p' ∧
      p'.stock = p.stock - orderedQty items id ∧
      p'.totalOrders = p.totalOrders + orderedQty items id := by
  induction items generalizing st p with
  | nil =>
    simp only [orderItemsLoop, Prod.mk.injEq] at h
    rw [← h.1]
    exact ⟨p, hp, by simp [orderedQty], by simp [orderedQty]⟩
  | cons item rest ih =>
    simp only [orderItemsLoop] at h
    cases hs : orderItemStep e st item with
    | error f => simp [hs] at h
    | ok st1 =>
      simp only [hs] at h
      obtain ⟨product, hprod, -, -, -, -, -, hst1⟩ := orderItemStep_ok hs
      by_cases hid : item.productId = id
      · have h1 : st1.products id = some (product.reserve item.effectiveQty) := by
          subst hst1; subst hid; simp
        obtain ⟨p', hp', hstock, htot⟩ := ih h h1
        have hpp : product = p := by
          subst hid
          rw [hprod] at hp
          exact Option.some.inj hp
        subst hpp
        refine ⟨p', hp', ?_, ?_⟩
        · rw [hstock, orderedQty_cons, if_pos hid]
          simp only [Product.reserve]
          ring
        · rw [htot, orderedQty_cons, if_pos hid]
          simp only [Product.reserve]
          ring
      · have h1 : st1.products id = some p := by
          subst hst1
          simp [Function.update_noteq (Ne.symm hid), hp]
        obtain ⟨p', hp', hstock, htot⟩ := ih h h1
        refine ⟨p', hp', ?_, ?_⟩
        · rw [hstock, orderedQty_cons, if_neg hid]; ring
        · rw [htot, orderedQty_cons, if_neg hid]; ring

theorem orderItemsLoop_restaurant {e : Env} {items : List ItemReq} {st st' : LoopState}
    (h : orderItemsLoop e items st = (st', none)) :
    (truthyStr st.restaurantId = true → st'.restaurantId = st.restaurantId) ∧
      ∀ item ∈ items, ∀ p, st.products item.productId = some p →
        truthyStr p.restaurantId = true → st'.restaurantId = p.restaurantId := by
  induction items generalizing st with
  | nil =>
    simp only [orderItemsLoop, Prod.mk.injEq] at h
    rw [← h.1]
    simp
  | cons item rest ih =>
    simp only [orderItemsLoop] at h
    cases hs : orderItemStep e st item with
    | error f => simp [hs] at h
    | ok st1 =>
      simp only [hs] at h
      obtain ⟨hkeep, hall⟩ := ih h
      have hstatic := orderItemsLoop_static (orderItemsLoop_single hs)
      obtain ⟨product, hprod, hsame, -, -, -, -, hst1⟩ := orderItemStep_ok hs
      have hr1 : st1.restaurantId = product.restaurantId := by subst hst1; rfl
      refine ⟨?_, ?_⟩
      · intro ht
        have hpr := hsame ht
        have : truthyStr st1.restaurantId = true := by rw [hr1, hpr]; exact ht
        rw [hkeep this, hr1, hpr]
      · intro it hit p hp htruthy
        rcases List.mem_cons.mp hit with rfl | hmem
        · rw [hprod] at hp
          have hpp : product = p := Option.some.inj hp
          subst hpp
          have : truthyStr st1.restaurantId = true := by rw [hr1]; exact htruthy
          rw [hkeep this, hr1]
        · obtain ⟨p1, hp1, hs1⟩ := (hstatic it.productId).2 p hp
          have := hall it hmem p1 hp1 (by rw [hs1.2.1]; exact htruthy)
          rw [this, hs1.2.1]

/-! ## The address and coupon steps -/

theorem resolveDeliveryAddress_error {user : User} {req : OrderRequest} {f : Failure}
    (h : resolveDeliveryAddress user req = .error f) : f = ⟨404, .addressNotFound⟩ := by
  unfold resolveDeliveryAddress at h
  split_ifs at h
  · split at h
    · simp only [Except.error.injEq] at h
      exact h.symm
    · simp at h
  · repeat' split at h
    all_goals simp at h

theorem numOr_ne_zero (x : Option ℚ) {d : ℚ} (hd : d ≠ 0) : numOr x d ≠ 0 := by
  unfold numOr
  cases x with
  | none => exact hd
  | some v =>
    by_cases hv : v = 0
    · simpa [hv] using hd
    · simp [hv]

theorem discountFor_eq_spec (coupon : Coupon) (amount : ℚ) :
    discountFor coupon amount =
      specDiscount coupon.discountPercent (truthyCap coupon.maxDiscount) amount := by
  unfold discountFor specDiscount truthyCap
  cases hm : coupon.maxDiscount with
  | none => simp
  | some m =>
    by_cases h0 : m = 0
    · simp [h0]
    · simp only [h0, ne_eq, not_false_eq_true, true_and, if_false]
      by_cases hgt : amount * coupon.discountPercent / 100 > m
      · simp only [if_pos hgt]
        exact (min_eq_right (le_of_lt hgt)).symm
      · simp only [if_neg hgt]
        exact (min_eq_left (not_lt.mp hgt)).symm

theorem applyCoupon_ok {e : Env} {coupons coupons' : List Coupon} {subtotal d : ℚ}
    {couponCode : Option CouponCodeField}
    (h : applyCoupon e coupons subtotal couponCode = .ok (coupons', d)) :
    (couponCode = none ∨ couponCode = some (.str "")) ∧ coupons' = coupons ∧ d = 0 ∨
    ∃ code coupon, couponCode = some (.str code) ∧ code ≠ "" ∧
      coupons.find? (fun c => c.code == toUpperCase code) = some coupon ∧
      coupon.isValid e.now = true ∧ ¬ subtotal < coupon.minOrderAmount ∧
      e.validCoupon { coupon with usedCount := coupon.usedCount + 1 } = true ∧
      coupons' = saveCoupon coupons { coupon with usedCount := coupon.usedCount + 1 } ∧
      d = discountFor coupon subtotal := by
  unfold applyCoupon at h
  match couponCode, h with
  | none, h =>
    simp only [Except.ok.injEq, Prod.mk.injEq] at h
    exact Or.inl ⟨Or.inl rfl, h.1.symm, h.2.symm⟩
  | some .other, h => simp at h
  | some (.str code), h =>
    simp only at h
    by_cases hc : code = ""
    · simp only [hc, if_true, Except.ok.injEq, Prod.mk.injEq] at h
      exact Or.inl ⟨Or.inr (by rw [hc]), h.1.symm, h.2.symm⟩
    · simp only [hc, if_false] at h
      cases hf : coupons.find? (fun c => c.code == toUpperCase code) with
      | none => simp [hf] at h
      | some coupon =>
        simp only [hf] at h
        split_ifs at h with h1 h2 h3
        simp only [Except.ok.injEq, Prod.mk.injEq] at h
        refine Or.inr ⟨code, coupon, rfl, hc, hf, ?_, h2, ?_, h.1.symm, h.2.symm⟩
        · simpa using h1
        · simpa using h3

theorem applyCoupon_error {e : Env} {coupons : List Coupon} {subtotal : ℚ}
    {couponCode : Option CouponCodeField} {f : Failure}
    (h : applyCoupon e coupons subtotal couponCode = .error f) :
    f = ⟨400, .oneCouponOnly⟩ ∨ f = ⟨400, .couponExpired⟩ ∨
      (∃ amount, f = ⟨400, .belowMinimum amount⟩) ∨ f = ⟨400, .invalidCoupon⟩ ∨
      f = ⟨500, .serverError⟩ := by
  unfold applyCoupon at h
  match couponCode, h with
  | none, h => simp at h
  | some .other, h =>
    simp only [Except.error.injEq] at h
    exact Or.inl h.symm
  | some (.str code), h =>
    simp only at h
    by_cases hc : code = ""
    · simp [hc] at h
    · simp only [hc, if_false] at h
      cases hf : coupons.find? (fun c => c.code == toUpperCase code) with
      | none =>
        simp only [hf, Except.error.injEq] at h
        exact Or.inr (Or.inr (Or.inr (Or.inl h.symm)))
      | some coupon =>
        simp only [hf] at h
        split_ifs at h <;> simp only [Except.error.injEq] at h
        · exact Or.inr (Or.inl h.symm)
        · exact Or.inr (Or.inr (Or.inl ⟨_, h.symm⟩))
        · exact Or.inr (Or.inr (Or.inr (Or.inr h.symm)))

/-! ## The outcomes of the handler -/

theorem createOrder_persisted {e : Env} {db : DB} {req : OrderRequest} {o : Order}
    (h : o ∈ persistedOrders e db req) :
    ∃ user deliveryAddress st coupons discountAmount,
      req.items ≠ [] ∧
      db.users req.userId = some user ∧
      resolveDeliveryAddress user req = .ok deliveryAddress ∧
      orderItemsLoop e req.items (LoopState.init db) = (st, none) ∧
      applyCoupon e db.coupons st.total req.couponCode = .ok (coupons, discountAmount) ∧
      e.validOrder o = true ∧
      o = buildOrder e req st discountAmount deliveryAddress ∧
      createOrder e db req =
        ({ products := st.products, coupons := coupons,
           users := pushOrder db.users req.userId o._id, orders := db.orders ++ [o] },
          .created o) := by
  by_cases hne : req.items.isEmpty
  · simp [persistedOrders, createOrder, hne] at h
  cases hu : db.users req.userId with
  | none => simp [persistedOrders, createOrder, hne, hu] at h
  | some user =>
    cases ha : resolveDeliveryAddress user req with
    | error f => simp [persistedOrders, createOrder, hne, hu, ha] at h
    | ok addr =>
      rcases hl : orderItemsLoop e req.items (LoopState.init db) with ⟨st, _ | f⟩
      · cases hc : applyCoupon e db.coupons st.total req.couponCode with
        | error f => simp [persistedOrders, createOrder, hne, hu, ha, hl, hc] at h
        | ok r =>
          obtain ⟨coupons, d⟩ := r
          by_cases hv : e.validOrder (buildOrder e req st d addr) = false
          · simp [persistedOrders, createOrder, hne, hu, ha, hl, hc, hv] at h
          · simp [persistedOrders, createOrder, hne, hu, ha, hl, hc, hv] at h
            subst h
            refine ⟨user, addr, st, coupons, d, ?_, rfl, ha, rfl, hc, ?_, rfl, ?_⟩
            · simpa using hne
            · simpa using hv
            · simp [createOrder, hne, hu, ha, hl, hc, hv]
      · simp [persistedOrders, createOrder, hne, hu, ha, hl] at h

/-- The outcomes of the handler: an order is persisted and returned, or the response is an
error, no order is persisted and the user documents are unchanged; the error comes from the
checks before the loop (nothing written), from the loop (the products written so far stay),
from the coupon step (the products of the whole loop stay) or from the validation of the
order (products and coupon stay written). -/
theorem createOrder_cases (e : Env) (db : DB) (req : OrderRequest) :
    (∃ o, o ∈ persistedOrders e db req ∧ (createOrder e db req).2 = .created o) ∨
    ∃ status message, (createOrder e db req).2 = .error status message ∧
      (createOrder e db req).1.orders = db.orders ∧
      (createOrder e db req).1.users = db.users ∧
      (((createOrder e db req).1.products = db.products ∧
          (createOrder e db req).1.coupons = db.coupons ∧
          (message = .noItems ∧ req.items = [] ∨ message = .userNotFound ∨
            message = .addressNotFound)) ∨
        (∃ st f, orderItemsLoop e req.items (LoopState.init db) = (st, some f) ∧
          (createOrder e db req).1.products = st.products ∧
          (createOrder e db req).1.coupons = db.coupons ∧
          status = f.status ∧ message = f.message) ∨
        (∃ st f, orderItemsLoop e req.items (LoopState.init db) = (st, none) ∧
          applyCoupon e db.coupons st.total req.couponCode = .error f ∧
          (createOrder e db req).1.products = st.products ∧
          (createOrder e db req).1.coupons = db.coupons ∧
          status = f.status ∧ message = f.message) ∨
        (∃ st coupons d, orderItemsLoop e req.items (LoopState.init db) = (st, none) ∧
          applyCoupon e db.coupons st.total req.couponCode = .ok (coupons, d) ∧
          (createOrder e db req).1.products = st.products ∧
          (createOrder e db req).1.coupons = coupons ∧
          status = 500 ∧ message = .serverError)) := by
  by_cases hne : req.items.isEmpty
  · refine Or.inr ⟨400, .noItems, ?_, ?_, ?_,
      Or.inl ⟨?_, ?_, Or.inl ⟨rfl, List.isEmpty_iff.mp hne⟩⟩⟩ <;>
      simp [createOrder, hne]
  cases hu : db.users req.userId with
  | none =>
    refine Or.inr ⟨404, .userNotFound, ?_, ?_, ?_, Or.inl ⟨?_, ?_, Or.inr (Or.inl rfl)⟩⟩ <;>
      simp [createOrder, hne, hu]
  | some user =>
    cases ha : resolveDeliveryAddress user req with
    | error f =>
      have hf := resolveDeliveryAddress_error ha
      subst hf
      refine Or.inr ⟨404, .addressNotFound, ?_, ?_, ?_,
        Or.inl ⟨?_, ?_, Or.inr (Or.inr rfl)⟩⟩ <;>
        simp [createOrder, hne, hu, ha]
    | ok addr =>
      rcases hl : orderItemsLoop e req.items (LoopState.init db) with ⟨st, _ | f⟩
      · cases hc : applyCoupon e db.coupons st.total req.couponCode with
        | error f =>
          refine Or.inr ⟨f.status, f.message, ?_, ?_, ?_,
            Or.inr (Or.inr (Or.inl ⟨st, f, rfl, hc, ?_, ?_, rfl, rfl⟩))⟩ <;>
            simp [createOrder, hne, hu, ha, hl, hc]
        | ok r =>
          obtain ⟨coupons, d⟩ := r
          by_cases hv : e.validOrder (buildOrder e req st d addr) = false
          · refine Or.inr ⟨500, .serverError, ?_, ?_, ?_,
              Or.inr (Or.inr (Or.inr ⟨st, coupons, d, rfl, hc, ?_, ?_, rfl, rfl⟩))⟩ <;>
              simp [createOrder, hne, hu, ha, hl, hc, hv]
          · refine Or.inl ⟨buildOrder e req st d addr, ?_, ?_⟩ <;>
              simp [persistedOrders, createOrder, hne, hu, ha, hl, hc, hv]
      · refine Or.inr ⟨f.status, f.message, ?_, ?_, ?_,
          Or.inr (Or.inl ⟨st, f, rfl, ?_, ?_, rfl, rfl⟩)⟩ <;>
          simp [createOrder, hne, hu, ha, hl]

theorem createOrder_products (e : Env) (db : DB) (req : OrderRequest) :
    (createOrder e db req).1.products = db.products ∨
      ∃ st r, orderItemsLoop e req.items (LoopState.init db) = (st, r) ∧
        (createOrder e db req).1.products = st.products := by
  rcases createOrder_cases e db req with ⟨o, ho, -⟩ | ⟨s, m, -, -, -, hcase⟩
  · obtain ⟨_, _, st, _, _, -, -, -, hl, -, -, -, hres⟩ := createOrder_persisted ho
    exact Or.inr ⟨st, none, hl, by rw [hres]⟩
  · rcases hcase with ⟨hprods, -⟩ | ⟨st, f, hl, hprods, -⟩ | ⟨st, f, hl, -, hprods, -⟩ |
        ⟨st, _, _, hl, -, hprods, -⟩
    · exact Or.inl hprods
    · exact Or.inr ⟨st, _, hl, hprods⟩
    · exact Or.inr ⟨st, _, hl, hprods⟩
    · exact Or.inr ⟨st, _, hl, hprods⟩

theorem persisted_discount {e : Env} {db : DB} {req : OrderRequest} {o : Order}
    (h : o ∈ persistedOrders e db req) :
    (appliedCoupon db req = none → o.discountAmount = 0) ∧
      ∀ c, appliedCoupon db req = some c →
        c.isValid e.now = true ∧ ¬ o.subtotal < c.minOrderAmount ∧
        o.discountAmount =
          specDiscount c.discountPercent (truthyCap c.maxDiscount) o.subtotal := by
  obtain ⟨_, addr, st, coupons', d, -, -, -, -, hc, -, ho, -⟩ := createOrder_persisted h
  have hsub : o.subtotal = st.total := by subst ho; rfl
  have hd : o.discountAmount = d := by subst ho; rfl
  rcases applyCoupon_ok hc with ⟨hnone, -, hd0⟩ | ⟨cd, cp, hcode, hne, hfind, hvalid, hmin, -, -, hdisc⟩
  · have happ : appliedCoupon db req = none := by
      rcases hnone with hn | hn <;> simp [appliedCoupon, hn]
    refine ⟨fun _ => by rw [hd, hd0], fun c hcp => ?_⟩
    rw [happ] at hcp
    cases hcp
  · have happ : appliedCoupon db req = some cp := by
      simp [appliedCoupon, hcode, hne, hfind]
    refine ⟨fun hn => ?_, fun c hcp => ?_⟩
    · rw [happ] at hn
      cases hn
    · rw [happ] at hcp
      cases hcp
      refine ⟨hvalid, ?_, ?_⟩
      · rw [hsub]; exact hmin
      · rw [hd, hdisc, hsub, discountFor_eq_spec]

/-! ## Pricing of a persisted order (C1 to C5) -/

/-- C1: every order that `POST /api/orders` persists has
`total = subtotal + deliveryCharge - discountAmount`, over its own persisted fields. -/
theorem persisted_total_eq (e : Env) (db : DB) (req : OrderRequest) (o : Order)
    (h : o ∈ persistedOrders e db req) :
    o.total = o.subtotal + o.deliveryCharge - o.discountAmount := by
  obtain ⟨_, _, _, _, _, -, -, -, -, -, -, ho, -⟩ := createOrder_persisted h
  subst ho
  rfl

/-- C1, scenario: the cart of two units at 180, threshold 500 and fee 50, no coupon, persists
the order with subtotal 360, delivery charge 50 and total 410. -/
theorem persisted_total_eq_witness :
    scenarioOrder ∈ persistedOrders scenarioEnv scenarioDB scenarioRequest ∧
      scenarioOrder.total =
        scenarioOrder.subtotal + scenarioOrder.deliveryCharge - scenarioOrder.discountAmount :=
  ⟨by decide!, persisted_total_eq scenarioEnv scenarioDB scenarioRequest scenarioOrder (by decide!)⟩

/-- C2, as claimed it fails: with the threshold configured as `0`, the scenario order has the
subtotal 360, which is at least the configured `0`, and is charged 50, not 0. With the fee
configured as `0`, the scenario order, below the default threshold 500, is charged 50, not the
configured `0`. -/
theorem configured_zero_replaced_by_default :
    zeroThresholdEnv.envFreeDeliveryThreshold = some 0 ∧
      (persistedOrders zeroThresholdEnv scenarioDB scenarioRequest).map
          (fun o => (o.subtotal, decide (o.subtotal ≥ 0), o.deliveryCharge)) =
        [(360, true, 50)] ∧
      zeroFeeEnv.envDeliveryCharge = some 0 ∧
      (persistedOrders zeroFeeEnv scenarioDB scenarioRequest).map
          (fun o => (o.subtotal, decide (o.subtotal ≥ 500), o.deliveryCharge)) =
        [(360, false, 50)] := by
  decide!

/-- C2, amended: every order that order creation persists has `deliveryCharge = 0` exactly when
`subtotal >= FREE_DELIVERY_THRESHOLD`, and `deliveryCharge = DELIVERY_CHARGE` otherwise, where
the two constants are the environment variables when these are set to a non-zero number, and
500 and 50 when they are unset (or unparsable, or zero). -/
theorem persisted_deliveryCharge (e : Env) (db : DB) (req : OrderRequest) (o : Order)
    (h : o ∈ persistedOrders e db req) :
    (o.deliveryCharge = 0 ↔ o.subtotal ≥ FREE_DELIVERY_THRESHOLD e) ∧
      (¬ o.subtotal ≥ FREE_DELIVERY_THRESHOLD e → o.deliveryCharge = DELIVERY_CHARGE e) ∧
      (∀ v, e.envFreeDeliveryThreshold = some v → v ≠ 0 → FREE_DELIVERY_THRESHOLD e = v) ∧
      (∀ v, e.envDeliveryCharge = some v → v ≠ 0 → DELIVERY_CHARGE e = v) ∧
      (e.envFreeDeliveryThreshold = none ∨ e.envFreeDeliveryThreshold = some 0 →
        FREE_DELIVERY_THRESHOLD e = 500) ∧
      (e.envDeliveryCharge = none ∨ e.envDeliveryCharge = some 0 → DELIVERY_CHARGE e = 50) := by
  obtain ⟨_, _, st, _, _, -, -, -, -, -, -, ho, -⟩ := createOrder_persisted h
  have hfee : DELIVERY_CHARGE e ≠ 0 := numOr_ne_zero _ (by norm_num)
  refine ⟨?_, ?_, ?_, ?_, ?_, ?_⟩
  · subst ho
    simp only [buildOrder]
    by_cases hge : st.total ≥ FREE_DELIVERY_THRESHOLD e
    · simp [hge]
    · simp only [if_neg hge]
      exact ⟨fun h0 => absurd h0 hfee, fun hge' => absurd hge' hge⟩
  · intro hlt
    subst ho
    simp only [buildOrder] at hlt ⊢
    simp only [if_neg hlt]
  · intro v hv hne
    simp [FREE_DELIVERY_THRESHOLD, numOr, hv, hne]
  · intro v hv hne
    simp [DELIVERY_CHARGE, numOr, hv, hne]
  · rintro (hv | hv) <;> simp [FREE_DELIVERY_THRESHOLD, numOr, hv]
  · rintro (hv | hv) <;> simp [DELIVERY_CHARGE, numOr, hv]

/-- C2, scenario: subtotal 360 is below the default threshold 500, so the order is charged the
default fee 50. -/
theorem persisted_deliveryCharge_witness :
    scenarioOrder ∈ persistedOrders scenarioEnv scenarioDB scenarioRequest ∧
      (scenarioOrder.deliveryCharge = 0 ↔
        scenarioOrder.subtotal ≥ FREE_DELIVERY_THRESHOLD scenarioEnv) ∧
      (¬ scenarioOrder.subtotal ≥ FREE_DELIVERY_THRESHOLD scenarioEnv →
        scenarioOrder.deliveryCharge = DELIVERY_CHARGE scenarioEnv) :=
  have key := persisted_deliveryCharge scenarioEnv scenarioDB scenarioRequest scenarioOrder
    (by decide!)
  ⟨by decide!, key.1, key.2.1⟩

/-- C3, as claimed it fails: the coupon `TEN` (10 percent, `maxDiscount = 0`) on the amount
360 gives the discount 36 in order creation and in the coupon check, where
`min(360 * 10 / 100, 0)` is 0. -/
theorem zero_cap_discount_not_min :
    (persistedOrders scenarioEnv zeroCapDB (couponRequest "ten")).map
        (fun o => (o.subtotal, o.discountAmount)) = [(360, 36)] ∧
      validateCoupon 100 zeroCapDB.coupons "ten" 360 =
        .ok { code := "TEN", discountPercent := 10, discountAmount := 36 } ∧
      zeroCapCoupon.isValid 100 = true ∧
      specDiscount zeroCapCoupon.discountPercent zeroCapCoupon.maxDiscount 360 = 0 := by
  decide!

/-- C3, amended: for every coupon that passes validation and every order amount, the discount
of order creation and of the coupon check is
`min(orderAmount * discountPercent / 100, maxDiscount)`, where a `maxDiscount` that is null
or zero means no cap. For order creation: a persisted order whose request names a coupon has
that discount on its subtotal (and the coupon passed validation), one whose request names none
has discount 0. For the coupon check: a coupon that passes validation is answered with that
discount. -/
theorem discount_eq_min_truthy_cap (e : Env) (db : DB) (req : OrderRequest) (o : Order)
    (now : Int) (coupons : List Coupon) (code : String) (orderAmount : ℚ) (coupon : Coupon) :
    (o ∈ persistedOrders e db req →
      (appliedCoupon db req = none → o.discountAmount = 0) ∧
      ∀ c, appliedCoupon db req = some c →
        c.isValid e.now = true ∧ ¬ o.subtotal < c.minOrderAmount ∧
        o.discountAmount = specDiscount c.discountPercent (truthyCap c.maxDiscount) o.subtotal) ∧
    (coupons.find? (fun c => c.code == toUpperCase code) = some coupon →
      coupon.isValid now = true → ¬ orderAmount < coupon.minOrderAmount →
      validateCoupon now coupons code orderAmount =
        .ok { code := coupon.code, discountPercent := coupon.discountPercent,
              discountAmount := specDiscount coupon.discountPercent
                (truthyCap coupon.maxDiscount) orderAmount }) := by
  constructor
  · exact fun h => persisted_discount h
  · intro hfind hvalid hmin
    simp [validateCoupon, hfind, hvalid, hmin, discountFor_eq_spec]

/-- C3, scenario: amount 360 with `SAVE10` (10 percent, `maxDiscount` 30) gives the discount
30, in order creation (total 380) and in the coupon check. -/
theorem discount_eq_min_truthy_cap_witness :
    (persistedOrders scenarioEnv scenarioDB (couponRequest "SAVE10")).map
        (fun o => (o.subtotal, o.discountAmount, o.total)) = [(360, 30, 380)] ∧
      validateCoupon 100 scenarioDB.coupons "save10" 360 =
        .ok { code := "SAVE10", discountPercent := 10, discountAmount := 30 } :=
  have key := discount_eq_min_truthy_cap scenarioEnv scenarioDB (couponRequest "SAVE10")
    scenarioOrder 100 scenarioDB.coupons "save10" 360 scenarioCoupon
  ⟨by decide!, (key.2 (by decide!) (by decide!) (by decide!)).trans (by decide!)⟩

/-- C4, as claimed it fails: with the coupon `TEN` (10 percent, `maxDiscount = 0`) the
persisted order has subtotal 360 and discount 36, which is not at most
`min(subtotal, maxDiscount ?? subtotal) = 0`. -/
theorem zero_cap_discount_exceeds_bound :
    appliedCoupon zeroCapDB (couponRequest "ten") = some zeroCapCoupon ∧
      (persistedOrders scenarioEnv zeroCapDB (couponRequest "ten")).map
        (fun o => (o.subtotal, o.discountAmount,
          decide (o.discountAmount ≤
            min o.subtotal (zeroCapCoupon.maxDiscount.getD o.subtotal)))) = [(360, 36, false)] := by
  decide!

/-- C4, amended: a persisted order without a coupon has `discountAmount = 0`. With a coupon,
`discountAmount` is at most the percentage amount `(subtotal * discountPercent) / 100` that the
handler computes, and at most the `maxDiscount` of the coupon when that is neither null nor
zero; when `maxDiscount` is null or zero the discount is the percentage amount itself. Both
bounds come from the comparison of line 129, so they do not depend on how the percentage
amount is rounded. -/
theorem persisted_discount_le (e : Env) (db : DB) (req : OrderRequest) (o : Order)
    (h : o ∈ persistedOrders e db req) :
    (appliedCoupon db req = none → o.discountAmount = 0) ∧
      ∀ c, appliedCoupon db req = some c →
        o.discountAmount ≤ o.subtotal * c.discountPercent / 100 ∧
        (∀ cap, c.maxDiscount = some cap → cap ≠ 0 → o.discountAmount ≤ cap) ∧
        (c.maxDiscount = none ∨ c.maxDiscount = some 0 →
          o.discountAmount = o.subtotal * c.discountPercent / 100) := by
  have key := persisted_discount h
  refine ⟨key.1, fun c happ => ?_⟩
  obtain ⟨-, -, hd⟩ := key.2 c happ
  refine ⟨?_, ?_, ?_⟩
  · rw [hd]
    cases hcap : truthyCap c.maxDiscount with
    | none => simp [specDiscount]
    | some cap => exact min_le_left _ _
  · intro cap hmax hne
    have hcap : truthyCap c.maxDiscount = some cap := by simp [truthyCap, hmax, hne]
    rw [hd, hcap]
    exact min_le_right _ _
  · intro hmax
    have hcap : truthyCap c.maxDiscount = none := by
      rcases hmax with hm | hm <;> simp [truthyCap, hm]
    rw [hd, hcap]
    rfl

/-- C4, scenario: with `SAVE10` (10 percent, `maxDiscount` 30) on the subtotal 360 the discount
is 30, at most the percentage amount 36 and at most the cap 30. -/
theorem persisted_discount_le_witness :
    scenarioCouponOrder ∈ persistedOrders scenarioEnv scenarioDB (couponRequest "save10") ∧
      scenarioCouponOrder.discountAmount = 30 ∧
      scenarioCouponOrder.discountAmount ≤ 360 * 10 / 100 ∧
      scenarioCouponOrder.discountAmount ≤ 30 :=
  have key := (persisted_discount_le scenarioEnv scenarioDB (couponRequest "save10")
    scenarioCouponOrder (by decide!)).2 scenarioCoupon (by decide!)
  ⟨by decide!, rfl, key.1, key.2.1 30 rfl (by norm_num)⟩

/-- C5: every order that order creation persists has `subtotal` equal to the sum of
`price * qty` over its line items; the line items are those of the request, in order, each with
the quantity `qty || 1` and the price that its product has in the collection (every such
product exists); the item loop writes no price, so this is the price read at any moment of the
request. The line item holds the number itself. -/
theorem persisted_subtotal_items (e : Env) (db : DB) (req : OrderRequest) (o : Order)
    (h : o ∈ persistedOrders e db req) :
    o.subtotal = (o.items.map (fun item => item.price * (item.qty : ℚ))).sum ∧
      o.items = req.items.map (fun item =>
        { productId := item.productId, qty := item.effectiveQty,
          price := priceOf db.products item.productId }) ∧
      (∀ item ∈ req.items, ∃ p, db.products item.productId = some p) ∧
      ∀ id, priceOf (createOrder e db req).1.products id = priceOf db.products id := by
  obtain ⟨_, _, st, _, _, -, -, -, hl, -, -, ho, hres⟩ := createOrder_persisted h
  obtain ⟨hitems, htotal, hex⟩ := orderItemsLoop_items hl
  have hitems' : o.items = req.items.map (fun item =>
      { productId := item.productId, qty := item.effectiveQty,
        price := priceOf db.products item.productId }) := by
    subst ho
    simpa [buildOrder, LoopState.init] using hitems
  refine ⟨?_, hitems', hex, ?_⟩
  · rw [hitems']
    subst ho
    simp only [buildOrder, htotal, LoopState.init, zero_add, List.map_map]
    congr 1
  · intro id
    rw [hres]
    exact priceOf_eq_of_loop hl id

/-- C5, scenario: the persisted order has the one line item `P1`, quantity 2, price 180, and
subtotal 360. -/
theorem persisted_subtotal_items_witness :
    scenarioOrder ∈ persistedOrders scenarioEnv scenarioDB scenarioRequest ∧
      scenarioOrder.subtotal =
        (scenarioOrder.items.map (fun item => item.price * (item.qty : ℚ))).sum ∧
      scenarioOrder.items = [{ productId := "P1", qty := 2, price := 180 }] :=
  have key := persisted_subtotal_items scenarioEnv scenarioDB scenarioRequest scenarioOrder
    (by decide!)
  ⟨by decide!, key.1, key.2.1.trans (by decide!)⟩

/-! ## Rejected requests and stock (C6 to C10) -/

/-- C6, as claimed it fails: one unit of `P1` (restaurant `r1`, stock 5) followed by one unit of
`P2` (restaurant `r2`) is answered with the multi-restaurant error and persists no order, but
the stock of `P1` is 4 afterwards; and with nine units of `P2` (stock 5) in front, the answer
is the out-of-stock error instead. -/
theorem multi_restaurant_keeps_decrement :
    (createOrder scenarioEnv twoRestaurantDB mixedRequest).2 = .error 400 .multiRestaurant ∧
      (createOrder scenarioEnv twoRestaurantDB mixedRequest).1.orders = [] ∧
      (twoRestaurantDB.products "P1").map (fun p => p.stock) = some 5 ∧
      ((createOrder scenarioEnv twoRestaurantDB mixedRequest).1.products "P1").map
        (fun p => p.stock) = some 4 ∧
      (createOrder scenarioEnv twoRestaurantDB mixedShortRequest).2 =
        .error 400 (.outOfStock "Margherita" 5) := by
  decide!

/-- C6, amended: every order request whose items name products of two different restaurants
fails and persists no order (coupons and users are untouched as well): with the
multi-restaurant error, unless an earlier check answers first (user, address, a product that
is missing, out of stock or unavailable, a failed save). Nothing is rolled back: the stock of
a product changes only if a line item of the request names it. When the line items `pre` in
front of a line item are all accepted and the product of that line item belongs to another
restaurant than the last of them, the answer is the multi-restaurant error and every product
keeps the decrement of the line items of `pre` that name it. -/
theorem multi_restaurant_rejected (e : Env) (db : DB) (req : OrderRequest)
    (item₁ item₂ : ItemReq) (p₁ p₂ : Product)
    (h₁ : item₁ ∈ req.items) (h₂ : item₂ ∈ req.items)
    (hp₁ : db.products item₁.productId = some p₁) (hp₂ : db.products item₂.productId = some p₂)
    (ht₁ : truthyStr p₁.restaurantId = true) (ht₂ : truthyStr p₂.restaurantId = true)
    (hne : p₁.restaurantId ≠ p₂.restaurantId) :
    (∃ status message, (createOrder e db req).2 = .error status message ∧
      (message = .multiRestaurant ∨ message = .userNotFound ∨ message = .addressNotFound ∨
        (∃ id, message = .productNotFound id) ∨ (∃ name stock, message = .outOfStock name stock) ∨
        (∃ name, message = .unavailable name) ∨ message = .serverError)) ∧
      persistedOrders e db req = [] ∧
      (createOrder e db req).1.orders = db.orders ∧
      (createOrder e db req).1.coupons = db.coupons ∧
      (createOrder e db req).1.users = db.users ∧
      (∀ id, (∀ item ∈ req.items, item.productId ≠ id) →
        (createOrder e db req).1.products id = db.products id) ∧
      ∀ user pre item post st product,
        db.users req.userId = some user →
        (∃ address, resolveDeliveryAddress user req = .ok address) →
        req.items = pre ++ item :: post →
        orderItemsLoop e pre (LoopState.init db) = (st, none) →
        st.products item.productId = some product →
        truthyStr st.restaurantId = true →
        product.restaurantId ≠ none →
        product.restaurantId ≠ st.restaurantId →
        (createOrder e db req).2 = .error 400 .multiRestaurant ∧
          ∀ id p, db.products id = some p →
            ∃ p', (createOrder e db req).1.products id = some p' ∧
              p'.stock = p.stock - orderedQty pre id := by
  have hnosuccess : ∀ st, orderItemsLoop e req.items (LoopState.init db) ≠ (st, none) := by
    intro st hl
    obtain ⟨-, hall⟩ := orderItemsLoop_restaurant hl
    have e₁ := hall item₁ h₁ p₁ hp₁ ht₁
    have e₂ := hall item₂ h₂ p₂ hp₂ ht₂
    exact hne (e₁.symm.trans e₂)
  have hpart : ∀ user pre item post st product,
      db.users req.userId = some user →
      (∃ address, resolveDeliveryAddress user req = .ok address) →
      req.items = pre ++ item :: post →
      orderItemsLoop e pre (LoopState.init db) = (st, none) →
      st.products item.productId = some product →
      truthyStr st.restaurantId = true →
      product.restaurantId ≠ none →
      product.restaurantId ≠ st.restaurantId →
      (createOrder e db req).2 = .error 400 .multiRestaurant ∧
        ∀ id p, db.products id = some p →
          ∃ p', (createOrder e db req).1.products id = some p' ∧
            p'.stock = p.stock - orderedQty pre id := by
    intro user pre item post st product hu ⟨addr, ha⟩ hitems hpre hprod htr hsome hdiff
    have hstep : orderItemStep e st item = .error ⟨400, .multiRestaurant⟩ := by
      simp [orderItemStep, hprod, htr, hsome, hdiff]
    have hloop : orderItemsLoop e req.items (LoopState.init db) =
        (st, some ⟨400, .multiRestaurant⟩) := by
      rw [hitems, orderItemsLoop_append pre (item :: post) hpre]
      simp [orderItemsLoop, hstep]
    have hne' : req.items.isEmpty = false := by
      rw [hitems]
      cases pre <;> rfl
    have hres : createOrder e db req =
        ({ db with products := st.products }, .error 400 .multiRestaurant) := by
      simp [createOrder, hne', hu, ha, hloop]
    refine ⟨by rw [hres], fun id p hp => ?_⟩
    obtain ⟨p', hp', hstock, -⟩ := orderItemsLoop_stock hpre id (p := p) hp
    exact ⟨p', by rw [hres]; exact hp', hstock⟩
  rcases createOrder_cases e db req with ⟨o, ho, -⟩ | ⟨s, m, hresp, horders, husers, hcase⟩
  · obtain ⟨_, _, st, _, _, -, -, -, hl, -⟩ := createOrder_persisted ho
    exact absurd hl (hnosuccess st)
  · have hpers : persistedOrders e db req = [] := by
      simp [persistedOrders, horders]
    rcases hcase with ⟨hprods, hcoupons, hm⟩ | ⟨st, f, hl, hprods, hcoupons, hs, hm⟩ |
        ⟨st, f, hl, -⟩ | ⟨st, _, _, hl, -⟩
    · refine ⟨⟨s, m, hresp, ?_⟩, hpers, horders, hcoupons, husers, ?_, hpart⟩
      · rcases hm with hm | hm | hm
        · rw [hm.2] at h₁
          cases h₁
        · exact Or.inr (Or.inl hm)
        · exact Or.inr (Or.inr (Or.inl hm))
      · intro id _
        rw [hprods]
    · refine ⟨⟨s, m, hresp, ?_⟩, hpers, horders, hcoupons, husers, ?_, hpart⟩
      · rw [hm]
        rcases orderItemsLoop_error hl with ⟨id, rfl⟩ | rfl | rfl | ⟨n, k, rfl⟩ | ⟨n, rfl⟩
        · exact Or.inr (Or.inr (Or.inr (Or.inl ⟨id, rfl⟩)))
        · exact Or.inr (Or.inr (Or.inr (Or.inr (Or.inr (Or.inr rfl)))))
        · exact Or.inl rfl
        · exact Or.inr (Or.inr (Or.inr (Or.inr (Or.inl ⟨n, k, rfl⟩))))
        · exact Or.inr (Or.inr (Or.inr (Or.inr (Or.inr (Or.inl ⟨n, rfl⟩)))))
      · intro id hid
        rw [hprods]
        exact orderItemsLoop_frame hl id hid
    · exact absurd hl (hnosuccess st)
    · exact absurd hl (hnosuccess st)

/-- C6, scenario: `P1` of restaurant `r1` followed by `P2` of restaurant `r2` is answered with
the multi-restaurant error, persists no order, and `P1` keeps its decrement (stock 4). -/
theorem multi_restaurant_rejected_witness :
    (createOrder scenarioEnv twoRestaurantDB mixedRequest).2 = .error 400 .multiRestaurant ∧
      persistedOrders scenarioEnv twoRestaurantDB mixedRequest = [] ∧
      ∃ p', (createOrder scenarioEnv twoRestaurantDB mixedRequest).1.products "P1" = some p' ∧
        p'.stock = 4 :=
  have key := multi_restaurant_rejected scenarioEnv twoRestaurantDB mixedRequest
    { productId := "P1", qty := some 1 } { productId := "P2", qty := some 1 }
    scenarioProduct otherRestaurantProduct
    (by decide!) (by decide!) (by decide!) (by decide!) (by decide!) (by decide!) (by decide!)
  have part := key.2.2.2.2.2.2 { addresses := [], orders := [] }
    [{ productId := "P1", qty := some 1 }] { productId := "P2", qty := some 1 } []
    (orderItemsLoop scenarioEnv [{ productId := "P1", qty := some 1 }]
      (LoopState.init twoRestaurantDB)).1
    otherRestaurantProduct
    (by decide!) ⟨none, by decide!⟩ rfl (Prod.ext rfl (by decide!))
    (by decide!) (by decide!) (by decide!) (by decide!)
  ⟨part.1, key.2.1, part.2 "P1" scenarioProduct (by decide!)⟩

/-- C7, as claimed it fails: with two units of `P1` in stock, the request for one unit and then
three units of `P1` has a line item with `stock < qty` and is answered with the out-of-stock
error, but the stock of `P1` is 1 afterwards, not 2; and a request whose line item of nine
units of `P2` (stock 5) follows an item of another restaurant is answered with the
multi-restaurant error, not the out-of-stock error. -/
theorem out_of_stock_keeps_earlier_decrement :
    (lowStockDB.products "P1").map (fun p => p.stock) = some 2 ∧
      (createOrder scenarioEnv lowStockDB repeatedRequest).2 =
        .error 400 (.outOfStock "Buff Steam Momo" 1) ∧
      (createOrder scenarioEnv lowStockDB repeatedRequest).1.orders = [] ∧
      ((createOrder scenarioEnv lowStockDB repeatedRequest).1.products "P1").map
        (fun p => p.stock) = some 1 ∧
      (twoRestaurantDB.products "P2").map (fun p => p.stock) = some 5 ∧
      (createOrder scenarioEnv twoRestaurantDB mixedShortLaterRequest).2 =
        .error 400 .multiRestaurant := by
  decide!

/-- C7, amended: when the line items `pre` in front of a line item are all accepted (user and
address resolved, no restaurant conflict for the line item itself) and the product of the line
item, as the loop reads it, has `inStock = false`, `stock < qty` or `isAvailable = false`, the
request is rejected with the out-of-stock error (for `inStock`/`stock`) or else the
unavailable error, no order is persisted, and the rejected line item writes nothing: the
product is left as it was read, which is as it was before the request when no line item of
`pre` names it; every product keeps exactly the decrement of the line items of `pre`. -/
theorem insufficient_stock_rejected (e : Env) (db : DB) (req : OrderRequest) (user : User)
    (address : Option AddressFields) (pre post : List ItemReq) (item : ItemReq)
    (st : LoopState) (product : Product)
    (hu : db.users req.userId = some user)
    (ha : resolveDeliveryAddress user req = .ok address)
    (hitems : req.items = pre ++ item :: post)
    (hpre : orderItemsLoop e pre (LoopState.init db) = (st, none))
    (hprod : st.products item.productId = some product)
    (hrest : truthyStr st.restaurantId = true → product.restaurantId = st.restaurantId)
    (hbad : product.inStock = false ∨ product.stock < item.effectiveQty ∨
      product.isAvailable = some false) :
    ((product.inStock = false ∨ product.stock < item.effectiveQty) ∧
        (createOrder e db req).2 = .error 400 (.outOfStock product.name product.stock) ∨
      product.isAvailable = some false ∧
        (createOrder e db req).2 = .error 400 (.unavailable product.name)) ∧
      persistedOrders e db req = [] ∧
      (createOrder e db req).1.orders = db.orders ∧
      (createOrder e db req).1.products item.productId = some product ∧
      ((∀ earlier ∈ pre, earlier.productId ≠ item.productId) →
        db.products item.productId = some product) ∧
      ∀ id p, db.products id = some p →
        ∃ p', (createOrder e db req).1.products id = some p' ∧
          p'.stock = p.stock - orderedQty pre id := by
  have hne' : req.items.isEmpty = false := by
    rw [hitems]
    cases pre <;> rfl
  have hres : ∀ f, orderItemStep e st item = .error f →
      createOrder e db req = ({ db with products := st.products }, .error f.status f.message) := by
    intro f hstep
    have hloop : orderItemsLoop e req.items (LoopState.init db) = (st, some f) := by
      rw [hitems, orderItemsLoop_append pre (item :: post) hpre]
      simp [orderItemsLoop, hstep]
    simp [createOrder, hne', hu, ha, hloop]
  have hno1 : ¬ (truthyStr st.restaurantId = true ∧ product.restaurantId = none) := by
    rintro ⟨ht, hn⟩
    have := hrest ht
    rw [hn] at this
    rw [← this] at ht
    simp [truthyStr] at ht
  have hno2 : ¬ (truthyStr st.restaurantId = true ∧ product.restaurantId ≠ st.restaurantId) :=
    fun ⟨ht, hd⟩ => hd (hrest ht)
  have hstep : ((product.inStock = false ∨ product.stock < item.effectiveQty) ∧
        orderItemStep e st item = .error ⟨400, .outOfStock product.name product.stock⟩) ∨
      (product.isAvailable = some false ∧
        orderItemStep e st item = .error ⟨400, .unavailable product.name⟩) := by
    by_cases hs : product.inStock = false ∨ product.stock < item.effectiveQty
    · exact Or.inl ⟨hs, by simp only [orderItemStep, hprod, if_neg hno1, if_neg hno2, if_pos hs]⟩
    · have hav : product.isAvailable = some false := by
        rcases hbad with h | h | h
        · exact absurd (Or.inl h) hs
        · exact absurd (Or.inr h) hs
        · exact h
      exact Or.inr ⟨hav, by
        simp only [orderItemStep, hprod, if_neg hno1, if_neg hno2, if_neg hs, if_pos hav]⟩
  have hcommon : ∀ f, orderItemStep e st item = .error f →
      persistedOrders e db req = [] ∧
      (createOrder e db req).1.orders = db.orders ∧
      (createOrder e db req).1.products item.productId = some product ∧
      ((∀ earlier ∈ pre, earlier.productId ≠ item.productId) →
        db.products item.productId = some product) ∧
      ∀ id p, db.products id = some p →
        ∃ p', (createOrder e db req).1.products id = some p' ∧
          p'.stock = p.stock - orderedQty pre id := by
    intro f hf
    have hr := hres f hf
    refine ⟨by simp [persistedOrders, hr], by rw [hr], by rw [hr]; exact hprod, ?_, ?_⟩
    · intro hfresh
      have := orderItemsLoop_frame hpre item.productId hfresh
      rw [hprod] at this
      exact this.symm
    · intro id p hp
      obtain ⟨p', hp', hstock, -⟩ := orderItemsLoop_stock hpre id (p := p) hp
      exact ⟨p', by rw [hr]; exact hp', hstock⟩
  rcases hstep with ⟨hs, hf⟩ | ⟨hav, hf⟩
  · exact ⟨Or.inl ⟨hs, by rw [hres _ hf]⟩, hcommon _ hf⟩
  · exact ⟨Or.inr ⟨hav, by rw [hres _ hf]⟩, hcommon _ hf⟩

/-- C7, scenario: stock 2 and quantity 3 is answered with the out-of-stock error, persists no
order, and the stock remains 2. -/
theorem insufficient_stock_rejected_witness :
    (createOrder scenarioEnv lowStockDB threeUnitsRequest).2 =
        .error 400 (.outOfStock "Buff Steam Momo" 2) ∧
      persistedOrders scenarioEnv lowStockDB threeUnitsRequest = [] ∧
      (createOrder scenarioEnv lowStockDB threeUnitsRequest).1.products "P1" =
        some { scenarioProduct with stock := 2 } ∧
      lowStockDB.products "P1" = some { scenarioProduct with stock := 2 } :=
  have key := insufficient_stock_rejected scenarioEnv lowStockDB threeUnitsRequest
    { addresses := [], orders := [] } none [] [] { productId := "P1", qty := some 3 }
    (LoopState.init lowStockDB) { scenarioProduct with stock := 2 }
    (by decide!) (by decide!) rfl rfl (by decide!) (by decide!) (by decide!)
  ⟨by decide!, key.2.1, key.2.2.2.1, key.2.2.2.2.1 (by decide!)⟩

/-- C8: for every line item that the loop of order creation accepts, with `qty` the quantity
`item.qty || 1` that the order records for it, the product is saved (it passed the validation
of `save()`) with `stock` decreased by exactly `qty` and `totalOrders` increased by exactly
`qty`, with `inStock = false` when the new stock is 0 and `inStock` as it was when the new
stock is positive; the new stock is never negative, no other field of the product and no other
product changes. -/
theorem accepted_item_reserved (e : Env) (st st' : LoopState) (item : ItemReq)
    (h : orderItemStep e st item = .ok st') :
    ∃ product saved,
      st.products item.productId = some product ∧
      st'.products item.productId = some saved ∧
      e.validProduct saved = true ∧
      saved.stock = product.stock - item.effectiveQty ∧
      saved.totalOrders = product.totalOrders + item.effectiveQty ∧
      (saved.stock = 0 → saved.inStock = false) ∧
      (0 < saved.stock → saved.inStock = product.inStock) ∧
      0 ≤ saved.stock ∧
      saved.name = product.name ∧ saved.restaurantId = product.restaurantId ∧
      saved.price = product.price ∧ saved.isAvailable = product.isAvailable ∧
      st'.orderItems = st.orderItems ++
        [{ productId := item.productId, qty := item.effectiveQty, price := product.price }] ∧
      ∀ id, id ≠ item.productId → st'.products id = st.products id := by
  obtain ⟨product, hp, -, hin, hq, -, hvalid, hst'⟩ := orderItemStep_ok h
  subst hst'
  refine ⟨product, product.reserve item.effectiveQty, hp, by simp, hvalid, rfl, rfl, ?_, ?_, ?_,
    rfl, rfl, rfl, rfl, rfl, ?_⟩
  · intro h0
    have h0' : product.stock - item.effectiveQty = 0 := h0
    simp [Product.reserve, h0']
  · intro hpos
    have hpos' : 0 < product.stock - item.effectiveQty := hpos
    simp [Product.reserve, not_le.mpr hpos']
  · show 0 ≤ product.stock - item.effectiveQty
    omega
  · intro id hid
    simp [Function.update_noteq hid]

/-- C8, scenario: two units of `P1` (stock 5, no orders yet) are accepted and the product is
saved with stock 3 and `totalOrders` 2, still in stock. -/
theorem accepted_item_reserved_witness :
    orderItemStep scenarioEnv (LoopState.init scenarioDB) { productId := "P1", qty := some 2 } =
        .ok (orderItemsLoop scenarioEnv [{ productId := "P1", qty := some 2 }]
          (LoopState.init scenarioDB)).1 ∧
      ∃ product saved,
        scenarioDB.products "P1" = some product ∧
        (orderItemsLoop scenarioEnv [{ productId := "P1", qty := some 2 }]
          (LoopState.init scenarioDB)).1.products "P1" = some saved ∧
        saved.stock = product.stock - 2 ∧ saved.totalOrders = product.totalOrders + 2 :=
  have key := accepted_item_reserved scenarioEnv (LoopState.init scenarioDB)
    (orderItemsLoop scenarioEnv [{ productId := "P1", qty := some 2 }]
      (LoopState.init scenarioDB)).1
    { productId := "P1", qty := some 2 } rfl
  ⟨rfl, by
    obtain ⟨product, saved, h1, h2, -, h3, h4, -⟩ := key
    exact ⟨product, saved, h1, h2, h3, h4⟩⟩

/-- C9: order creation preserves the product invariant: a product with `stock >= 0` and
`inStock = (stock > 0)` before a request is still in the collection after the request, whatever
the request and whether it succeeds or fails, with `stock >= 0` and `inStock = (stock > 0)`. -/
theorem createOrder_preserves_product_inv (e : Env) (db : DB) (req : OrderRequest)
    (id : String) (p : Product) (hp : db.products id = some p)
    (hstock : 0 ≤ p.stock) (hflag : p.inStock = decide (0 < p.stock)) :
    ∃ p', (createOrder e db req).1.products id = some p' ∧
      0 ≤ p'.stock ∧ p'.inStock = decide (0 < p'.stock) := by
  rcases createOrder_products e db req with hsame | ⟨st, r, hl, hprods⟩
  · exact ⟨p, by rw [hsame]; exact hp, hstock, hflag⟩
  · obtain ⟨p', hp', hinv⟩ := orderItemsLoop_inv hl id (p := p) hp ⟨hstock, hflag⟩
    exact ⟨p', by rw [hprods]; exact hp', hinv.1, hinv.2⟩

/-- C9, scenario: ordering all five units of `P1` leaves it with stock 0 and `inStock = false`. -/
theorem createOrder_preserves_product_inv_witness :
    (createOrder scenarioEnv scenarioDB allUnitsRequest).1.products "P1" =
        some { scenarioProduct with stock := 0, inStock := false, totalOrders := 5 } ∧
      ∃ p', (createOrder scenarioEnv scenarioDB allUnitsRequest).1.products "P1" = some p' ∧
        0 ≤ p'.stock ∧ p'.inStock = decide (0 < p'.stock) :=
  ⟨by decide!, createOrder_preserves_product_inv scenarioEnv scenarioDB allUnitsRequest "P1"
    scenarioProduct (by decide!) (by decide!) (by decide!)⟩

/-- C10: when order creation fails at the coupon step (unknown code, invalid coupon, or
subtotal below `minOrderAmount`), every line item was accepted before, no order is persisted,
the coupon collection is unchanged (no `usedCount` changes), and nothing is rolled back: every
product has its stock decreased and its `totalOrders` increased by the quantities of the line
items that name it. -/
theorem coupon_failure_keeps_reservations (e : Env) (db : DB) (req : OrderRequest)
    (status : Nat) (message : Message)
    (hresp : (createOrder e db req).2 = .error status message)
    (hmsg : message = .invalidCoupon ∨ message = .couponExpired ∨
      ∃ amount, message = .belowMinimum amount) :
    (∃ st, orderItemsLoop e req.items (LoopState.init db) = (st, none)) ∧
      persistedOrders e db req = [] ∧
      (createOrder e db req).1.orders = db.orders ∧
      (createOrder e db req).1.coupons = db.coupons ∧
      (∀ item ∈ req.items, ∃ p, db.products item.productId = some p) ∧
      ∀ id p, db.products id = some p →
        ∃ p', (createOrder e db req).1.products id = some p' ∧
          p'.stock = p.stock - orderedQty req.items id ∧
          p'.totalOrders = p.totalOrders + orderedQty req.items id := by
  rcases createOrder_cases e db req with ⟨o, -, ho⟩ | ⟨s, m, hresp', horders, -, hcase⟩
  · rw [ho] at hresp
    cases hresp
  · rw [hresp'] at hresp
    cases hresp
    rcases hcase with ⟨-, -, hm⟩ | ⟨st, f, hl, -, -, -, hm⟩ | ⟨st, f, hl, -, hprods, hcoupons, -⟩ |
        ⟨st, _, _, -, -, -, -, -, hm⟩
    · rcases hm with ⟨hm, -⟩ | hm | hm <;> subst hm <;> simp at hmsg
    · rcases orderItemsLoop_error hl with ⟨_, rfl⟩ | rfl | rfl | ⟨_, _, rfl⟩ | ⟨_, rfl⟩ <;>
        subst hm <;> simp at hmsg
    · obtain ⟨-, -, hex⟩ := orderItemsLoop_items hl
      refine ⟨⟨st, hl⟩, by simp [persistedOrders, horders], horders, hcoupons, hex, ?_⟩
      intro id p hp
      obtain ⟨p', hp', hstock, htot⟩ := orderItemsLoop_stock hl id (p := p) hp
      exact ⟨p', by rw [hprods]; exact hp', hstock, htot⟩
    · subst hm
      simp at hmsg

/-- C10, scenario: two units of `P1` with the unknown coupon code `NOPE` are answered with the
invalid-coupon error; no order is persisted, the coupons are unchanged, and `P1` is left with
stock 3 and `totalOrders` 2. -/
theorem coupon_failure_keeps_reservations_witness :
    (createOrder scenarioEnv scenarioDB (couponRequest "NOPE")).2 = .error 400 .invalidCoupon ∧
      persistedOrders scenarioEnv scenarioDB (couponRequest "NOPE") = [] ∧
      (createOrder scenarioEnv scenarioDB (couponRequest "NOPE")).1.coupons = scenarioDB.coupons ∧
      ∃ p', (createOrder scenarioEnv scenarioDB (couponRequest "NOPE")).1.products "P1" = some p' ∧
        p'.stock = 3 ∧ p'.totalOrders = 2 :=
  have key := coupon_failure_keeps_reservations scenarioEnv scenarioDB (couponRequest "NOPE")
    400 .invalidCoupon (by decide!) (Or.inl rfl)
  ⟨by decide!, key.2.1, key.2.2.2.1, key.2.2.2.2.2 "P1" scenarioProduct (by decide!)⟩

/-! ## Coupon usage (C11 to C14) -/

theorem isValid_of_exhausted {c : Coupon} {limit : ℚ} (now : Int)
    (hl : c.usageLimit = some limit) (hle : limit ≤ c.usedCount) : c.isValid now = false := by
  unfold Coupon.isValid
  simp only [hl]
  have : ¬ c.usedCount < limit := not_lt.mpr hle
  simp [this]

theorem appliedCoupon_of_applyCoupon {e : Env} {db : DB} {req : OrderRequest} {subtotal d : ℚ}
    {coupons : List Coupon}
    (h : applyCoupon e db.coupons subtotal req.couponCode = .ok (coupons, d)) :
    (appliedCoupon db req = none ∧ coupons = db.coupons ∧ d = 0) ∨
      ∃ c, appliedCoupon db req = some c ∧ c.isValid e.now = true ∧
        ¬ subtotal < c.minOrderAmount ∧
        e.validCoupon { c with usedCount := c.usedCount + 1 } = true ∧
        coupons = saveCoupon db.coupons { c with usedCount := c.usedCount + 1 } ∧
        d = discountFor c subtotal := by
  rcases applyCoupon_ok h with ⟨hnone, hc, hd⟩ | ⟨code, c, hcode, hne, hfind, hvalid, hmin, hsave, hc, hd⟩
  · refine Or.inl ⟨?_, hc, hd⟩
    rcases hnone with hn | hn <;> simp [appliedCoupon, hn]
  · exact Or.inr ⟨c, by simp [appliedCoupon, hcode, hne, hfind], hvalid, hmin, hsave, hc, hd⟩

/-- The coupon collection after a request: unchanged, or the coupon that the request names was
valid and is saved with `usedCount + 1`; in the second case an order is persisted or the
answer is the 500 of the rejected save of the order. -/
theorem createOrder_coupons (e : Env) (db : DB) (req : OrderRequest) :
    (createOrder e db req).1.coupons = db.coupons ∨
      ∃ c, appliedCoupon db req = some c ∧ c.isValid e.now = true ∧
        (createOrder e db req).1.coupons =
          saveCoupon db.coupons { c with usedCount := c.usedCount + 1 } := by
  rcases createOrder_cases e db req with ⟨o, ho, -⟩ | ⟨s, m, -, -, -, hcase⟩
  · obtain ⟨_, _, st, coupons, d, -, -, -, -, hc, -, -, hres⟩ := createOrder_persisted ho
    rcases appliedCoupon_of_applyCoupon hc with ⟨-, hsame, -⟩ | ⟨c, happ, hvalid, -, -, hsave, -⟩
    · exact Or.inl (by rw [hres, hsame])
    · exact Or.inr ⟨c, happ, hvalid, by rw [hres, hsave]⟩
  · rcases hcase with ⟨-, hcoupons, -⟩ | ⟨_, _, -, -, hcoupons, -⟩ | ⟨_, _, -, -, -, hcoupons, -⟩ |
        ⟨st, coupons, d, -, hc, -, hcoupons, -⟩
    · exact Or.inl hcoupons
    · exact Or.inl hcoupons
    · exact Or.inl hcoupons
    · rcases appliedCoupon_of_applyCoupon hc with ⟨-, hsame, -⟩ | ⟨c, happ, hvalid, -, -, hsave, -⟩
      · exact Or.inl (by rw [hcoupons, hsame])
      · exact Or.inr ⟨c, happ, hvalid, by rw [hcoupons, hsave]⟩

theorem appliedCoupon_mem {db : DB} {req : OrderRequest} {c : Coupon}
    (h : appliedCoupon db req = some c) : c ∈ db.coupons := by
  unfold appliedCoupon at h
  split at h
  · split_ifs at h
    exact List.mem_of_find?_eq_some h
  · cases h

theorem saveCoupon_ids (coupons : List Coupon) (saved : Coupon) :
    (saveCoupon coupons saved).map (fun c => c._id) = coupons.map (fun c => c._id) := by
  unfold saveCoupon
  rw [List.map_map]
  apply List.map_congr_left
  intro c _
  by_cases h : c._id = saved._id <;> simp [h]

theorem eq_of_id_eq {coupons : List Coupon} (hids : (coupons.map (fun c => c._id)).Nodup)
    {c d : Coupon} (hc : c ∈ coupons) (hd : d ∈ coupons) (h : c._id = d._id) : c = d :=
  List.inj_on_of_nodup_map hids hc hd h

theorem saveCoupon_eq_map {coupons : List Coupon}
    (hids : (coupons.map (fun c => c._id)).Nodup) {c : Coupon} (hc : c ∈ coupons)
    (usedCount : ℚ) :
    saveCoupon coupons { c with usedCount := usedCount } =
      coupons.map (fun x => if x = c then { c with usedCount := usedCount } else x) := by
  unfold saveCoupon
  apply List.map_congr_left
  intro x hx
  by_cases h : x = c
  · subst h
    simp
  · have hid : ¬ x._id = c._id := fun hid => h (eq_of_id_eq hids hx hc hid)
    simp [h, hid]

theorem createOrder_coupon_at (e : Env) (db : DB) (req : OrderRequest)
    (hids : (db.coupons.map (fun c => c._id)).Nodup) (i : Nat) (c : Coupon)
    (hc : db.coupons[i]? = some c) :
    ((createOrder e db req).1.coupons.map (fun c => c._id)).Nodup ∧
      ∃ c', (createOrder e db req).1.coupons[i]? = some c' ∧
        (c' = c ∨ (c.isValid e.now = true ∧ c' = { c with usedCount := c.usedCount + 1 })) := by
  rcases createOrder_coupons e db req with hsame | ⟨a, happ, hvalid, hsave⟩
  · rw [hsame]
    exact ⟨hids, c, hc, Or.inl rfl⟩
  · refine ⟨by rw [hsave, saveCoupon_ids]; exact hids, ?_⟩
    rw [hsave, saveCoupon_eq_map hids (appliedCoupon_mem happ), List.getElem?_map, hc]
    by_cases hca : c = a
    · subst hca
      exact ⟨_, by simp, Or.inr ⟨hvalid, rfl⟩⟩
    · exact ⟨c, by simp [hca], Or.inl rfl⟩

theorem exhausted_coupon_rejected {e : Env} {db : DB} {req : OrderRequest} {c : Coupon}
    {limit : ℚ} (happ : appliedCoupon db req = some c) (hl : c.usageLimit = some limit)
    (hle : limit ≤ c.usedCount) :
    persistedOrders e db req = [] ∧ (createOrder e db req).1.coupons = db.coupons ∧
      ∃ status message, (createOrder e db req).2 = .error status message := by
  have hinvalid := isValid_of_exhausted e.now hl hle
  have hno : ∀ st coupons d,
      applyCoupon e db.coupons st req.couponCode ≠ .ok (coupons, d) := by
    intro st coupons d hc
    rcases appliedCoupon_of_applyCoupon hc with ⟨hnone, -⟩ | ⟨a, ha, hvalid, -⟩
    · rw [happ] at hnone
      cases hnone
    · rw [happ] at ha
      cases ha
      rw [hinvalid] at hvalid
      cases hvalid
  rcases createOrder_cases e db req with ⟨o, ho, -⟩ | ⟨s, m, hresp, horders, -, hcase⟩
  · obtain ⟨_, _, st, coupons, d, -, -, -, -, hc, -⟩ := createOrder_persisted ho
    exact absurd hc (hno _ _ _)
  · have hpers : persistedOrders e db req = [] := by simp [persistedOrders, horders]
    rcases hcase with ⟨-, hcoupons, -⟩ | ⟨_, _, -, -, hcoupons, -⟩ | ⟨_, _, -, -, -, hcoupons, -⟩ |
        ⟨st, coupons, d, -, hc, -⟩
    · exact ⟨hpers, hcoupons, s, m, hresp⟩
    · exact ⟨hpers, hcoupons, s, m, hresp⟩
    · exact ⟨hpers, hcoupons, s, m, hresp⟩
    · exact absurd hc (hno _ _ _)

theorem coupon_after_requests (db : DB) (requests : List (Env × OrderRequest))
    (hids : (db.coupons.map (fun c => c._id)).Nodup) (i : Nat) (c : Coupon)
    (limit used : Int)
    (hc : db.coupons[i]? = some c) (hl : c.usageLimit = some (limit : ℚ))
    (hu : c.usedCount = (used : ℚ)) (hle : c.usedCount ≤ (limit : ℚ)) :
    ∃ c', (createOrders db requests).coupons[i]? = some c' ∧
      c' = { c with usedCount := c'.usedCount } ∧
      c.usedCount ≤ c'.usedCount ∧ c'.usedCount ≤ (limit : ℚ) ∧
      (c.usedCount = (limit : ℚ) → c' = c) ∧
      ∀ e req, c'.usedCount = (limit : ℚ) →
        appliedCoupon (createOrders db requests) req = some c' →
        persistedOrders e (createOrders db requests) req = [] ∧
        (createOrder e (createOrders db requests) req).1.coupons =
          (createOrders db requests).coupons ∧
        ∃ status message,
          (createOrder e (createOrders db requests) req).2 = .error status message := by
  induction requests generalizing db c used with
  | nil =>
    refine ⟨c, hc, rfl, le_refl _, hle, fun _ => rfl, ?_⟩
    intro e req hfull happ
    exact exhausted_coupon_rejected happ hl (le_of_eq hfull.symm)
  | cons r rest ih =>
    obtain ⟨e, req⟩ := r
    obtain ⟨hids1, c1, hc1, hstep⟩ := createOrder_coupon_at e db req hids i c hc
    rcases hstep with h1 | ⟨hvalid, h1⟩
    · subst h1
      exact ih (createOrder e db req).1 hids1 c1 used hc1 hl hu hle
    · have hlt : c.usedCount < (limit : ℚ) := by
        by_contra hge
        have := isValid_of_exhausted e.now hl (not_lt.mp hge)
        rw [this] at hvalid
        cases hvalid
      have hltz : used < limit := by
        rw [hu] at hlt
        exact_mod_cast hlt
      have hl1 : c1.usageLimit = some (limit : ℚ) := by rw [h1]; exact hl
      have hu1 : c1.usedCount = ((used + 1 : Int) : ℚ) := by
        rw [h1]
        show c.usedCount + 1 = ((used + 1 : Int) : ℚ)
        rw [hu]
        push_cast
        rfl
      have hle1 : c1.usedCount ≤ (limit : ℚ) := by
        rw [hu1]
        exact_mod_cast Int.add_one_le_of_lt hltz
      obtain ⟨c', hc', hsame, hmono, hbound, hstay, hrej⟩ :=
        ih (createOrder e db req).1 hids1 c1 (used + 1) hc1 hl1 hu1 hle1
      refine ⟨c', hc', ?_, ?_, hbound, ?_, hrej⟩
      · rw [hsame, h1]
      · have h2 : c1.usedCount = c.usedCount + 1 := by rw [h1]
        rw [h2] at hmono
        linarith
      · intro hfull
        rw [hfull] at hlt
        exact absurd hlt (lt_irrefl _)

/-- C11, as claimed it fails: the coupon `HALF` has `usageLimit = 1.5` and `usedCount = 0`, so
`usedCount <= usageLimit`; the schema takes any number for both fields. Two requests that name
it are both accepted, since `0 < 1.5` and `1 < 1.5`, and leave `usedCount = 2`, which is above
`usageLimit`. -/
theorem fractional_limit_exceeded :
    halfCoupon.usageLimit = some (3 / 2) ∧ halfCoupon.usedCount = 0 ∧
      (createOrders halfDB
          [(scenarioEnv, couponRequest "half"), (scenarioEnv, couponRequest "half")]).coupons =
        [scenarioCoupon, { halfCoupon with usedCount := 2 }] ∧
      ¬ ((2 : ℚ) ≤ 3 / 2) := by
  decide!

/-- C11, amended: for every coupon of the collection (whose `_id`s are pairwise different) whose
`usageLimit` and `usedCount` are whole numbers with `usedCount <= usageLimit`, after any
sequence of order-creation requests handled one after the other the coupon is the same but for
`usedCount`, which has not decreased and is still at most `usageLimit`; a coupon that has
reached its limit is left as it is by every further request, and every request that names a
coupon at its limit persists no order and changes no coupon. A request that names the coupon
and persists an order saves it with `usedCount + 1` (so 1 after the first application
from 0). -/
theorem usedCount_le_usageLimit (db : DB) (requests : List (Env × OrderRequest))
    (hids : (db.coupons.map (fun c => c._id)).Nodup) (i : Nat) (c : Coupon)
    (limit used : Int)
    (hc : db.coupons[i]? = some c) (hl : c.usageLimit = some (limit : ℚ))
    (hu : c.usedCount = (used : ℚ)) (hle : c.usedCount ≤ (limit : ℚ)) :
    (∃ c', (createOrders db requests).coupons[i]? = some c' ∧
      c' = { c with usedCount := c'.usedCount } ∧
      c.usedCount ≤ c'.usedCount ∧ c'.usedCount ≤ (limit : ℚ) ∧
      (c.usedCount = (limit : ℚ) → c' = c) ∧
      ∀ e req, c'.usedCount = (limit : ℚ) →
        appliedCoupon (createOrders db requests) req = some c' →
        persistedOrders e (createOrders db requests) req = [] ∧
        (createOrder e (createOrders db requests) req).1.coupons =
          (createOrders db requests).coupons ∧
        ∃ status message,
          (createOrder e (createOrders db requests) req).2 = .error status message) ∧
      ∀ e req, ∀ o ∈ persistedOrders e db req, appliedCoupon db req = some c →
        c.usedCount < (limit : ℚ) ∧
        (createOrder e db req).1.coupons[i]? = some { c with usedCount := c.usedCount + 1 } := by
  refine ⟨coupon_after_requests db requests hids i c limit used hc hl hu hle, ?_⟩
  intro e req o ho happ
  obtain ⟨_, _, st, coupons, d, -, -, -, -, hcoupon, -, -, hres⟩ := createOrder_persisted ho
  rcases appliedCoupon_of_applyCoupon hcoupon with ⟨hnone, -⟩ | ⟨a, ha, hvalid, -, -, hsave, -⟩
  · rw [happ] at hnone
    cases hnone
  · rw [happ] at ha
    cases ha
    constructor
    · by_contra hge
      have := isValid_of_exhausted e.now hl (not_lt.mp hge)
      rw [this] at hvalid
      cases hvalid
    · rw [hres, hsave, saveCoupon_eq_map hids (appliedCoupon_mem happ), List.getElem?_map, hc]
      simp

/-- C11, scenario: the coupon `ONCE` (`usageLimit = 1`, `usedCount = 0`): the first request
that names it persists an order and sets `usedCount = 1`; the second is answered with the
expired-coupon error and leaves `usedCount = 1`. -/
theorem usedCount_le_usageLimit_witness :
    (persistedOrders scenarioEnv onceDB (couponRequest "once")).map
        (fun o => o.discountAmount) = [30] ∧
      (createOrders onceDB [(scenarioEnv, couponRequest "once")]).coupons =
        [scenarioCoupon, { onceCoupon with usedCount := 1 }] ∧
      (createOrder scenarioEnv (createOrders onceDB [(scenarioEnv, couponRequest "once")])
        (couponRequest "once")).2 = .error 400 .couponExpired ∧
      ∃ c', (createOrders onceDB
            [(scenarioEnv, couponRequest "once"), (scenarioEnv, couponRequest "once")]).coupons[1]?
          = some c' ∧ c'.usedCount ≤ 1 :=
  have key := usedCount_le_usageLimit onceDB
    [(scenarioEnv, couponRequest "once"), (scenarioEnv, couponRequest "once")]
    (by decide!) 1 onceCoupon 1 0 (by decide!) (by decide!) (by decide!) (by decide!)
  ⟨by decide!, by decide!, by decide!, by
    obtain ⟨c', h1, -, -, h2, -⟩ := key.1
    exact ⟨c', h1, by exact_mod_cast h2⟩⟩

/-- C12, as claimed it fails: with the order schema of the specification, the request with the
coupon `SAVE10` and the payment method `card` passes the coupon step, which saves the coupon
with `usedCount = 1`, and then fails at the save of the order: the answer is a server error,
no order is persisted, and `usedCount` stays 1. -/
theorem rejected_order_keeps_coupon_increment :
    (createOrder specSchemaEnv scenarioDB cardRequest).2 = .error 500 .serverError ∧
      persistedOrders specSchemaEnv scenarioDB cardRequest = [] ∧
      scenarioDB.coupons.map (fun c => c.usedCount) = [0] ∧
      (createOrder specSchemaEnv scenarioDB cardRequest).1.coupons.map
        (fun c => c.usedCount) = [1] := by
  decide!

/-- C12, amended: in a coupon collection with pairwise different `_id`s, every request that
persists an order and names a coupon saves that coupon with `usedCount + 1` and changes no
other coupon; every request that persists an order without naming a coupon, that carries no
coupon code, or that is answered with an error other than the server error leaves the coupon
collection unchanged; a request answered with the server error leaves it unchanged or, when
the failure is the save of the order after the coupon step, keeps the increment of the coupon
it names (nothing is rolled back). -/
theorem usedCount_incremented_once (e : Env) (db : DB) (req : OrderRequest)
    (hids : (db.coupons.map (fun c => c._id)).Nodup) :
    (∀ o ∈ persistedOrders e db req, ∀ c, appliedCoupon db req = some c →
        (createOrder e db req).1.coupons =
          db.coupons.map (fun x => if x = c then { c with usedCount := c.usedCount + 1 } else x)) ∧
      (∀ o ∈ persistedOrders e db req, appliedCoupon db req = none →
        (createOrder e db req).1.coupons = db.coupons) ∧
      (req.couponCode = none ∨ req.couponCode = some (.str "") →
        (createOrder e db req).1.coupons = db.coupons) ∧
      (∀ status message, (createOrder e db req).2 = .error status message →
        message ≠ .serverError → (createOrder e db req).1.coupons = db.coupons) ∧
      ((createOrder e db req).2 = .error 500 .serverError →
        (createOrder e db req).1.coupons = db.coupons ∨
        ∃ c, appliedCoupon db req = some c ∧
          (createOrder e db req).1.coupons =
            db.coupons.map
              (fun x => if x = c then { c with usedCount := c.usedCount + 1 } else x)) := by
  have hmap : ∀ c, appliedCoupon db req = some c →
      saveCoupon db.coupons { c with usedCount := c.usedCount + 1 } =
        db.coupons.map (fun x => if x = c then { c with usedCount := c.usedCount + 1 } else x) :=
    fun c hc => saveCoupon_eq_map hids (appliedCoupon_mem hc) _
  have hcases := createOrder_coupons e db req
  refine ⟨?_, ?_, ?_, ?_, ?_⟩
  · intro o ho c happ
    obtain ⟨_, _, st, coupons, d, -, -, -, -, hc, -, -, hres⟩ := createOrder_persisted ho
    rcases appliedCoupon_of_applyCoupon hc with ⟨hnone, -⟩ | ⟨a, ha, -, -, -, hsave, -⟩
    · rw [happ] at hnone
      cases hnone
    · rw [happ] at ha
      cases ha
      rw [hres, hsave]
      exact hmap c happ
  · intro o _ hnone
    rcases hcases with hsame | ⟨c, happ, -⟩
    · exact hsame
    · rw [hnone] at happ
      cases happ
  · intro hcode
    rcases hcases with hsame | ⟨c, happ, -⟩
    · exact hsame
    · rcases hcode with hn | hn <;> simp [appliedCoupon, hn] at happ
  · intro status message hresp hmsg
    rcases createOrder_cases e db req with ⟨o, -, ho⟩ | ⟨s, m, hresp', -, -, hcase⟩
    · rw [ho] at hresp
      cases hresp
    · rw [hresp'] at hresp
      cases hresp
      rcases hcase with ⟨-, hcoupons, -⟩ | ⟨_, _, -, -, hcoupons, -⟩ |
          ⟨_, _, -, -, -, hcoupons, -⟩ | ⟨_, _, _, -, -, -, -, -, hm⟩
      · exact hcoupons
      · exact hcoupons
      · exact hcoupons
      · exact absurd hm hmsg
  · intro _
    rcases hcases with hsame | ⟨c, happ, -, hsave⟩
    · exact Or.inl hsame
    · exact Or.inr ⟨c, happ, by rw [hsave]; exact hmap c happ⟩

/-- C12, scenario: the request with the coupon `SAVE10` persists one order and saves the
coupon with `usedCount = 1`; without a coupon code the coupon collection is unchanged. -/
theorem usedCount_incremented_once_witness :
    (persistedOrders scenarioEnv scenarioDB (couponRequest "save10")).length = 1 ∧
      (createOrder scenarioEnv scenarioDB (couponRequest "save10")).1.coupons =
        [{ scenarioCoupon with usedCount := 1 }] ∧
      (createOrder scenarioEnv scenarioDB scenarioRequest).1.coupons = scenarioDB.coupons :=
  have key := usedCount_incremented_once scenarioEnv scenarioDB scenarioRequest (by decide!)
  ⟨by decide!, by decide!, key.2.2.1 (Or.inl rfl)⟩

/-- C13: for every coupon and every time `now`, `isValid()` is true exactly when `isActive` is
true, `validFrom <= now <= validTo` (both bounds inclusive), and `usageLimit` is null or
`usedCount < usageLimit`. -/
theorem coupon_isValid_iff (c : Coupon) (now : Int) :
    c.isValid now = true ↔
      c.isActive = true ∧ (c.validFrom ≤ now ∧ now ≤ c.validTo) ∧
        (c.usageLimit = none ∨ ∃ limit, c.usageLimit = some limit ∧ c.usedCount < limit) := by
  unfold Coupon.isValid
  cases hl : c.usageLimit with
  | none => simp [and_assoc]
  | some limit => simp [and_assoc]

theorem createOrder_of_coupon_error {e : Env} {db : DB} {req : OrderRequest} {user : User}
    {address : Option AddressFields} {st : LoopState} {f : Failure}
    (hne : req.items ≠ []) (hu : db.users req.userId = some user)
    (ha : resolveDeliveryAddress user req = .ok address)
    (hl : orderItemsLoop e req.items (LoopState.init db) = (st, none))
    (hc : applyCoupon e db.coupons st.total req.couponCode = .error f) :
    createOrder e db req = ({ db with products := st.products }, .error f.status f.message) := by
  have hne' : req.items.isEmpty = false := by
    cases hi : req.items with
    | nil => exact absurd hi hne
    | cons _ _ => rfl
  simp [createOrder, hne', hu, ha, hl, hc]

/-- C14, as claimed it fails: in order creation the coupon `MEGA` (found, valid, subtotal 360
not below its minimum 0) yields no discount but a server error, because the save of the coupon
is rejected by the schema (150 percent); a `couponCode` that is not a string is answered with
the only-one-coupon error; and the coupon check answers the inactive coupon `OLD` with the
expired error, although the amount 360 is below its minimum 1000. -/
theorem coupon_step_other_outcomes :
    oddCouponsDB.coupons.find? (fun c => c.code == toUpperCase "mega") = some overPercentCoupon ∧
      overPercentCoupon.isValid couponSchemaEnv.now = true ∧
      ¬ (360 : ℚ) < overPercentCoupon.minOrderAmount ∧
      (createOrder couponSchemaEnv oddCouponsDB (couponRequest "mega")).2 =
        .error 500 .serverError ∧
      (createOrder scenarioEnv scenarioDB codeListRequest).2 = .error 400 .oneCouponOnly ∧
      (360 : ℚ) < inactiveCoupon.minOrderAmount ∧
      validateCoupon 100 oddCouponsDB.coupons "old" 360 = .error ⟨400, .couponExpired⟩ := by
  decide!

/-- C14, amended: coupon evaluation checks in this order. The coupon check
(`POST /api/coupons/validate`) fails with the unknown-code error (404) when no coupon has the
upper-cased code; else with the expired/inactive error when the validity predicate is false;
else with the below-minimum error when `orderAmount < minOrderAmount`; else it yields the
discount. The coupon step of order creation does the same for a non-empty string code (the
unknown-code error with status 400), except that it yields the discount only when the save of
the coupon with `usedCount + 1` is accepted and answers with the server error otherwise; a
`couponCode` that is not a string fails with the only-one-coupon error, an absent or empty one
gives discount 0. A failure of the coupon step is the response of the handler, and no order is
persisted. -/
theorem coupon_evaluation_outcomes (e : Env) (now : Int) (coupons : List Coupon)
    (code : String) (amount : ℚ) :
    (coupons.find? (fun c => c.code == toUpperCase code) = none →
        validateCoupon now coupons code amount = .error ⟨404, .invalidCoupon⟩ ∧
        (code ≠ "" →
          applyCoupon e coupons amount (some (.str code)) = .error ⟨400, .invalidCoupon⟩)) ∧
      (∀ c, coupons.find? (fun c => c.code == toUpperCase code) = some c →
        (c.isValid now = false →
          validateCoupon now coupons code amount = .error ⟨400, .couponExpired⟩) ∧
        (c.isValid now = true → amount < c.minOrderAmount →
          validateCoupon now coupons code amount =
            .error ⟨400, .belowMinimum c.minOrderAmount⟩) ∧
        (c.isValid now = true → ¬ amount < c.minOrderAmount →
          validateCoupon now coupons code amount =
            .ok { code := c.code, discountPercent := c.discountPercent,
                  discountAmount := discountFor c amount }) ∧
        (code ≠ "" →
          (c.isValid e.now = false →
            applyCoupon e coupons amount (some (.str code)) = .error ⟨400, .couponExpired⟩) ∧
          (c.isValid e.now = true → amount < c.minOrderAmount →
            applyCoupon e coupons amount (some (.str code)) =
              .error ⟨400, .belowMinimum c.minOrderAmount⟩) ∧
          (c.isValid e.now = true → ¬ amount < c.minOrderAmount →
            e.validCoupon { c with usedCount := c.usedCount + 1 } = true →
            applyCoupon e coupons amount (some (.str code)) =
              .ok (saveCoupon coupons { c with usedCount := c.usedCount + 1 },
                discountFor c amount)) ∧
          (c.isValid e.now = true → ¬ amount < c.minOrderAmount →
            e.validCoupon { c with usedCount := c.usedCount + 1 } = false →
            applyCoupon e coupons amount (some (.str code)) = .error ⟨500, .serverError⟩))) ∧
      applyCoupon e coupons amount (some .other) = .error ⟨400, .oneCouponOnly⟩ ∧
      applyCoupon e coupons amount none = .ok (coupons, 0) ∧
      applyCoupon e coupons amount (some (.str "")) = .ok (coupons, 0) ∧
      ∀ (db : DB) (req : OrderRequest) (user : User) (address : Option AddressFields)
        (st : LoopState) (f : Failure),
        req.items ≠ [] → db.users req.userId = some user →
        resolveDeliveryAddress user req = .ok address →
        orderItemsLoop e req.items (LoopState.init db) = (st, none) →
        applyCoupon e db.coupons st.total req.couponCode = .error f →
        (createOrder e db req).2 = .error f.status f.message ∧
          persistedOrders e db req = [] := by
  refine ⟨?_, ?_, ?_, ?_, ?_, ?_⟩
  · intro hfind
    exact ⟨by simp [validateCoupon, hfind], fun hne => by simp [applyCoupon, hne, hfind]⟩
  · intro c hfind
    refine ⟨?_, ?_, ?_, ?_⟩
    · intro hv
      simp [validateCoupon, hfind, hv]
    · intro hv hlt
      simp [validateCoupon, hfind, hv, hlt]
    · intro hv hlt
      simp [validateCoupon, hfind, hv, hlt]
    · intro hne
      refine ⟨?_, ?_, ?_, ?_⟩
      · intro hv
        simp [applyCoupon, hne, hfind, hv]
      · intro hv hlt
        simp [applyCoupon, hne, hfind, hv, hlt]
      · intro hv hlt hs
        simp [applyCoupon, hne, hfind, hv, hlt, hs]
      · intro hv hlt hs
        simp [applyCoupon, hne, hfind, hv, hlt, hs]
  · rfl
  · rfl
  · simp [applyCoupon]
  · intro db req user address st f hne hu ha hl hc
    have hres := createOrder_of_coupon_error hne hu ha hl hc
    exact ⟨by rw [hres], by simp [persistedOrders, hres]⟩

/-- C14, scenario: the coupon check answers `save10` on the amount 360 with the discount 30,
and an unknown code with the unknown-code error. -/
theorem coupon_evaluation_outcomes_witness :
    validateCoupon 100 scenarioDB.coupons "save10" 360 =
        .ok { code := "SAVE10", discountPercent := 10, discountAmount := 30 } ∧
      validateCoupon 100 scenarioDB.coupons "nope" 360 = .error ⟨404, .invalidCoupon⟩ :=
  ⟨((coupon_evaluation_outcomes scenarioEnv 100 scenarioDB.coupons "save10" 360).2.1
      scenarioCoupon (by decide!)).2.2.1 (by decide!) (by decide!) |>.trans (by decide!),
    ((coupon_evaluation_outcomes scenarioEnv 100 scenarioDB.coupons "nope" 360).1
      (by decide!)).1⟩

/-! ## Status fields and delivery address of a persisted order (C15, C16) -/

theorem persisted_status_fields {e : Env} {db : DB} {req : OrderRequest} {o : Order}
    (h : o ∈ persistedOrders e db req) :
    o.restaurantStatus = "pending" ∧ o.status = strOr req.status "pending" ∧
      o.paymentMethod = strOr req.paymentMethod "cash" ∧
      o.paymentStatus = (if req.paymentMethod = some "cash" then "completed" else "pending") := by
  obtain ⟨_, _, _, _, _, -, -, -, -, -, -, ho, -⟩ := createOrder_persisted h
  subst ho
  exact ⟨rfl, rfl, rfl, rfl⟩

/-- C15, at the failing input: the request that carries no `paymentMethod` persists an order
with `paymentMethod = 'cash'` (the default of line 162) and `paymentStatus = 'pending'`
(line 163 compares the `paymentMethod` of the request, not the persisted one), with
`restaurantStatus = 'pending'` and `status = 'pending'`. -/
theorem default_cash_order_payment_pending :
    (persistedOrders scenarioEnv scenarioDB noMethodRequest).map
        (fun o => (o.paymentMethod, o.paymentStatus, o.restaurantStatus, o.status)) =
      [("cash", "pending", "pending", "pending")] := by
  decide!

theorem resolveDeliveryAddress_cases (user : User) (req : OrderRequest) :
    (truthyStr req.deliveryAddressId = true →
        (user.addresses.find? (fun a => some a._id == req.deliveryAddressId) = none →
          resolveDeliveryAddress user req = .error ⟨404, .addressNotFound⟩) ∧
        ∀ a, user.addresses.find? (fun a => some a._id == req.deliveryAddressId) = some a →
          resolveDeliveryAddress user req = .ok (some a.fields)) ∧
      (truthyStr req.deliveryAddressId = false →
        (∀ inline, req.deliveryAddress = some inline →
          resolveDeliveryAddress user req = .ok (some inline)) ∧
        (req.deliveryAddress = none →
          (∀ a, user.addresses.find? (fun a => a.isDefault) = some a →
            resolveDeliveryAddress user req = .ok (some a.fields)) ∧
          (user.addresses.find? (fun a => a.isDefault) = none →
            (∀ a, user.addresses.head? = some a →
              resolveDeliveryAddress user req = .ok (some a.fields)) ∧
            (user.addresses = [] → resolveDeliveryAddress user req = .ok none)))) := by
  refine ⟨fun ht => ⟨fun hf => ?_, fun a hf => ?_⟩, fun ht => ⟨fun inline hi => ?_,
    fun hi => ⟨fun a hd => ?_, fun hd => ⟨fun a hh => ?_, fun hn => ?_⟩⟩⟩⟩
  · simp [resolveDeliveryAddress, ht, hf]
  · simp [resolveDeliveryAddress, ht, hf]
  · simp [resolveDeliveryAddress, ht, hi]
  · simp [resolveDeliveryAddress, ht, hi, hd]
  · simp [resolveDeliveryAddress, ht, hi, hd, hh]
  · simp [resolveDeliveryAddress, ht, hi, hn]

/-- C16, as claimed it fails: the user has the saved addresses `a1` and `a2`; the request gives
the `deliveryAddressId` `a9`, which is none of them, and an inline address: the answer is the
404 of the unknown delivery address and no order is persisted, instead of an order with the
inline address. -/
theorem unknown_address_id_not_inline :
    (createOrder scenarioEnv addressDB (addressRequest (some "a9") (some inlineAddress))).2 =
        .error 404 .addressNotFound ∧
      persistedOrders scenarioEnv addressDB (addressRequest (some "a9") (some inlineAddress)) =
        [] := by
  decide!

/-- C16, amended: order creation resolves the delivery address as follows. With a
`deliveryAddressId`: the saved address of the user with that id, and the request fails with
the delivery-address-not-found error (404), persisting nothing, when the user has none (the
inline payload is not consulted). Without a `deliveryAddressId`: the inline `deliveryAddress`
payload, else the first address of the user with `isDefault = true`, else the first address
of the user, else null. A persisted order stores the copy of `label`, `street`, `city`, `area`,
`landmark` and `phone` of the address so resolved. -/
theorem delivery_address_resolution (e : Env) (db : DB) (req : OrderRequest) :
    (∀ o ∈ persistedOrders e db req, ∃ user, db.users req.userId = some user ∧
        resolveDeliveryAddress user req = .ok o.deliveryAddress) ∧
      ∀ user, db.users req.userId = some user →
        (truthyStr req.deliveryAddressId = true →
          (user.addresses.find? (fun a => some a._id == req.deliveryAddressId) = none →
            req.items ≠ [] →
            createOrder e db req = (db, .error 404 .addressNotFound)) ∧
          ∀ a, user.addresses.find? (fun a => some a._id == req.deliveryAddressId) = some a →
            resolveDeliveryAddress user req =
              .ok (some { label := a.label, street := a.street, city := a.city, area := a.area,
                          landmark := a.landmark, phone := a.phone })) ∧
        (truthyStr req.deliveryAddressId = false →
          (∀ inline, req.deliveryAddress = some inline →
            resolveDeliveryAddress user req = .ok (some inline)) ∧
          (req.deliveryAddress = none →
            (∀ a, user.addresses.find? (fun a => a.isDefault) = some a →
              resolveDeliveryAddress user req =
                .ok (some { label := a.label, street := a.street, city := a.city,
                            area := a.area, landmark := a.landmark, phone := a.phone })) ∧
            (user.addresses.find? (fun a => a.isDefault) = none →
              (∀ a, user.addresses.head? = some a →
                resolveDeliveryAddress user req =
                  .ok (some { label := a.label, street := a.street, city := a.city,
                              area := a.area, landmark := a.landmark, phone := a.phone })) ∧
              (user.addresses = [] → resolveDeliveryAddress user req = .ok none)))) := by
  constructor
  · intro o ho
    obtain ⟨user, addr, _, _, _, -, hu, ha, -, -, -, hb, -⟩ := createOrder_persisted ho
    refine ⟨user, hu, ?_⟩
    subst hb
    exact ha
  · intro user hu
    have key := resolveDeliveryAddress_cases user req
    refine ⟨fun ht => ⟨fun hf hne => ?_, (key.1 ht).2⟩, key.2⟩
    have hne' : req.items.isEmpty = false := by
      cases hi : req.items with
      | nil => exact absurd hi hne
      | cons _ _ => rfl
    simp [createOrder, hne', hu, (key.1 ht).1 hf]

/-- C16, scenario: with the `deliveryAddressId` `a1` the persisted order stores the six fields
of the saved address `a1`, although an inline address is given and `a2` is the default; with
neither id nor inline address it stores those of the default address `a2`. -/
theorem delivery_address_resolution_witness :
    (persistedOrders scenarioEnv addressDB (addressRequest (some "a1") (some inlineAddress))).map
        (fun o => o.deliveryAddress) = [some homeAddress.fields] ∧
      (persistedOrders scenarioEnv addressDB (addressRequest none none)).map
        (fun o => o.deliveryAddress) = [some workAddress.fields] ∧
      resolveDeliveryAddress { addresses := [homeAddress, workAddress], orders := [] }
        (addressRequest none (some inlineAddress)) = .ok (some inlineAddress) :=
  have key := (delivery_address_resolution scenarioEnv addressDB
    (addressRequest none (some inlineAddress))).2
    { addresses := [homeAddress, workAddress], orders := [] } (by decide!)
  ⟨by decide!, by decide!, (key.2 (by decide!)).1 inlineAddress rfl⟩

/-! ## The restaurant fulfillment update (C17, C18) -/

theorem updateOrderStatus_found {s : OrderSchema} {restaurants : List Restaurant} {db : DB}
    {req : StatusUpdateRequest} {restaurant : Restaurant} {order : Order}
    (hr : restaurants.find? (fun r => r.userId == req.userId) = some restaurant)
    (hc : s.castable req.orderId = true)
    (ho : db.orders.find?
      (fun o => o._id == req.orderId && o.restaurantId == some restaurant._id) = some order)
    (hv : s.validOrder (order.applyStatusUpdate req) = true) :
    updateOrderStatus s restaurants db req =
      ({ db with orders := saveOrder db.orders (order.applyStatusUpdate req) },
        .ok (order.applyStatusUpdate req)) := by
  simp [updateOrderStatus, hr, hc, ho, hv]

theorem updateOrderStatus_cases (s : OrderSchema) (restaurants : List Restaurant) (db : DB)
    (req : StatusUpdateRequest) :
    (updateOrderStatus s restaurants db req).1 = db ∨
      ∃ restaurant order,
        restaurants.find? (fun r => r.userId == req.userId) = some restaurant ∧
        db.orders.find?
          (fun o => o._id == req.orderId && o.restaurantId == some restaurant._id) =
            some order ∧
        updateOrderStatus s restaurants db req =
          ({ db with orders := saveOrder db.orders (order.applyStatusUpdate req) },
            .ok (order.applyStatusUpdate req)) := by
  unfold updateOrderStatus
  cases hr : restaurants.find? (fun r => r.userId == req.userId) with
  | none => exact Or.inl rfl
  | some restaurant =>
    simp only
    by_cases hc : s.castable req.orderId = false
    · simp [hc]
    · cases ho : db.orders.find?
          (fun o => o._id == req.orderId && o.restaurantId == some restaurant._id) with
      | none => simp [hc]
      | some order =>
        by_cases hv : s.validOrder (order.applyStatusUpdate req) = false
        · simp [hc, hv]
        · exact Or.inr ⟨restaurant, order, rfl, ho, by simp [hc, hv]⟩

theorem saveOrder_eq_map {orders : List Order}
    (hids : (orders.map (fun o => o._id)).Nodup) {order : Order} (ho : order ∈ orders)
    {updated : Order} (hid : updated._id = order._id) :
    saveOrder orders updated = orders.map (fun o => if o = order then updated else o) := by
  unfold saveOrder
  apply List.map_congr_left
  intro x hx
  by_cases h : x = order
  · subst h
    simp [hid]
  · have hne : ¬ x._id = updated._id := by
      rw [hid]
      exact fun hxid => h (List.inj_on_of_nodup_map hids hx ho hxid)
    simp [h, hne]

/-- C17: for every order of the restaurant of the operator, whatever its prior `status` and
`restaurantStatus`, the fulfillment update (the id can be cast and the save is accepted) answers
with the updated order and saves it with `restaurantStatus` set to the requested value and
`status` set to `pending`, `preparing`, `delivering` or `cancelled` when the requested value is
`accepted`, `preparing`, `ready` or `rejected`; for these four values the `restaurantStatus`
and `status` written are the same for every previous state of the order. -/
theorem fulfillment_update_sets_status (s : OrderSchema) (restaurants : List Restaurant)
    (db : DB) (req : StatusUpdateRequest) (restaurant : Restaurant) (order : Order)
    (hr : restaurants.find? (fun r => r.userId == req.userId) = some restaurant)
    (hc : s.castable req.orderId = true)
    (ho : db.orders.find?
      (fun o => o._id == req.orderId && o.restaurantId == some restaurant._id) = some order)
    (hv : s.validOrder (order.applyStatusUpdate req) = true) :
    (updateOrderStatus s restaurants db req).2 = .ok (order.applyStatusUpdate req) ∧
      order.applyStatusUpdate req ∈ (updateOrderStatus s restaurants db req).1.orders ∧
      (order.applyStatusUpdate req).restaurantStatus = req.restaurantStatus ∧
      (req.restaurantStatus = "accepted" → (order.applyStatusUpdate req).status = "pending") ∧
      (req.restaurantStatus = "preparing" →
        (order.applyStatusUpdate req).status = "preparing") ∧
      (req.restaurantStatus = "ready" → (order.applyStatusUpdate req).status = "delivering") ∧
      (req.restaurantStatus = "rejected" →
        (order.applyStatusUpdate req).status = "cancelled") ∧
      ∀ previous : Order,
        (previous.applyStatusUpdate req).restaurantStatus =
          (order.applyStatusUpdate req).restaurantStatus ∧
        (req.restaurantStatus ∈ ["accepted", "preparing", "ready", "rejected"] →
          (previous.applyStatusUpdate req).status = (order.applyStatusUpdate req).status) := by
  have hres := updateOrderStatus_found hr hc ho hv
  refine ⟨by rw [hres], ?_, rfl, ?_, ?_, ?_, ?_, ?_⟩
  · rw [hres]
    exact List.mem_map.mpr ⟨order, List.mem_of_find?_eq_some ho,
      by simp [Order.applyStatusUpdate]⟩
  · intro h
    simp [Order.applyStatusUpdate, h]
  · intro h
    simp [Order.applyStatusUpdate, h]
  · intro h
    simp [Order.applyStatusUpdate, h]
  · intro h
    simp [Order.applyStatusUpdate, h]
  · intro previous
    refine ⟨rfl, fun hmem => ?_⟩
    simp only [List.mem_cons, List.mem_singleton, List.not_mem_nil, or_false] at hmem
    rcases hmem with h | h | h | h <;> simp [Order.applyStatusUpdate, h]

/-- C17, scenario: the operator of `r1` moves the pending order `o1` to `ready`, and the order
`o1` already set to `ready` back to `accepted`: the status becomes `delivering`, then `pending`. -/
theorem fulfillment_update_sets_status_witness :
    (updateOrderStatus laxSchema [scenarioRestaurant] orderedDB (statusRequest "ready")).1.orders.map
        (fun o => (o._id, o.restaurantStatus, o.status)) = [("o1", "ready", "delivering")] ∧
      (updateOrderStatus laxSchema [scenarioRestaurant]
          (updateOrderStatus laxSchema [scenarioRestaurant] orderedDB (statusRequest "ready")).1
          (statusRequest "accepted")).1.orders.map
        (fun o => (o._id, o.restaurantStatus, o.status)) = [("o1", "accepted", "pending")] ∧
      (scenarioOrder.applyStatusUpdate (statusRequest "ready")).status = "delivering" :=
  have key := fulfillment_update_sets_status laxSchema [scenarioRestaurant] orderedDB
    (statusRequest "ready") scenarioRestaurant scenarioOrder
    (by decide!) (by decide!) (by decide!) (by decide!)
  ⟨by decide!, by decide!, key.2.2.2.2.2.1 rfl⟩

/-- C18: the fulfillment update writes nothing but orders: products (so `stock`, `inStock`
and `totalOrders`), coupons and users are as before. In an order collection with pairwise
different `_id`s it leaves the orders as they are or replaces exactly the order found for
`req.params.id` by its update, which differs from the order in `restaurantStatus`, `status`,
`rejectionReason` and `preparationTime` only; a requested `rejected` makes the status
`cancelled`. -/
theorem fulfillment_update_frame (s : OrderSchema) (restaurants : List Restaurant) (db : DB)
    (req : StatusUpdateRequest) (hids : (db.orders.map (fun o => o._id)).Nodup) :
    (updateOrderStatus s restaurants db req).1.products = db.products ∧
      (updateOrderStatus s restaurants db req).1.coupons = db.coupons ∧
      (updateOrderStatus s restaurants db req).1.users = db.users ∧
      ((updateOrderStatus s restaurants db req).1.orders = db.orders ∨
        ∃ order, order ∈ db.orders ∧ order._id = req.orderId ∧
          (updateOrderStatus s restaurants db req).2 = .ok (order.applyStatusUpdate req) ∧
          (updateOrderStatus s restaurants db req).1.orders =
            db.orders.map (fun o => if o = order then order.applyStatusUpdate req else o)) ∧
      (∀ order : Order,
        { order.applyStatusUpdate req with
          restaurantStatus := order.restaurantStatus, status := order.status,
          rejectionReason := order.rejectionReason,
          preparationTime := order.preparationTime } = order) ∧
      (req.restaurantStatus = "rejected" →
        ∀ order : Order, (order.applyStatusUpdate req).status = "cancelled") := by
  have hfields : ∀ order : Order,
      { order.applyStatusUpdate req with
        restaurantStatus := order.restaurantStatus, status := order.status,
        rejectionReason := order.rejectionReason,
        preparationTime := order.preparationTime } = order := fun order => rfl
  have hrej : req.restaurantStatus = "rejected" →
      ∀ order : Order, (order.applyStatusUpdate req).status = "cancelled" := by
    intro h order
    simp [Order.applyStatusUpdate, h]
  rcases updateOrderStatus_cases s restaurants db req with hsame | ⟨restaurant, order, -, ho, hres⟩
  · rw [hsame]
    exact ⟨rfl, rfl, rfl, Or.inl rfl, hfields, hrej⟩
  · have hmem : order ∈ db.orders := List.mem_of_find?_eq_some ho
    have hid : order._id = req.orderId := by
      have := List.find?_some ho
      simp only [Bool.and_eq_true, beq_iff_eq] at this
      exact this.1
    refine ⟨by rw [hres], by rw [hres], by rw [hres], Or.inr ⟨order, hmem, hid, by rw [hres], ?_⟩,
      hfields, hrej⟩
    rw [hres]
    exact saveOrder_eq_map hids hmem rfl

/-- C18, scenario: the operator rejects the pending order `o1`: its status becomes `cancelled`,
and the product `P1`, which the order left with stock 3, still has stock 3, `inStock = true`
and `totalOrders = 2`. -/
theorem fulfillment_update_frame_witness :
    orderedDB.orders.map (fun o => (o._id, o.restaurantStatus, o.status)) =
        [("o1", "pending", "pending")] ∧
      (updateOrderStatus laxSchema [scenarioRestaurant] orderedDB
          (statusRequest "rejected")).1.orders.map
        (fun o => (o._id, o.restaurantStatus, o.status)) = [("o1", "rejected", "cancelled")] ∧
      (updateOrderStatus laxSchema [scenarioRestaurant] orderedDB
          (statusRequest "rejected")).1.products = orderedDB.products ∧
      (orderedDB.products "P1").map (fun p => (p.stock, p.inStock, p.totalOrders)) =
        some (3, true, 2) :=
  have key := fulfillment_update_frame laxSchema [scenarioRestaurant] orderedDB
    (statusRequest "rejected") (by decide!)
  ⟨by decide!, by decide!, key.1, by decide!⟩

/-! ## The eSewa success callback (C19, C20) -/

theorem find_order_by_id {orders : List Order}
    (hids : (orders.map (fun o => o._id)).Nodup) {order : Order} (hmem : order ∈ orders) :
    orders.find? (fun o => o._id == order._id) = some order := by
  cases hf : orders.find? (fun o => o._id == order._id) with
  | none =>
    have := List.find?_eq_none.mp hf order hmem
    simp at this
  | some found =>
    have hp := List.find?_some hf
    have hid : found._id = order._id := by simpa using hp
    rw [List.inj_on_of_nodup_map hids (List.mem_of_find?_eq_some hf) hmem hid]

/-- C19: for every eSewa success callback whose `data` decodes to a payload with a
`transaction_uuid` whose first `-`-separated segment is the `_id` of an order of the
collection (pairwise different `_id`s; the id can be cast and the save is accepted), the
handler saves that order with `paymentStatus = 'completed'`, `status = 'preparing'` and
`transactionId` the `transaction_code` of the payload, every other field of the order and
every other order, product, coupon and user unchanged, and redirects to the success page with
that order id as `orderId` and the `transaction_code` as `refId`. -/
theorem esewa_success_marks_paid (e : CallbackEnv) (db : DB) (data : String)
    (payload : EsewaPayload) (transaction_uuid : String) (order : Order)
    (hd : e.decode data = some payload)
    (hu : payload.transaction_uuid = some transaction_uuid)
    (hids : (db.orders.map (fun o => o._id)).Nodup)
    (hmem : order ∈ db.orders)
    (hid : order._id = firstSegment transaction_uuid)
    (hc : e.schema.castable order._id = true)
    (hv : e.schema.validOrder (order.markPaid payload.transaction_code) = true) :
    (esewaSuccess e db (some data)).2 =
        frontendUrl e ++ "/payment/success?orderId=" ++ order._id ++ "&refId=" ++
          render payload.transaction_code ∧
      (esewaSuccess e db (some data)).1.orders =
        db.orders.map (fun o => if o = order then order.markPaid payload.transaction_code else o) ∧
      (order.markPaid payload.transaction_code).paymentStatus = "completed" ∧
      (order.markPaid payload.transaction_code).status = "preparing" ∧
      (order.markPaid payload.transaction_code).transactionId = payload.transaction_code ∧
      { order.markPaid payload.transaction_code with
        paymentStatus := order.paymentStatus, status := order.status,
        transactionId := order.transactionId } = order ∧
      (esewaSuccess e db (some data)).1.products = db.products ∧
      (esewaSuccess e db (some data)).1.coupons = db.coupons ∧
      (esewaSuccess e db (some data)).1.users = db.users := by
  have hfind : db.orders.find? (fun o => o._id == firstSegment transaction_uuid) = some order := by
    rw [← hid]
    exact find_order_by_id hids hmem
  have hc' : e.schema.castable (firstSegment transaction_uuid) = true := by rw [← hid]; exact hc
  have hres : esewaSuccess e db (some data) =
      ({ db with orders := saveOrder db.orders (order.markPaid payload.transaction_code) },
        successUrl e (firstSegment transaction_uuid) payload.transaction_code) := by
    simp [esewaSuccess, hd, hu, hc', hfind, hv]
  refine ⟨by rw [hres, hid]; rfl, ?_, rfl, rfl, rfl, rfl, by rw [hres], by rw [hres], by rw [hres]⟩
  rw [hres]
  exact saveOrder_eq_map hids hmem rfl

/-- C19, scenario: the callback for the order `64b7f3a2c1d2e3f4a5b6c7d8` marks that order paid
with the reference `0007XYZ`, leaves the order `o1` alone, and redirects to the success page. -/
theorem esewa_success_marks_paid_witness :
    (esewaSuccess callbackEnv esewaDB (some scenarioData)).2 =
        "http://localhost:5173/payment/success?orderId=64b7f3a2c1d2e3f4a5b6c7d8&refId=0007XYZ" ∧
      (esewaSuccess callbackEnv esewaDB (some scenarioData)).1.orders =
        [scenarioOrder,
          { esewaOrder with
            paymentStatus := "completed", status := "preparing",
            transactionId := some "0007XYZ" }] :=
  have key := esewa_success_marks_paid callbackEnv esewaDB scenarioData scenarioPayload
    "64b7f3a2c1d2e3f4a5b6c7d8-1700000000000" esewaOrder
    (by decide!) rfl (by decide!) (by decide!) (by decide!) (by decide!) (by decide!)
  ⟨key.1.trans (by decide!), key.2.1.trans (by decide!)⟩

/-- C20, as claimed it fails: the scenario callback names the order
`64b7f3a2c1d2e3f4a5b6c7d8`; the collection holds no order with that id, and the handler
redirects to the success page (not to the failure page), modifying no order. -/
theorem esewa_success_unknown_order_redirects_to_success :
    orderedDB.orders.find? (fun o => o._id == "64b7f3a2c1d2e3f4a5b6c7d8") = none ∧
      (esewaSuccess callbackEnv orderedDB (some scenarioData)).2 =
        "http://localhost:5173/payment/success?orderId=64b7f3a2c1d2e3f4a5b6c7d8&refId=0007XYZ" ∧
      (esewaSuccess callbackEnv orderedDB (some scenarioData)).2 ≠ failureUrl callbackEnv ∧
      (esewaSuccess callbackEnv orderedDB (some scenarioData)).1.orders = orderedDB.orders := by
  decide!

/-- C20, amended: the eSewa success callback never throws: it always answers with a redirect,
to the failure page or to the success page. It redirects to the failure page and leaves the
database as it is when `data` is absent or cannot be decoded, when the payload has no
`transaction_uuid`, when the extracted order id cannot be cast, and when the save of the order
is rejected. When the extracted order id can be cast and matches no order, it leaves the
database as it is and redirects to the success page with that `orderId` and the `refId` of the
payload. -/
theorem esewa_success_failure_paths (e : CallbackEnv) (db : DB) :
    esewaSuccess e db none = (db, failureUrl e) ∧
      (∀ data, e.decode data = none → esewaSuccess e db (some data) = (db, failureUrl e)) ∧
      (∀ data payload, e.decode data = some payload → payload.transaction_uuid = none →
        esewaSuccess e db (some data) = (db, failureUrl e)) ∧
      (∀ data payload transaction_uuid, e.decode data = some payload →
        payload.transaction_uuid = some transaction_uuid →
        e.schema.castable (firstSegment transaction_uuid) = false →
        esewaSuccess e db (some data) = (db, failureUrl e)) ∧
      (∀ data payload transaction_uuid order, e.decode data = some payload →
        payload.transaction_uuid = some transaction_uuid →
        e.schema.castable (firstSegment transaction_uuid) = true →
        db.orders.find? (fun o => o._id == firstSegment transaction_uuid) = some order →
        e.schema.validOrder (order.markPaid payload.transaction_code) = false →
        esewaSuccess e db (some data) = (db, failureUrl e)) ∧
      (∀ data payload transaction_uuid, e.decode data = some payload →
        payload.transaction_uuid = some transaction_uuid →
        e.schema.castable (firstSegment transaction_uuid) = true →
        db.orders.find? (fun o => o._id == firstSegment transaction_uuid) = none →
        esewaSuccess e db (some data) =
          (db, successUrl e (firstSegment transaction_uuid) payload.transaction_code)) ∧
      ∀ data, (esewaSuccess e db data).2 = failureUrl e ∨
        ∃ orderId refId, (esewaSuccess e db data).2 = successUrl e orderId refId := by
  have h1 : ∀ data, e.decode data = none → esewaSuccess e db (some data) = (db, failureUrl e) := by
    intro data hd
    simp [esewaSuccess, hd]
  have h2 : ∀ data payload, e.decode data = some payload → payload.transaction_uuid = none →
      esewaSuccess e db (some data) = (db, failureUrl e) := by
    intro data payload hd hu
    simp [esewaSuccess, hd, hu]
  have h3 : ∀ data payload transaction_uuid, e.decode data = some payload →
      payload.transaction_uuid = some transaction_uuid →
      e.schema.castable (firstSegment transaction_uuid) = false →
      esewaSuccess e db (some data) = (db, failureUrl e) := by
    intro data payload uuid hd hu hc
    simp [esewaSuccess, hd, hu, hc]
  have h4 : ∀ data payload transaction_uuid order, e.decode data = some payload →
      payload.transaction_uuid = some transaction_uuid →
      e.schema.castable (firstSegment transaction_uuid) = true →
      db.orders.find? (fun o => o._id == firstSegment transaction_uuid) = some order →
      e.schema.validOrder (order.markPaid payload.transaction_code) = false →
      esewaSuccess e db (some data) = (db, failureUrl e) := by
    intro data payload uuid order hd hu hc ho hv
    simp [esewaSuccess, hd, hu, hc, ho, hv]
  have h5 : ∀ data payload transaction_uuid, e.decode data = some payload →
      payload.transaction_uuid = some transaction_uuid →
      e.schema.castable (firstSegment transaction_uuid) = true →
      db.orders.find? (fun o => o._id == firstSegment transaction_uuid) = none →
      esewaSuccess e db (some data) =
        (db, successUrl e (firstSegment transaction_uuid) payload.transaction_code) := by
    intro data payload uuid hd hu hc ho
    simp [esewaSuccess, hd, hu, hc, ho]
  refine ⟨rfl, h1, h2, h3, h4, h5, ?_⟩
  intro data
  cases data with
  | none => exact Or.inl rfl
  | some data =>
    cases hd : e.decode data with
    | none => exact Or.inl (by rw [h1 data hd])
    | some payload =>
      cases hu : payload.transaction_uuid with
      | none => exact Or.inl (by rw [h2 data payload hd hu])
      | some uuid =>
        cases hc : e.schema.castable (firstSegment uuid) with
        | false => exact Or.inl (by rw [h3 data payload uuid hd hu hc])
        | true =>
          cases ho : db.orders.find? (fun o => o._id == firstSegment uuid) with
          | none => exact Or.inr ⟨_, _, by rw [h5 data payload uuid hd hu hc ho]⟩
          | some order =>
            cases hv : e.schema.validOrder (order.markPaid payload.transaction_code) with
            | false => exact Or.inl (by rw [h4 data payload uuid order hd hu hc ho hv])
            | true =>
              refine Or.inr ⟨firstSegment uuid, payload.transaction_code, ?_⟩
              simp [esewaSuccess, hd, hu, hc, ho, hv]

/-- C20, scenario: a `data` value that does not decode is answered with the redirect to the
failure page and modifies nothing. -/
theorem esewa_success_failure_paths_witness :
    esewaSuccess callbackEnv esewaDB (some "bm90IGpzb24") =
      (esewaDB, "http://localhost:5173/payment/failure") :=
  ((esewa_success_failure_paths callbackEnv esewaDB).2.1 "bm90IGpzb24" (by decide!)).trans
    (by rfl)

/-! ## The payment handlers (C21 to C24, C29) -/

theorem find_saveOrder {orders : List Order} {orderId : String} {order updated : Order}
    (hf : orders.find? (fun o => o._id == orderId) = some order) (hid : updated._id = orderId) :
    (saveOrder orders updated).find? (fun o => o._id == orderId) = some updated := by
  induction orders with
  | nil => simp at hf
  | cons x xs ih =>
    rw [List.find?_cons] at hf
    show List.find? _ ((if x._id = updated._id then updated else x) :: saveOrder xs updated) = _
    rw [List.find?_cons]
    by_cases hx : x._id = orderId
    · have hx' : x._id = updated._id := by rw [hx, hid]
      simp [hx', hid]
    · have hb : (x._id == orderId) = false := by simpa using hx
      have hx' : ¬ x._id = updated._id := by rw [hid]; exact hx
      rw [hb] at hf
      rw [if_neg hx', hb]
      exact ih hf

theorem saveOrder_saveOrder (orders : List Order) (updated : Order) :
    saveOrder (saveOrder orders updated) updated = saveOrder orders updated := by
  unfold saveOrder
  rw [List.map_map]
  apply List.map_congr_left
  intro x _
  by_cases hx : x._id = updated._id <;> simp [hx]

theorem esewaFailure_cases (e : CallbackEnv) (db : DB) (data : Option String) :
    esewaFailure e db data = (db, failureUrl e) ∨
      (∃ d payload transaction_uuid, data = some d ∧ e.decode d = some payload ∧
        payload.transaction_uuid = some transaction_uuid ∧
        db.orders.find? (fun o => o._id == firstSegment transaction_uuid) = none ∧
        esewaFailure e db data = (db, failureUrlFor e (firstSegment transaction_uuid))) ∨
      ∃ d payload transaction_uuid order, data = some d ∧ e.decode d = some payload ∧
        payload.transaction_uuid = some transaction_uuid ∧
        db.orders.find? (fun o => o._id == firstSegment transaction_uuid) = some order ∧
        esewaFailure e db data =
          ({ db with orders := saveOrder db.orders order.markFailed },
            failureUrlFor e (firstSegment transaction_uuid)) := by
  cases data with
  | none => exact Or.inl rfl
  | some d =>
    by_cases hd0 : d = ""
    · exact Or.inl (by simp [esewaFailure, hd0])
    cases hd : e.decode d with
    | none => exact Or.inl (by simp [esewaFailure, hd0, hd])
    | some payload =>
      cases hu : payload.transaction_uuid with
      | none => exact Or.inl (by simp [esewaFailure, hd0, hd, hu])
      | some uuid =>
        cases hc : e.schema.castable (firstSegment uuid) with
        | false => exact Or.inl (by simp [esewaFailure, hd0, hd, hu, hc])
        | true =>
          cases ho : db.orders.find? (fun o => o._id == firstSegment uuid) with
          | none =>
            exact Or.inr (Or.inl ⟨d, payload, uuid, rfl, hd, hu, ho,
              by simp [esewaFailure, hd0, hd, hu, hc, ho]⟩)
          | some order =>
            cases hv : e.schema.validOrder order.markFailed with
            | false => exact Or.inl (by simp [esewaFailure, hd0, hd, hu, hc, ho, hv])
            | true =>
              exact Or.inr (Or.inr ⟨d, payload, uuid, order, rfl, hd, hu, ho,
                by simp [esewaFailure, hd0, hd, hu, hc, ho, hv]⟩)

/-- C21: every eSewa failure callback, with or without `data`, decodable or not, answers with
a redirect to the failure page of the frontend (with or without an `orderId`), and changes no
product, coupon or user. When `data` decodes to a payload whose `transaction_uuid` resolves to
an order of the collection (pairwise different `_id`s; the id can be cast and the save is
accepted), that order is saved with `paymentStatus = 'failed'`, its `status`, `transactionId`
and every other field unchanged, and every other order unchanged. In every other case the
orders are left as they are: the orders change only by the save of the resolved order. -/
theorem esewa_failure_redirects_and_marks_failed (e : CallbackEnv) (db : DB)
    (data : Option String) :
    ((esewaFailure e db data).2 = frontendUrl e ++ "/payment/failure" ∨
        ∃ orderId, (esewaFailure e db data).2 =
          frontendUrl e ++ "/payment/failure?orderId=" ++ orderId) ∧
      (esewaFailure e db data).1.products = db.products ∧
      (esewaFailure e db data).1.coupons = db.coupons ∧
      (esewaFailure e db data).1.users = db.users ∧
      (∀ d payload transaction_uuid order, data = some d → d ≠ "" →
        e.decode d = some payload → payload.transaction_uuid = some transaction_uuid →
        (db.orders.map (fun o => o._id)).Nodup → order ∈ db.orders →
        order._id = firstSegment transaction_uuid → e.schema.castable order._id = true →
        e.schema.validOrder order.markFailed = true →
        (esewaFailure e db data).2 =
            frontendUrl e ++ "/payment/failure?orderId=" ++ order._id ∧
          (esewaFailure e db data).1.orders =
            db.orders.map (fun o => if o = order then order.markFailed else o) ∧
          order.markFailed.paymentStatus = "failed" ∧
          order.markFailed.status = order.status ∧
          order.markFailed.transactionId = order.transactionId ∧
          { order.markFailed with paymentStatus := order.paymentStatus } = order) ∧
      ((esewaFailure e db data).1.orders = db.orders ∨
        ∃ d payload transaction_uuid order, data = some d ∧ e.decode d = some payload ∧
          payload.transaction_uuid = some transaction_uuid ∧
          db.orders.find? (fun o => o._id == firstSegment transaction_uuid) = some order ∧
          e.schema.validOrder order.markFailed = true ∧
          (esewaFailure e db data).1.orders = saveOrder db.orders order.markFailed) := by
  refine ⟨?_, ?_, ?_, ?_, ?_, ?_⟩
  · rcases esewaFailure_cases e db data with h | ⟨_, _, uuid, _, _, _, _, h⟩ |
      ⟨_, _, uuid, _, _, _, _, _, h⟩
    · exact Or.inl (by rw [h]; rfl)
    · exact Or.inr ⟨firstSegment uuid, by rw [h]; rfl⟩
    · exact Or.inr ⟨firstSegment uuid, by rw [h]; rfl⟩
  · rcases esewaFailure_cases e db data with h | ⟨_, _, _, _, _, _, _, h⟩ |
      ⟨_, _, _, _, _, _, _, _, h⟩ <;> rw [h]
  · rcases esewaFailure_cases e db data with h | ⟨_, _, _, _, _, _, _, h⟩ |
      ⟨_, _, _, _, _, _, _, _, h⟩ <;> rw [h]
  · rcases esewaFailure_cases e db data with h | ⟨_, _, _, _, _, _, _, h⟩ |
      ⟨_, _, _, _, _, _, _, _, h⟩ <;> rw [h]
  · intro d payload uuid order hdata hd0 hd hu hids hmem hid hc hv
    subst hdata
    have hfind : db.orders.find? (fun o => o._id == firstSegment uuid) = some order := by
      rw [← hid]
      exact find_order_by_id hids hmem
    have hc' : e.schema.castable (firstSegment uuid) = true := by rw [← hid]; exact hc
    have hres : esewaFailure e db (some d) =
        ({ db with orders := saveOrder db.orders order.markFailed },
          failureUrlFor e (firstSegment uuid)) := by
      simp [esewaFailure, hd0, hd, hu, hc', hfind, hv]
    refine ⟨by rw [hres, hid]; rfl, ?_, rfl, rfl, rfl, rfl⟩
    rw [hres]
    exact saveOrder_eq_map hids hmem rfl
  · cases data with
    | none => exact Or.inl rfl
    | some d =>
      by_cases hd0 : d = ""
      · exact Or.inl (by simp [esewaFailure, hd0])
      cases hd : e.decode d with
      | none => exact Or.inl (by simp [esewaFailure, hd0, hd])
      | some payload =>
        cases hu : payload.transaction_uuid with
        | none => exact Or.inl (by simp [esewaFailure, hd0, hd, hu])
        | some uuid =>
          cases hc : e.schema.castable (firstSegment uuid) with
          | false => exact Or.inl (by simp [esewaFailure, hd0, hd, hu, hc])
          | true =>
            cases ho : db.orders.find? (fun o => o._id == firstSegment uuid) with
            | none => exact Or.inl (by simp [esewaFailure, hd0, hd, hu, hc, ho])
            | some order =>
              cases hv : e.schema.validOrder order.markFailed with
              | false => exact Or.inl (by simp [esewaFailure, hd0, hd, hu, hc, ho, hv])
              | true =>
                exact Or.inr ⟨d, payload, uuid, order, rfl, hd, hu, ho, hv,
                  by simp [esewaFailure, hd0, hd, hu, hc, ho, hv]⟩

/-- C21, scenario: the failure callback for the order `64b7f3a2c1d2e3f4a5b6c7d8` redirects to
the failure page with that order id and marks that order failed, its status `draft` kept and
the order `o1` left alone. -/
theorem esewa_failure_redirects_and_marks_failed_witness :
    (esewaFailure callbackEnv esewaDB (some scenarioData)).2 =
        "http://localhost:5173/payment/failure?orderId=64b7f3a2c1d2e3f4a5b6c7d8" ∧
      (esewaFailure callbackEnv esewaDB (some scenarioData)).1.orders =
        [scenarioOrder, { esewaOrder with paymentStatus := "failed" }] :=
  have key := (esewa_failure_redirects_and_marks_failed callbackEnv esewaDB
    (some scenarioData)).2.2.2.2.1 scenarioData scenarioPayload
    "64b7f3a2c1d2e3f4a5b6c7d8-1700000000000" esewaOrder
    rfl (by decide) (by decide!) rfl (by decide!) (by decide!) (by decide!) (by decide!)
    (by decide!)
  ⟨key.1.trans (by decide!), key.2.1.trans (by decide!)⟩

theorem Order.markPaid_markPaid (order : Order) (transaction_code : Option String) :
    (order.markPaid transaction_code).markPaid transaction_code =
      order.markPaid transaction_code := rfl

theorem id_of_find {orders : List Order} {orderId : String} {order : Order}
    (hf : orders.find? (fun o => o._id == orderId) = some order) : order._id = orderId := by
  simpa using List.find?_some hf

/-- C22: the eSewa success callback is idempotent: for every environment, database and `data`,
handling the same `data` a second time, on the database that the first handling left, leaves
that database as it is and answers with the same redirect as the first time. -/
theorem esewa_success_idempotent (e : CallbackEnv) (db : DB) (data : Option String) :
    esewaSuccess e (esewaSuccess e db data).1 data = esewaSuccess e db data := by
  cases data with
  | none => rfl
  | some d =>
    cases hd : e.decode d with
    | none => simp [esewaSuccess, hd]
    | some payload =>
      cases hu : payload.transaction_uuid with
      | none => simp [esewaSuccess, hd, hu]
      | some uuid =>
        cases hc : e.schema.castable (firstSegment uuid) with
        | false => simp [esewaSuccess, hd, hu, hc]
        | true =>
          cases ho : db.orders.find? (fun o => o._id == firstSegment uuid) with
          | none => simp [esewaSuccess, hd, hu, hc, ho]
          | some order =>
            cases hv : e.schema.validOrder (order.markPaid payload.transaction_code) with
            | false => simp [esewaSuccess, hd, hu, hc, ho, hv]
            | true =>
              have hid : (order.markPaid payload.transaction_code)._id = firstSegment uuid :=
                show order._id = firstSegment uuid from id_of_find ho
              have hres : esewaSuccess e db (some d) =
                  ({ db with
                      orders := saveOrder db.orders (order.markPaid payload.transaction_code) },
                    successUrl e (firstSegment uuid) payload.transaction_code) := by
                simp [esewaSuccess, hd, hu, hc, ho, hv]
              rw [hres]
              have hfind := find_saveOrder ho hid
              simp [esewaSuccess, hd, hu, hc, hfind, Order.markPaid_markPaid, hv,
                saveOrder_saveOrder]

theorem khaltiVerify_cases (e : KhaltiEnv) (db : DB) (req : KhaltiRequest) :
    (khaltiVerify e db req).1 = db ∨
      ∃ idx order, e.verify req.token req.amount = .returned (some idx) ∧ idx ≠ "" ∧
        db.orders.find? (fun o => o._id == req.orderId) = some order ∧
        e.schema.validOrder (order.markPaid (some idx)) = true ∧
        khaltiVerify e db req =
          ({ db with orders := saveOrder db.orders (order.markPaid (some idx)) },
            .verified idx) := by
  cases hp : e.verify req.token req.amount with
  | threw => exact Or.inl (by simp [khaltiVerify, hp])
  | returned idx =>
    cases idx with
    | none => exact Or.inl (by simp [khaltiVerify, hp])
    | some idx =>
      by_cases h0 : idx = ""
      · exact Or.inl (by simp [khaltiVerify, hp, h0])
      cases hc : e.schema.castable req.orderId with
      | false => exact Or.inl (by simp [khaltiVerify, hp, h0, hc])
      | true =>
        cases ho : db.orders.find? (fun o => o._id == req.orderId) with
        | none => exact Or.inl (by simp [khaltiVerify, hp, h0, hc, ho])
        | some order =>
          cases hv : e.schema.validOrder (order.markPaid (some idx)) with
          | false => exact Or.inl (by simp [khaltiVerify, hp, h0, hc, ho, hv])
          | true =>
            exact Or.inr ⟨idx, order, rfl, h0, rfl, hv,
              by simp [khaltiVerify, hp, h0, hc, ho, hv]⟩

/-- C23: the Khalti verification. When the response of the provider carries an `idx` (a
non-empty one) and `orderId` names an order of the collection (pairwise different `_id`s;
the id can be cast and the save is accepted), the handler saves that order with
`paymentStatus = 'completed'`, `status = 'preparing'` and `transactionId = idx`, every other
field and every other order unchanged, and answers that the payment is verified. When the
response carries no `idx` it answers `Payment verification failed`, when the call to the
provider throws it answers `Server Error`, and in both cases the database is left as it is.
Conversely the database changes only when the response carries an `idx`. -/
theorem khalti_verify_marks_paid_iff_idx (e : KhaltiEnv) (db : DB) (req : KhaltiRequest) :
    (∀ idx order, e.verify req.token req.amount = .returned (some idx) → idx ≠ "" →
        (db.orders.map (fun o => o._id)).Nodup → order ∈ db.orders →
        order._id = req.orderId → e.schema.castable req.orderId = true →
        e.schema.validOrder (order.markPaid (some idx)) = true →
        khaltiVerify e db req =
            ({ db with
                orders := db.orders.map
                  (fun o => if o = order then order.markPaid (some idx) else o) },
              .verified idx) ∧
          (order.markPaid (some idx)).paymentStatus = "completed" ∧
          (order.markPaid (some idx)).status = "preparing" ∧
          (order.markPaid (some idx)).transactionId = some idx ∧
          { order.markPaid (some idx) with
            paymentStatus := order.paymentStatus, status := order.status,
            transactionId := order.transactionId } = order) ∧
      (∀ idx, e.verify req.token req.amount = .returned idx → truthyStr idx = false →
        khaltiVerify e db req = (db, .verificationFailed)) ∧
      (e.verify req.token req.amount = .threw → khaltiVerify e db req = (db, .serverError)) ∧
      ((khaltiVerify e db req).1 ≠ db →
        ∃ idx, e.verify req.token req.amount = .returned (some idx) ∧ idx ≠ "" ∧
          (khaltiVerify e db req).2 = .verified idx) := by
  refine ⟨?_, ?_, ?_, ?_⟩
  · intro idx order hp h0 hids hmem hid hc hv
    have hfind : db.orders.find? (fun o => o._id == req.orderId) = some order := by
      rw [← hid]
      exact find_order_by_id hids hmem
    refine ⟨?_, rfl, rfl, rfl, rfl⟩
    have hs := saveOrder_eq_map hids hmem (show (order.markPaid (some idx))._id = order._id from rfl)
    simp [khaltiVerify, hp, h0, hc, hfind, hv, hs]
  · intro idx hp hi
    cases idx with
    | none => simp [khaltiVerify, hp]
    | some idx =>
      have h0 : idx = "" := by simpa [truthyStr] using hi
      simp [khaltiVerify, hp, h0]
  · intro hp
    simp [khaltiVerify, hp]
  · intro hne
    rcases khaltiVerify_cases e db req with h | ⟨idx, _, hp, h0, _, _, h⟩
    · exact absurd h hne
    · exact ⟨idx, hp, h0, by rw [h]⟩

/-- C23, scenario: the provider verifies the token `tok_ok` with the `idx` `KH123`; the order
`64b7f3a2c1d2e3f4a5b6c7d8` is marked paid with that `idx` and the order `o1` is left alone. The
token `tok_bad` is answered with `Payment verification failed`, an unknown token with
`Server Error`, both without a change of the database. -/
theorem khalti_verify_marks_paid_iff_idx_witness :
    (khaltiVerify khaltiEnv esewaDB (khaltiRequest "tok_ok")).2 = .verified "KH123" ∧
      (khaltiVerify khaltiEnv esewaDB (khaltiRequest "tok_ok")).1.orders =
        [scenarioOrder,
          { esewaOrder with
            paymentStatus := "completed", status := "preparing",
            transactionId := some "KH123" }] ∧
      (khaltiVerify khaltiEnv esewaDB (khaltiRequest "tok_bad")).2 = .verificationFailed ∧
      (khaltiVerify khaltiEnv esewaDB (khaltiRequest "tok_bad")).1.orders = esewaDB.orders ∧
      (khaltiVerify khaltiEnv esewaDB (khaltiRequest "other")).2 = .serverError ∧
      (khaltiVerify khaltiEnv esewaDB (khaltiRequest "other")).1.orders = esewaDB.orders :=
  have ok := (khalti_verify_marks_paid_iff_idx khaltiEnv esewaDB (khaltiRequest "tok_ok")).1
    "KH123" esewaOrder (by decide!) (by decide) (by decide!) (by decide!) (by decide!)
    (by decide!) (by decide!)
  have bad := (khalti_verify_marks_paid_iff_idx khaltiEnv esewaDB (khaltiRequest "tok_bad")).2.1
    none (by decide!) rfl
  have other := (khalti_verify_marks_paid_iff_idx khaltiEnv esewaDB
    (khaltiRequest "other")).2.2.1 (by decide!)
  ⟨by rw [ok.1], by rw [ok.1]; decide!, by rw [bad], by rw [bad], by rw [other], by rw [other]⟩

theorem esewaInitiate_db (e : InitiateEnv) (db : DB) (userId orderId : String) :
    (esewaInitiate e db userId orderId).1 = db := by
  unfold esewaInitiate
  cases e.castable orderId with
  | false => rfl
  | true =>
    cases db.orders.find? (fun o => o._id == orderId) with
    | none => rfl
    | some order =>
      by_cases hu : order.userId = userId <;> simp [hu]

theorem esewaInitiate_ok {e : InitiateEnv} {db : DB} {userId orderId paymentUrl : String}
    {p : PaymentData} (h : (esewaInitiate e db userId orderId).2 = .ok paymentUrl p) :
    ∃ order, db.orders.find? (fun o => o._id == orderId) = some order ∧
      order.userId = userId ∧ e.castable orderId = true ∧ paymentUrl = ESEWA_PAYMENT_URL e ∧
      p = { amount := e.numberToString order.total
            tax_amount := "0"
            total_amount := e.numberToString order.total
            transaction_uuid := transactionUuid orderId e.now
            product_code := ESEWA_MERCHANT_ID e
            product_service_charge := "0"
            product_delivery_charge := "0"
            success_url := ESEWA_SUCCESS_URL e
            failure_url := ESEWA_FAILURE_URL e
            signed_field_names := "total_amount,transaction_uuid,product_code"
            signature := generateEsewaSignature e
              (signedMessage (e.numberToString order.total) (transactionUuid orderId e.now)
                (ESEWA_MERCHANT_ID e)) (ESEWA_MERCHANT_SECRET e) } := by
  cases hc : e.castable orderId with
  | false => simp [esewaInitiate, hc] at h
  | true =>
    cases ho : db.orders.find? (fun o => o._id == orderId) with
    | none => simp [esewaInitiate, hc, ho] at h
    | some order =>
      by_cases hu : order.userId = userId
      · simp [esewaInitiate, hc, ho, hu] at h
        exact ⟨order, rfl, hu, rfl, h.1.symm, h.2.symm⟩
      · simp [esewaInitiate, hc, ho, hu] at h

theorem canonicalString_eq (p : PaymentData)
    (h : p.signed_field_names = "total_amount,transaction_uuid,product_code") :
    canonicalString p =
      signedMessage p.total_amount p.transaction_uuid p.product_code := by
  have hs : "total_amount,transaction_uuid,product_code".splitOn "," =
      ["total_amount", "transaction_uuid", "product_code"] := by decide!
  unfold canonicalString signedMessage
  rw [h, hs]
  simp [PaymentData.field, String.intercalate, String.intercalate.go, String.ext_iff,
    String.data_append]

/-- C24: the initiation of an eSewa payment changes nothing in the database, and answers an
order that exists and belongs to the caller with the form fields. In every answer with form
fields, the `transaction_uuid` is the order id, `-` and the timestamp; the `total_amount` is
the total of the order with that id, written as a string; the `signed_field_names` are
`total_amount,transaction_uuid,product_code`; the canonical string of the returned fields
named there, in that order, is `total_amount=..,transaction_uuid=..,product_code=..` with the
returned values; and the `signature` is the keyed hash, with the merchant secret, of that
canonical string. -/
theorem esewa_initiate_signs_form_fields (e : InitiateEnv) (db : DB) (userId orderId : String) :
    (esewaInitiate e db userId orderId).1 = db ∧
      (∀ order, db.orders.find? (fun o => o._id == orderId) = some order →
        order.userId = userId → e.castable orderId = true →
        ∃ p, (esewaInitiate e db userId orderId).2 = .ok (ESEWA_PAYMENT_URL e) p) ∧
      ∀ paymentUrl p, (esewaInitiate e db userId orderId).2 = .ok paymentUrl p →
        p.transaction_uuid = orderId ++ "-" ++ toString e.now ∧
        p.product_code = ESEWA_MERCHANT_ID e ∧
        (∃ order, order ∈ db.orders ∧ order._id = orderId ∧ order.userId = userId ∧
          p.total_amount = e.numberToString order.total) ∧
        p.signed_field_names = "total_amount,transaction_uuid,product_code" ∧
        canonicalString p =
          "total_amount=" ++ p.total_amount ++ ",transaction_uuid=" ++ p.transaction_uuid ++
            ",product_code=" ++ p.product_code ∧
        p.signature = e.hmacSha256Base64 (ESEWA_MERCHANT_SECRET e) (canonicalString p) := by
  refine ⟨esewaInitiate_db e db userId orderId, ?_, ?_⟩
  · intro order ho hu hc
    subst hu
    simp [esewaInitiate, hc, ho]
  · intro paymentUrl p h
    obtain ⟨order, ho, hu, _, _, hp⟩ := esewaInitiate_ok h
    have hnames : p.signed_field_names = "total_amount,transaction_uuid,product_code" := by
      rw [hp]
    have hcanon := canonicalString_eq p hnames
    refine ⟨by rw [hp]; rfl, by rw [hp],
      ⟨order, List.mem_of_find?_eq_some ho, id_of_find ho, hu, by rw [hp]⟩, hnames, hcanon, ?_⟩
    rw [hcanon, hp]
    rfl

/-- C24, scenario: the owner `u1` initiates the payment of the order
`64b7f3a2c1d2e3f4a5b6c7d8` at the time `1700000000000`; the form fields carry the total 410,
and the signature is the keyed hash of
`total_amount=410,transaction_uuid=64b7f3a2c1d2e3f4a5b6c7d8-1700000000000,product_code=EPAYTEST`. -/
theorem esewa_initiate_signs_form_fields_witness :
    (esewaInitiate initiateEnv esewaDB "u1" "64b7f3a2c1d2e3f4a5b6c7d8").2 =
        .ok "https://rc-epay.esewa.com.np/api/epay/main/v2/form" scenarioPaymentData ∧
      canonicalString scenarioPaymentData =
        "total_amount=410,transaction_uuid=64b7f3a2c1d2e3f4a5b6c7d8-1700000000000,product_code=EPAYTEST" ∧
      scenarioPaymentData.signature =
        initiateEnv.hmacSha256Base64 "8gBm/:&EnhH.1/q" (canonicalString scenarioPaymentData) :=
  have hres : (esewaInitiate initiateEnv esewaDB "u1" "64b7f3a2c1d2e3f4a5b6c7d8").2 =
      .ok "https://rc-epay.esewa.com.np/api/epay/main/v2/form" scenarioPaymentData := by
    decide!
  have key := (esewa_initiate_signs_form_fields initiateEnv esewaDB "u1"
    "64b7f3a2c1d2e3f4a5b6c7d8").2.2 _ _ hres
  ⟨hres, key.2.2.2.2.1, key.2.2.2.2.2⟩

theorem takeWhile_append_stop {α : Type} (p : α → Bool) (l rest : List α) (a : α)
    (hl : ∀ x ∈ l, p x = true) (ha : p a = false) :
    (l ++ a :: rest).takeWhile p = l := by
  induction l with
  | nil => simp [List.takeWhile, ha]
  | cons x xs ih =>
    have hx : p x = true := hl x (List.mem_cons_self x xs)
    simp [List.takeWhile, hx, ih (fun y hy => hl y (List.mem_cons_of_mem x hy))]

theorem firstSegment_transactionUuid (orderId : String) (now : Nat)
    (h : '-' ∉ orderId.toList) : firstSegment (transactionUuid orderId now) = orderId := by
  unfold firstSegment transactionUuid
  have hl : (orderId ++ "-" ++ toString now).toList =
      orderId.toList ++ '-' :: (toString now).toList := by
    simp [String.toList, String.data_append]
  rw [hl, takeWhile_append_stop (fun c => decide (c ≠ '-')) orderId.toList _ '-' ?_ (by decide)]
  · rfl
  · intro x hx
    have : x ≠ '-' := fun hx' => h (hx' ▸ hx)
    simpa using this

theorem isObjectIdHex_no_dash (s : String) (h : isObjectIdHex s = true) : '-' ∉ s.toList := by
  intro hmem
  simp only [isObjectIdHex, Bool.and_eq_true, List.all_eq_true] at h
  have := h.2 '-' hmem
  revert this
  decide

/-- C29: for every order id without a `-` and every timestamp, the first `-`-separated segment
of the transaction identifier that the initiation builds is the order id. The initiation
answers the owner of an existing order with a form whose `transaction_uuid` is that
identifier, so the first segment of the returned `transaction_uuid` is the order id; and the
success and the failure callback that receive a payload with the returned `transaction_uuid`
look up, and save, the order that the initiation was called for. -/
theorem transaction_uuid_round_trip (orderId : String) (now : Nat)
    (h : '-' ∉ orderId.toList) :
    firstSegment (transactionUuid orderId now) = orderId ∧
      (∀ (ie : InitiateEnv) (db : DB) (userId : String) (order : Order),
        ie.now = now → ie.castable orderId = true →
        db.orders.find? (fun o => o._id == orderId) = some order → order.userId = userId →
        ∃ p, esewaInitiate ie db userId orderId = (db, .ok (ESEWA_PAYMENT_URL ie) p) ∧
          p.transaction_uuid = transactionUuid orderId now ∧
          firstSegment p.transaction_uuid = orderId ∧
          (∀ (e : CallbackEnv) (d : String) (payload : EsewaPayload),
            e.decode d = some payload →
            payload.transaction_uuid = some p.transaction_uuid →
            e.schema.castable orderId = true →
            e.schema.validOrder (order.markPaid payload.transaction_code) = true →
            esewaSuccess e db (some d) =
              ({ db with
                  orders := saveOrder db.orders (order.markPaid payload.transaction_code) },
                successUrl e orderId payload.transaction_code)) ∧
          ∀ (e : CallbackEnv) (d : String) (payload : EsewaPayload),
            d ≠ "" → e.decode d = some payload →
            payload.transaction_uuid = some p.transaction_uuid →
            e.schema.castable orderId = true →
            e.schema.validOrder order.markFailed = true →
            esewaFailure e db (some d) =
              ({ db with orders := saveOrder db.orders order.markFailed },
                failureUrlFor e orderId)) ∧
      (∀ (ie : InitiateEnv) (db : DB) (userId paymentUrl : String) (p : PaymentData),
        (esewaInitiate ie db userId orderId).2 = .ok paymentUrl p →
        firstSegment p.transaction_uuid = orderId) ∧
      (∀ (e : CallbackEnv) (db : DB) (d : String) (payload : EsewaPayload) (order : Order),
        e.decode d = some payload →
        payload.transaction_uuid = some (transactionUuid orderId now) →
        e.schema.castable orderId = true →
        db.orders.find? (fun o => o._id == orderId) = some order →
        e.schema.validOrder (order.markPaid payload.transaction_code) = true →
        esewaSuccess e db (some d) =
          ({ db with orders := saveOrder db.orders (order.markPaid payload.transaction_code) },
            successUrl e orderId payload.transaction_code)) ∧
      ∀ (e : CallbackEnv) (db : DB) (d : String) (payload : EsewaPayload) (order : Order),
        d ≠ "" → e.decode d = some payload →
        payload.transaction_uuid = some (transactionUuid orderId now) →
        e.schema.castable orderId = true →
        db.orders.find? (fun o => o._id == orderId) = some order →
        e.schema.validOrder order.markFailed = true →
        esewaFailure e db (some d) =
          ({ db with orders := saveOrder db.orders order.markFailed },
            failureUrlFor e orderId) := by
  have hseg := firstSegment_transactionUuid orderId now h
  have hsuccess : ∀ (e : CallbackEnv) (db : DB) (d : String) (payload : EsewaPayload)
      (order : Order), e.decode d = some payload →
      payload.transaction_uuid = some (transactionUuid orderId now) →
      e.schema.castable orderId = true →
      db.orders.find? (fun o => o._id == orderId) = some order →
      e.schema.validOrder (order.markPaid payload.transaction_code) = true →
      esewaSuccess e db (some d) =
        ({ db with orders := saveOrder db.orders (order.markPaid payload.transaction_code) },
          successUrl e orderId payload.transaction_code) := by
    intro e db d payload order hd hu hc ho hv
    simp [esewaSuccess, hd, hu, hseg, hc, ho, hv]
  have hfailure : ∀ (e : CallbackEnv) (db : DB) (d : String) (payload : EsewaPayload)
      (order : Order), d ≠ "" → e.decode d = some payload →
      payload.transaction_uuid = some (transactionUuid orderId now) →
      e.schema.castable orderId = true →
      db.orders.find? (fun o => o._id == orderId) = some order →
      e.schema.validOrder order.markFailed = true →
      esewaFailure e db (some d) =
        ({ db with orders := saveOrder db.orders order.markFailed },
          failureUrlFor e orderId) := by
    intro e db d payload order hd0 hd hu hc ho hv
    simp [esewaFailure, hd0, hd, hu, hseg, hc, ho, hv]
  refine ⟨hseg, ?_, ?_, hsuccess, hfailure⟩
  · intro ie db userId order hnow hcast hfind hown
    have hres : ∃ p, esewaInitiate ie db userId orderId =
        (db, .ok (ESEWA_PAYMENT_URL ie) p) ∧
        p.transaction_uuid = transactionUuid orderId ie.now := by
      subst hown
      simp [esewaInitiate, hcast, hfind]
    obtain ⟨p, hp, huuid⟩ := hres
    rw [hnow] at huuid
    refine ⟨p, hp, huuid, by rw [huuid]; exact hseg, ?_, ?_⟩
    · intro e d payload hd hu hc hv
      rw [huuid] at hu
      exact hsuccess e db d payload order hd hu hc hfind hv
    · intro e d payload hd0 hd hu hc hv
      rw [huuid] at hu
      exact hfailure e db d payload order hd0 hd hu hc hfind hv
  · intro ie db userId paymentUrl p hok
    obtain ⟨_, _, _, _, _, hp⟩ := esewaInitiate_ok hok
    rw [hp]
    exact firstSegment_transactionUuid orderId ie.now h

/-- C29, scenario: the owner `u1` initiates the payment of the order
`64b7f3a2c1d2e3f4a5b6c7d8` at the time `1700000000000`. The initiation answers with the form
whose `transaction_uuid` is `64b7f3a2c1d2e3f4a5b6c7d8-1700000000000`; the success callback that
receives that `transaction_uuid` marks that order paid and redirects with its id. -/
theorem transaction_uuid_round_trip_witness :
    esewaInitiate initiateEnv esewaDB "u1" "64b7f3a2c1d2e3f4a5b6c7d8" =
        (esewaDB, .ok "https://rc-epay.esewa.com.np/api/epay/main/v2/form" scenarioPaymentData) ∧
      scenarioPaymentData.transaction_uuid = "64b7f3a2c1d2e3f4a5b6c7d8-1700000000000" ∧
      firstSegment scenarioPaymentData.transaction_uuid = "64b7f3a2c1d2e3f4a5b6c7d8" ∧
      scenarioPayload.transaction_uuid = some scenarioPaymentData.transaction_uuid ∧
      esewaSuccess callbackEnv esewaDB (some scenarioData) =
        ({ esewaDB with
            orders := saveOrder esewaDB.orders (esewaOrder.markPaid (some "0007XYZ")) },
          "http://localhost:5173/payment/success?orderId=64b7f3a2c1d2e3f4a5b6c7d8&refId=0007XYZ") :=
  have key := (transaction_uuid_round_trip "64b7f3a2c1d2e3f4a5b6c7d8" 1700000000000
    (by decide)).2.1 initiateEnv esewaDB "u1" esewaOrder rfl (by decide!) (by decide!) rfl
  have hinit : esewaInitiate initiateEnv esewaDB "u1" "64b7f3a2c1d2e3f4a5b6c7d8" =
      (esewaDB, .ok "https://rc-epay.esewa.com.np/api/epay/main/v2/form" scenarioPaymentData) :=
    Prod.ext rfl (by decide!)
  Exists.elim key (fun p hp =>
    have hpeq : p = scenarioPaymentData := by
      have h1 := hp.1.symm.trans hinit
      simp only [Prod.mk.injEq, InitiateResponse.ok.injEq, true_and] at h1
      exact h1.2
    ⟨hinit, by decide!, by rw [← hpeq]; exact hp.2.2.1, by decide!,
      (hp.2.2.2.1 callbackEnv scenarioData scenarioPayload (by decide!)
        (by rw [hpeq]; decide!) (by decide!) rfl).trans (Prod.ext rfl (by decide!))⟩)

/-! ## The saved addresses (C25 to C27) -/

theorem defaultCount_unsetDefaults (addresses : List Address) :
    defaultCount (unsetDefaults addresses) = 0 := by
  induction addresses with
  | nil => rfl
  | cons a rest ih =>
    simp [defaultCount, unsetDefaults, List.countP_cons]

theorem addressById_cons_eq {a : Address} {id : String} (rest : List Address)
    (h : a._id = id) : addressById (a :: rest) id = some a := by
  have hb : (a._id == id) = true := by simpa using h
  simp only [addressById, List.find?_cons, hb]

theorem addressById_cons_ne {a : Address} {id : String} (rest : List Address)
    (h : ¬ a._id = id) : addressById (a :: rest) id = addressById rest id := by
  have hb : (a._id == id) = false := by simpa using h
  simp only [addressById, List.find?_cons, hb]

theorem defaultCount_cons (a : Address) (rest : List Address) :
    defaultCount (a :: rest) = defaultCount rest + if a.isDefault = true then 1 else 0 := by
  simp [defaultCount, List.countP_cons]

theorem defaultCount_assignAddress_le (id : String) (f : Address → Address)
    (addresses : List Address) :
    defaultCount (assignAddress id f addresses) ≤ defaultCount addresses + 1 := by
  induction addresses with
  | nil => simp [assignAddress]
  | cons a rest ih =>
    by_cases ha : a._id = id
    · simp only [assignAddress, ha, if_true, defaultCount_cons]
      split <;> split <;> omega
    · simp only [assignAddress, ha, if_false, defaultCount_cons]
      omega

theorem defaultCount_assignAddress_mono (id : String) (f : Address → Address)
    (hf : ∀ a, (f a).isDefault = true → a.isDefault = true) (addresses : List Address) :
    defaultCount (assignAddress id f addresses) ≤ defaultCount addresses := by
  induction addresses with
  | nil => simp [assignAddress]
  | cons a rest ih =>
    by_cases ha : a._id = id
    · simp only [assignAddress, ha, if_true, defaultCount_cons]
      by_cases hfa : (f a).isDefault = true
      · rw [if_pos hfa, if_pos (hf a hfa)]
      · rw [if_neg hfa]
        omega
    · simp only [assignAddress, ha, if_false, defaultCount_cons]
      omega

theorem defaultCount_pullAddress_le (addresses : List Address) (id : String) :
    defaultCount (pullAddress addresses id) ≤ defaultCount addresses := by
  induction addresses with
  | nil => simp [pullAddress]
  | cons a rest ih =>
    have ih' : defaultCount (List.filter (fun a => a._id != id) rest) ≤ defaultCount rest := ih
    by_cases ha : a._id = id
    · simp only [pullAddress, List.filter, ha, bne_self_eq_false, defaultCount_cons]
      omega
    · have hb : (a._id != id) = true := by simpa using ha
      simp only [pullAddress, List.filter, hb, defaultCount_cons]
      omega

theorem defaultCount_pullAddress_lt {addresses : List Address} {id : String} {address : Address}
    (hf : addressById addresses id = some address) (hd : address.isDefault = true) :
    defaultCount (pullAddress addresses id) + 1 ≤ defaultCount addresses := by
  induction addresses with
  | nil => simp [addressById] at hf
  | cons a rest ih =>
    by_cases ha : a._id = id
    · have hfa : address = a := by
        rw [addressById_cons_eq rest ha] at hf
        exact (Option.some.inj hf).symm
      have hle := defaultCount_pullAddress_le rest id
      have hle' : defaultCount (List.filter (fun a => a._id != id) rest) ≤ defaultCount rest :=
        hle
      subst hfa
      simp only [pullAddress, List.filter, ha, bne_self_eq_false, defaultCount_cons, hd, if_true]
      omega
    · have hb : (a._id != id) = true := by simpa using ha
      have hf' : addressById rest id = some address := by
        rw [addressById_cons_ne rest ha] at hf
        exact hf
      have ih' : defaultCount (List.filter (fun a => a._id != id) rest) + 1 ≤
          defaultCount rest := ih hf'
      simp only [pullAddress, List.filter, hb, defaultCount_cons]
      omega

theorem defaultCount_promoteFirst_le (addresses : List Address) :
    defaultCount (promoteFirst addresses) ≤ defaultCount addresses + 1 := by
  cases addresses with
  | nil => simp [promoteFirst]
  | cons a rest =>
    simp only [promoteFirst, defaultCount_cons]
    split <;> split <;> omega

theorem defaultCount_append (l₁ l₂ : List Address) :
    defaultCount (l₁ ++ l₂) = defaultCount l₁ + defaultCount l₂ := by
  simp [defaultCount, List.countP_append]

theorem addAddress_outcome (e : AddressEnv) (db : DB) (userId : String) (body : AddressBody) :
    (addAddress e db userId body).1 = db ∨
      ∃ user saved, db.users userId = some user ∧
        (addAddress e db userId body).1 = saveUser db userId saved ∧
        (defaultCount user.addresses ≤ 1 → defaultCount saved.addresses ≤ 1) := by
  cases hu : db.users userId with
  | none => exact Or.inl (by simp [addAddress, hu])
  | some user =>
    by_cases hd : body.isDefault = some true
    · cases hv : e.validUser
          { user with addresses := unsetDefaults user.addresses ++
              [{ _id := e.newAddressId, label := body.label, street := body.street,
                 city := body.city, area := body.area, landmark := body.landmark,
                 phone := body.phone, isDefault := true,
                 coordinates := providedCoordinates body.coordinates }] } with
      | false => exact Or.inl (by simp [addAddress, hu, hd, hv])
      | true =>
        refine Or.inr ⟨user, _, rfl, by simp [addAddress, hu, hd, hv]; rfl, ?_⟩
        intro _
        show defaultCount (unsetDefaults user.addresses ++ [_]) ≤ 1
        rw [defaultCount_append, defaultCount_unsetDefaults]
        simp [defaultCount]
    · cases hv : e.validUser
          { user with addresses := user.addresses ++
              [{ _id := e.newAddressId, label := body.label, street := body.street,
                 city := body.city, area := body.area, landmark := body.landmark,
                 phone := body.phone,
                 isDefault := body.isDefault == some true || user.addresses.length == 0,
                 coordinates := providedCoordinates body.coordinates }] } with
      | false => exact Or.inl (by simp [addAddress, hu, hd, hv])
      | true =>
        refine Or.inr ⟨user, _, rfl, by simp [addAddress, hu, hd, hv]; rfl, ?_⟩
        intro hle
        cases hl : user.addresses with
        | nil => simp [defaultCount]
        | cons a rest =>
          rw [hl] at hle
          simp only [defaultCount_append, defaultCount_cons]
          simp [hd, defaultCount]
          simp only [defaultCount_cons] at hle
          simpa [defaultCount] using hle

theorem updateAddress_outcome (e : AddressEnv) (db : DB) (userId id : String)
    (body : AddressBody) :
    (updateAddress e db userId id body).1 = db ∨
      ∃ user saved, db.users userId = some user ∧
        (updateAddress e db userId id body).1 = saveUser db userId saved ∧
        (defaultCount user.addresses ≤ 1 → defaultCount saved.addresses ≤ 1) := by
  cases hu : db.users userId with
  | none => exact Or.inl (by simp [updateAddress, hu])
  | some user =>
    cases ha : addressById user.addresses id with
    | none => exact Or.inl (by simp [updateAddress, hu, ha])
    | some address =>
      by_cases hd : body.isDefault = some true
      · cases hv : e.validUser
            { user with addresses :=
                (assignAddress id (fun address => address.assign body)
                  (unsetDefaults user.addresses)) } with
        | false => exact Or.inl (by simp [updateAddress, hu, ha, hd, hv])
        | true =>
          refine Or.inr ⟨user, _, rfl, by simp [updateAddress, hu, ha, hd, hv]; rfl, ?_⟩
          intro _
          have := defaultCount_assignAddress_le id (fun address => address.assign body)
            (unsetDefaults user.addresses)
          rw [defaultCount_unsetDefaults] at this
          exact this
      · cases hv : e.validUser
            { user with addresses :=
                assignAddress id (fun address => address.assign body) user.addresses } with
        | false => exact Or.inl (by simp [updateAddress, hu, ha, hd, hv])
        | true =>
          refine Or.inr ⟨user, _, rfl, by simp [updateAddress, hu, ha, hd, hv]; rfl, ?_⟩
          intro hle
          refine le_trans (defaultCount_assignAddress_mono id _ ?_ user.addresses) hle
          intro a hfa
          cases hb : body.isDefault with
          | none => simpa [Address.assign, hb] using hfa
          | some b =>
            have : b = true := by simpa [Address.assign, hb] using hfa
            exact absurd (by rw [hb, this]) hd

theorem deleteAddress_outcome (e : AddressEnv) (db : DB) (userId id : String) :
    (deleteAddress e db userId id).1 = db ∨
      ∃ user saved, db.users userId = some user ∧
        (deleteAddress e db userId id).1 = saveUser db userId saved ∧
        (defaultCount user.addresses ≤ 1 → defaultCount saved.addresses ≤ 1) := by
  cases hu : db.users userId with
  | none => exact Or.inl (by simp [deleteAddress, hu])
  | some user =>
    cases ha : addressById user.addresses id with
    | none => exact Or.inl (by simp [deleteAddress, hu, ha])
    | some address =>
      by_cases hp : address.isDefault = true ∧ (pullAddress user.addresses id).length > 0
      · cases hv : e.validUser
            { user with addresses := promoteFirst (pullAddress user.addresses id) } with
        | false => exact Or.inl (by simp [deleteAddress, hu, ha, hp, hv])
        | true =>
          refine Or.inr ⟨user, _, rfl, by simp [deleteAddress, hu, ha, hp, hv]; rfl, ?_⟩
          intro hle
          have h1 := defaultCount_pullAddress_lt ha hp.1
          have h2 := defaultCount_promoteFirst_le (pullAddress user.addresses id)
          show defaultCount (promoteFirst (pullAddress user.addresses id)) ≤ 1
          omega
      · cases hv : e.validUser { user with addresses := pullAddress user.addresses id } with
        | false => exact Or.inl (by simp [deleteAddress, hu, ha, hp, hv])
        | true =>
          refine Or.inr ⟨user, _, rfl, by simp [deleteAddress, hu, ha, hp, hv]; rfl, ?_⟩
          intro hle
          exact le_trans (defaultCount_pullAddress_le user.addresses id) hle

theorem setDefaultAddress_outcome (e : AddressEnv) (db : DB) (userId id : String) :
    (setDefaultAddress e db userId id).1 = db ∨
      ∃ user saved, db.users userId = some user ∧
        (setDefaultAddress e db userId id).1 = saveUser db userId saved ∧
        (defaultCount user.addresses ≤ 1 → defaultCount saved.addresses ≤ 1) := by
  cases hu : db.users userId with
  | none => exact Or.inl (by simp [setDefaultAddress, hu])
  | some user =>
    cases ha : addressById user.addresses id with
    | none => exact Or.inl (by simp [setDefaultAddress, hu, ha])
    | some address =>
      cases hv : e.validUser
          { user with addresses :=
              (assignAddress id (fun address => { address with isDefault := true })
                (unsetDefaults user.addresses)) } with
      | false => exact Or.inl (by simp [setDefaultAddress, hu, ha, hv])
      | true =>
        refine Or.inr ⟨user, _, rfl, by simp [setDefaultAddress, hu, ha, hv]; rfl, ?_⟩
        intro _
        have := defaultCount_assignAddress_le id
          (fun address => { address with isDefault := true }) (unsetDefaults user.addresses)
        rw [defaultCount_unsetDefaults] at this
        exact this

theorem handleAddressRequest_outcome (e : AddressEnv) (db : DB) (userId : String)
    (req : AddressRequest) :
    (handleAddressRequest e db userId req).1 = db ∨
      ∃ user saved, db.users userId = some user ∧
        (handleAddressRequest e db userId req).1 = saveUser db userId saved ∧
        (defaultCount user.addresses ≤ 1 → defaultCount saved.addresses ≤ 1) := by
  cases req with
  | add body => exact addAddress_outcome e db userId body
  | update id body => exact updateAddress_outcome e db userId id body
  | delete id => exact deleteAddress_outcome e db userId id
  | setDefault id => exact setDefaultAddress_outcome e db userId id

/-- C25: at most one default address per user is an invariant of the address handlers. For
every add, update, delete or set-default request of any user, whatever its outcome, every user
whose saved addresses had at most one with `isDefault = true` before the request is still a
user after it, with at most one saved address with `isDefault = true`; and the request changes
no product, coupon or order. -/
theorem at_most_one_default_preserved (e : AddressEnv) (db : DB) (userId : String)
    (req : AddressRequest) (uid : String) (user : User)
    (hu : db.users uid = some user) (hle : defaultCount user.addresses ≤ 1) :
    (∃ after, (handleAddressRequest e db userId req).1.users uid = some after ∧
        defaultCount after.addresses ≤ 1) ∧
      (handleAddressRequest e db userId req).1.products = db.products ∧
      (handleAddressRequest e db userId req).1.coupons = db.coupons ∧
      (handleAddressRequest e db userId req).1.orders = db.orders := by
  rcases handleAddressRequest_outcome e db userId req with h | ⟨user', saved, hu', h, hinv⟩
  · rw [h]
    exact ⟨⟨user, hu, hle⟩, rfl, rfl, rfl⟩
  · rw [h]
    refine ⟨?_, rfl, rfl, rfl⟩
    by_cases hid : uid = userId
    · subst hid
      have : user' = user := Option.some.inj (hu'.symm.trans hu)
      subst this
      exact ⟨saved, by simp [saveUser], hinv hle⟩
    · exact ⟨user, by simp [saveUser, Function.update, hid, hu], hle⟩

/-- C25, scenario: the user `u1` has the addresses `a1`, `a2` (the default one) and `a3`. After
an added default address, after an update that makes `a3` the default, after the deletion of
`a2` and after setting `a1` as default, exactly one address of `u1` is a default one. -/
theorem at_most_one_default_preserved_witness :
    ((handleAddressRequest addressEnv threeAddressDB "u1"
        (.add (defaultBody (some true)))).1.users "u1").map
          (fun u => u.addresses.map (fun a => (a._id, a.isDefault))) =
        some [("a1", false), ("a2", false), ("a3", false), ("a9", true)] ∧
      ((handleAddressRequest addressEnv threeAddressDB "u1"
        (.update "a3" (defaultBody (some true)))).1.users "u1").map
          (fun u => u.addresses.map (fun a => (a._id, a.isDefault))) =
        some [("a1", false), ("a2", false), ("a3", true)] ∧
      ((handleAddressRequest addressEnv threeAddressDB "u1" (.delete "a2")).1.users "u1").map
          (fun u => u.addresses.map (fun a => (a._id, a.isDefault))) =
        some [("a1", true), ("a3", false)] ∧
      ((handleAddressRequest addressEnv threeAddressDB "u1" (.setDefault "a1")).1.users "u1").map
          (fun u => u.addresses.map (fun a => (a._id, a.isDefault))) =
        some [("a1", true), ("a2", false), ("a3", false)] ∧
      ∃ after, (handleAddressRequest addressEnv threeAddressDB "u1" (.delete "a2")).1.users "u1" =
          some after ∧ defaultCount after.addresses ≤ 1 :=
  ⟨by decide!, by decide!, by decide!, by decide!,
    (at_most_one_default_preserved addressEnv threeAddressDB "u1" (.delete "a2") "u1"
      { addresses := [homeAddress, workAddress, officeAddress], orders := [] }
      (by decide!) (by decide!)).1⟩

theorem ids_ne_of_nodup {pre post : List Address} {target : Address}
    (hids : ((pre ++ target :: post).map (fun a => a._id)).Nodup) :
    (∀ a ∈ pre, ¬ a._id = target._id) ∧ ∀ a ∈ post, ¬ a._id = target._id := by
  rw [List.map_append, List.map_cons] at hids
  have h := List.nodup_middle.mp hids
  rw [List.nodup_cons] at h
  have hnot := h.1
  constructor
  · intro a ha heq
    exact hnot (List.mem_append_left _ (heq ▸ List.mem_map_of_mem (fun a => a._id) ha))
  · intro a ha heq
    exact hnot (List.mem_append_right _ (heq ▸ List.mem_map_of_mem (fun a => a._id) ha))

theorem addressById_of_ne {addresses : List Address} {id : String}
    (h : ∀ a ∈ addresses, ¬ a._id = id) (rest : List Address) :
    addressById (addresses ++ rest) id = addressById rest id := by
  induction addresses with
  | nil => rfl
  | cons a l ih =>
    rw [List.cons_append, addressById_cons_ne _ (h a (List.mem_cons_self a l))]
    exact ih (fun b hb => h b (List.mem_cons_of_mem a hb))

theorem pullAddress_of_ne {addresses : List Address} {id : String}
    (h : ∀ a ∈ addresses, ¬ a._id = id) : pullAddress addresses id = addresses := by
  unfold pullAddress
  rw [List.filter_eq_self]
  intro a ha
  simpa using h a ha

theorem pullAddress_decomposed {pre post : List Address} {target : Address}
    (hids : ((pre ++ target :: post).map (fun a => a._id)).Nodup) :
    pullAddress (pre ++ target :: post) target._id = pre ++ post := by
  obtain ⟨hpre, hpost⟩ := ids_ne_of_nodup hids
  have h1 := pullAddress_of_ne hpre
  have h2 := pullAddress_of_ne hpost
  unfold pullAddress at h1 h2 ⊢
  rw [List.filter_append, List.filter_cons, h1, h2]
  simp

theorem addressById_decomposed {pre post : List Address} {target : Address}
    (hids : ((pre ++ target :: post).map (fun a => a._id)).Nodup) :
    addressById (pre ++ target :: post) target._id = some target := by
  rw [addressById_of_ne (ids_ne_of_nodup hids).1, addressById_cons_eq _ rfl]

/-- C27: deleting a saved address of a user (pairwise different `_id`s; the save is accepted)
removes exactly that address: the addresses before it and after it stay, in their order. When
the deleted address was not the default one, no remaining address changes. When it was the
default one, the first remaining address, if there is one, gets `isDefault = true` and nothing
else changes. The handler answers that the address is deleted. -/
theorem delete_address_removes_and_promotes (e : AddressEnv) (db : DB) (userId : String)
    (user : User) (pre post : List Address) (target : Address)
    (hu : db.users userId = some user)
    (hsplit : user.addresses = pre ++ target :: post)
    (hids : (user.addresses.map (fun a => a._id)).Nodup)
    (hv : e.validUser
      { user with
        addresses := if target.isDefault = true then promoteFirst (pre ++ post)
          else pre ++ post } = true) :
    deleteAddress e db userId target._id =
        (saveUser db userId
          { user with
            addresses := if target.isDefault = true then promoteFirst (pre ++ post)
              else pre ++ post }, .deleted) ∧
      (∀ first rest, pre ++ post = first :: rest →
        promoteFirst (pre ++ post) = { first with isDefault := true } :: rest) ∧
      (pre ++ post = [] → promoteFirst (pre ++ post) = []) := by
  rw [hsplit] at hids
  have hfind : addressById user.addresses target._id = some target := by
    rw [hsplit]
    exact addressById_decomposed hids
  have hpull : pullAddress user.addresses target._id = pre ++ post := by
    rw [hsplit]
    exact pullAddress_decomposed hids
  refine ⟨?_, ?_, ?_⟩
  · by_cases hd : target.isDefault = true
    · rw [if_pos hd] at hv ⊢
      cases hl : pre ++ post with
      | nil =>
        rw [hl] at hv hpull
        simp only [promoteFirst] at hv
        simp [deleteAddress, hu, hfind, hpull, hd, hv, promoteFirst]
      | cons first rest =>
        rw [hl] at hv hpull
        simp [deleteAddress, hu, hfind, hpull, hd, hv]
    · rw [if_neg hd] at hv ⊢
      simp [deleteAddress, hu, hfind, hpull, hd, hv]
  · intro first rest hl
    rw [hl]
    rfl
  · intro hl
    rw [hl]
    rfl

/-- C27, scenario: the user `u1` has the addresses `a1`, `a2` (the default one) and `a3`.
Deleting `a2` leaves `a1` and `a3` in that order, with `a1` promoted to default. -/
theorem delete_address_removes_and_promotes_witness :
    deleteAddress addressEnv threeAddressDB "u1" "a2" =
      (saveUser threeAddressDB "u1"
        { addresses := [{ homeAddress with isDefault := true }, officeAddress], orders := [] },
        .deleted) :=
  (delete_address_removes_and_promotes addressEnv threeAddressDB "u1"
    { addresses := [homeAddress, workAddress, officeAddress], orders := [] }
    [homeAddress] [officeAddress] workAddress (by decide!) rfl (by decide!) rfl).1

theorem assignAddress_of_ne {addresses : List Address} {id : String}
    (h : ∀ a ∈ addresses, ¬ a._id = id) (f : Address → Address) (rest : List Address) :
    assignAddress id f (addresses ++ rest) = addresses ++ assignAddress id f rest := by
  induction addresses with
  | nil => rfl
  | cons a l ih =>
    have ha : ¬ a._id = id := h a (List.mem_cons_self a l)
    simp only [List.cons_append, assignAddress, ha, if_false]
    exact congrArg (fun l => a :: l) (ih (fun b hb => h b (List.mem_cons_of_mem a hb)))

theorem unsetDefaults_of_ne_map {addresses : List Address} {target : Address}
    (h : ∀ a ∈ addresses, ¬ a._id = target._id) :
    unsetDefaults addresses =
      addresses.map (fun a => { a with isDefault := decide (a = target) }) := by
  unfold unsetDefaults
  apply List.map_congr_left
  intro a ha
  have hne : ¬ a = target := fun heq => h a ha (heq ▸ rfl)
  simp [hne]

theorem setDefault_decomposed {pre post : List Address} {target : Address}
    (hids : ((pre ++ target :: post).map (fun a => a._id)).Nodup) :
    assignAddress target._id (fun address => { address with isDefault := true })
        (unsetDefaults (pre ++ target :: post)) =
      (pre ++ target :: post).map (fun a => { a with isDefault := decide (a = target) }) := by
  obtain ⟨hpre, hpost⟩ := ids_ne_of_nodup hids
  have hpre' : ∀ a ∈ unsetDefaults pre, ¬ a._id = target._id := by
    intro a ha
    simp only [unsetDefaults, List.mem_map] at ha
    obtain ⟨b, hb, rfl⟩ := ha
    exact hpre b hb
  have hsplit : unsetDefaults (pre ++ target :: post) =
      unsetDefaults pre ++ { target with isDefault := false } :: unsetDefaults post := by
    simp [unsetDefaults]
  rw [hsplit, assignAddress_of_ne hpre']
  simp only [assignAddress, if_true, List.map_append, List.map_cons]
  rw [unsetDefaults_of_ne_map hpre, unsetDefaults_of_ne_map hpost]
  simp

theorem defaultCount_map_eq_target {addresses : List Address} {target : Address}
    (hids : (addresses.map (fun a => a._id)).Nodup) (hmem : target ∈ addresses) :
    defaultCount (addresses.map (fun a => { a with isDefault := decide (a = target) })) = 1 := by
  have hnd : addresses.Nodup := List.Nodup.of_map _ hids
  have hc : List.count target addresses = 1 := List.count_eq_one_of_mem hnd hmem
  rw [← hc]
  simp only [defaultCount, List.countP_map, List.count]
  apply List.countP_congr
  intro a _
  simp [Function.comp]

/-- C26: setting a saved address of a user as default (pairwise different `_id`s; the save is
accepted) saves the addresses of the user in their positions with `isDefault = true` on the
target and `isDefault = false` on every other one, every other field as it was, and answers
with the target. So exactly one address is then a default one, and an address other than the
target is changed exactly when it was a default one before. -/
theorem set_default_exactly_target (e : AddressEnv) (db : DB) (userId : String)
    (user : User) (target : Address)
    (hu : db.users userId = some user)
    (hmem : target ∈ user.addresses)
    (hids : (user.addresses.map (fun a => a._id)).Nodup)
    (hv : e.validUser
      { user with
        addresses :=
          user.addresses.map (fun a => { a with isDefault := decide (a = target) }) } = true) :
    setDefaultAddress e db userId target._id =
        (saveUser db userId
          { user with
            addresses :=
              user.addresses.map (fun a => { a with isDefault := decide (a = target) }) },
          .address 200 { target with isDefault := true }) ∧
      defaultCount
        (user.addresses.map (fun a => { a with isDefault := decide (a = target) })) = 1 ∧
      ∀ a ∈ user.addresses, a ≠ target →
        ({ a with isDefault := decide (a = target) } ≠ a ↔ a.isDefault = true) := by
  obtain ⟨pre, post, hsplit⟩ := List.append_of_mem hmem
  have hids' := hids
  rw [hsplit] at hids'
  have hfind : addressById user.addresses target._id = some target := by
    rw [hsplit]
    exact addressById_decomposed hids'
  have hlist : assignAddress target._id (fun address => { address with isDefault := true })
      (unsetDefaults user.addresses) =
      user.addresses.map (fun a => { a with isDefault := decide (a = target) }) := by
    rw [hsplit]
    exact setDefault_decomposed hids'
  refine ⟨?_, defaultCount_map_eq_target hids hmem, ?_⟩
  · simp [setDefaultAddress, hu, hfind, hlist, hv]
  · intro a _ hne
    cases a with
    | mk _id label street city area landmark phone isDefault coordinates =>
      cases isDefault <;> simp [hne]

/-- C26, scenario: the user `u1` has the addresses `a1`, `a2` (the default one) and `a3`.
Setting `a1` as default saves the three addresses in their positions, `a1` the default one and
`a2` no longer one. -/
theorem set_default_exactly_target_witness :
    setDefaultAddress addressEnv threeAddressDB "u1" "a1" =
      (saveUser threeAddressDB "u1"
        { addresses :=
            [{ homeAddress with isDefault := true }, { workAddress with isDefault := false },
              officeAddress],
          orders := [] },
        .address 200 { homeAddress with isDefault := true }) :=
  (set_default_exactly_target addressEnv threeAddressDB "u1"
    { addresses := [homeAddress, workAddress, officeAddress], orders := [] }
    homeAddress (by decide!) (by decide!) (by decide!) rfl).1.trans (by
      refine Prod.ext ?_ rfl
      show saveUser threeAddressDB "u1" _ = saveUser threeAddressDB "u1" _
      congr 1)

/-! ## The default coordinates of a city (C28) -/

theorem cityCoordsGet_kathmandu : cityCoordsGet "kathmandu" = .coordinates 27.7172 85.3240 := by
  decide!

theorem getDefaultCityCoordinates_of_listed (city : String) (c : Coordinates)
    (h : cityCoords.lookup (trim (toLowerCase city)) = some c) :
    getDefaultCityCoordinates city = .coordinates c.lat c.lng := by
  simp [getDefaultCityCoordinates, cityCoordsGet, h, CityValue.truthy]

theorem getDefaultCityCoordinates_of_unlisted (city : String)
    (h : cityCoords.lookup (trim (toLowerCase city)) = none)
    (hp : trim (toLowerCase city) ∉ objectPrototypeProperties) :
    getDefaultCityCoordinates city = .coordinates 27.7172 85.3240 := by
  have hk := cityCoordsGet_kathmandu
  simp [getDefaultCityCoordinates, cityCoordsGet, h, hp, CityValue.truthy] at hk ⊢
  exact hk

/-- C28, at the failing input: `constructor` is none of the ten listed cities, and
`getDefaultCityCoordinates` returns for it the `constructor` property that the table inherits
from `Object.prototype`, not the pair of Kathmandu; the same holds for ` Constructor ` and for
`__proto__`. The listed city ` Pokhara ` and the unlisted city `Dhangadhi` get the pair of the
table and the pair of Kathmandu. -/
theorem city_coordinates_inherited_property :
    cityCoords.lookup "constructor" = none ∧
      getDefaultCityCoordinates "constructor" = .inherited "constructor" ∧
      getDefaultCityCoordinates "constructor" ≠ .coordinates 27.7172 85.3240 ∧
      getDefaultCityCoordinates " Constructor " = .inherited "constructor" ∧
      getDefaultCityCoordinates "__proto__" = .inherited "__proto__" ∧
      getDefaultCityCoordinates " Pokhara " = .coordinates 28.2096 83.9856 ∧
      getDefaultCityCoordinates "Dhangadhi" = .coordinates 27.7172 85.3240 := by
  decide!

/-! ## Quantities below one (C30) -/

/-- C30, at the failing input: with the price 180 of `P1`, no coupon and the delivery fee 50,
the request for minus one unit of `P1` persists an order with the subtotal -180 and the total
-130, and the stock of `P1` is 6 after the request, one more than the 5 before it. -/
theorem negative_quantity_order_persisted :
    scenarioProduct.price = 180 ∧ scenarioProduct.stock = 5 ∧
      DELIVERY_CHARGE scenarioEnv = 50 ∧
      (persistedOrders scenarioEnv scenarioDB negativeQtyRequest).map
          (fun o => (o.items, o.subtotal, o.deliveryCharge, o.discountAmount, o.total)) =
        [([{ productId := "P1", qty := -1, price := 180 }], -180, 50, 0, -130)] ∧
      ((createOrder scenarioEnv scenarioDB negativeQtyRequest).1.products "P1").map
          (fun p => p.stock) = some 6 := by
  decide!

end FoodDelivery
